import Mathlib

/-!
Verification development for the subgraph extraction and inlining engine of a
visual-scripting editor (source: src/editor/script_view.cpp).

The data model (nodes, pins, connections, graphs, functions) is a shallow
embedding of the Graph Model consumed by the engine.  Node positions are
embedded as rational pairs: the source operates on 2D float vectors but the
engine only ever compares, adds, subtracts and halves coordinates, and every
such operation is exact, so the rational embedding is faithful on the
algebra the engine uses.

Graph Model mutation primitives (link, unlink, move, duplicate, remove) live
outside the reviewed source file; each is modelled from the spec and marked
as such in its doc comment.  Pin-level connection back-references are
derived views of the global connection list (the spec declares the global
list the single source of truth and the back-references denormalized views
that must stay consistent with it), so queries that the source performs
through pin back-references are embedded as queries on the global list.
-/

namespace OModel

/-- Two-dimensional vector with rational coordinates. -/
structure Vec2 where
  x : ℚ
  y : ℚ
deriving DecidableEq, Repr

instance : Add Vec2 := ⟨fun a b => ⟨a.x + b.x, a.y + b.y⟩⟩

instance : Sub Vec2 := ⟨fun a b => ⟨a.x - b.x, a.y - b.y⟩⟩

theorem Vec2.add_def (a b : Vec2) : a + b = ⟨a.x + b.x, a.y + b.y⟩ := rfl

theorem Vec2.sub_def (a b : Vec2) : a - b = ⟨a.x - b.x, a.y - b.y⟩ := rfl

/-- Axis-aligned rectangle, stored as position and size (Godot Rect2). -/
structure Rect2 where
  position : Vec2
  size : Vec2
deriving DecidableEq, Repr

/-- Godot Rect2.expand_to: grow the rectangle so the given point lies inside it. -/
def Rect2.expand_to (r : Rect2) (p : Vec2) : Rect2 :=
  let bx := min r.position.x p.x
  let by_ := min r.position.y p.y
  let ex := max (r.position.x + r.size.x) p.x
  let ey := max (r.position.y + r.size.y) p.y
  ⟨⟨bx, by_⟩, ⟨ex - bx, ey - by_⟩⟩

/-- Godot Rect2.get_center: position + size / 2. -/
def Rect2.get_center (r : Rect2) : Vec2 :=
  ⟨r.position.x + r.size.x / 2, r.position.y + r.size.y / 2⟩

/-- Closed containment of a point in a rectangle. -/
def Rect2.contains_point (r : Rect2) (p : Vec2) : Prop :=
  r.position.x ≤ p.x ∧ p.x ≤ r.position.x + r.size.x ∧
  r.position.y ≤ p.y ∧ p.y ≤ r.position.y + r.size.y

/-- The outer rectangle encloses the inner one (both intervals nested, per axis). -/
def Rect2.encloses (outer inner : Rect2) : Prop :=
  outer.position.x ≤ inner.position.x ∧
  inner.position.x + inner.size.x ≤ outer.position.x + outer.size.x ∧
  outer.position.y ≤ inner.position.y ∧
  inner.position.y + inner.size.y ≤ outer.position.y + outer.size.y

/-- A pin: connection point on a node.  Direction is implicit in which of the
node's two pin lists holds it; `is_execution` distinguishes control-flow pins
from data pins; `pin_type` is the value type (an abstract type code). -/
structure Pin where
  pin_name : String
  pin_type : Nat
  is_execution : Bool
deriving DecidableEq, Repr

/-- Closed tagged variant of the node kinds the engine discriminates on. -/
inductive NodeKind where
  | functionEntry
  | functionResult
  | callScriptFunction (fname : String)
  | generic
deriving DecidableEq, Repr

def is_entry_kind : NodeKind → Bool
  | NodeKind.functionEntry => true
  | _ => false

def is_result_kind : NodeKind → Bool
  | NodeKind.functionResult => true
  | _ => false

/-- A node of the graph model: stable integer id, 2D position, port-ordered
input and output pin lists, the duplicate capability flag and its kind. -/
structure Node where
  id : Nat
  position : Vec2
  inputs : List Pin
  outputs : List Pin
  can_duplicate : Bool
  kind : NodeKind
deriving DecidableEq, Repr

def defaultPin : Pin := ⟨"", 0, false⟩

def defaultNode : Node := ⟨0, ⟨0, 0⟩, [], [], false, NodeKind.generic⟩

/-- A connection: ordered 4-tuple (source node id, source port, destination
node id, destination port). -/
structure Connection where
  from_node : Nat
  from_port : Nat
  to_node : Nat
  to_port : Nat
deriving DecidableEq, Repr

/-- A named subgraph: owns the listed node ids. -/
structure OScriptGraph where
  graph_name : String
  node_ids : List Nat
deriving DecidableEq, Repr

/-- Function metadata: name (also the name of its backing subgraph), ordered
argument list of (name, type) pairs, optional return type, the Entry node id
and the optional Result node id. -/
structure OScriptFunction where
  fn_name : String
  args : List (String × Nat)
  has_return_value : Bool
  return_type : Nat
  owning_node_id : Nat
  result_node_id : Option Nat
deriving DecidableEq, Repr

/-- The owning script: nodes, the canonical global connection list, named
subgraphs, functions, and the monotone node-id allocator. -/
structure Orchestration where
  nodes : List Node
  connections : List Connection
  graphs : List OScriptGraph
  functions : List OScriptFunction
  next_id : Nat
deriving DecidableEq, Repr

/-- Modelled from the spec: node lookup by id in the orchestration. -/
def Orchestration.get_node (st : Orchestration) (i : Nat) : Option Node :=
  st.nodes.find? (fun n => n.id == i)

/-- Modelled from the spec: graph link primitive, records a connection in the
global connection list (the single source of truth). -/
def Orchestration.link (st : Orchestration) (c : Connection) : Orchestration :=
  { st with connections := st.connections ++ [c] }

/-- Modelled from the spec: graph unlink primitive, removes a connection from
the global connection list. -/
def Orchestration.unlink (st : Orchestration) (c : Connection) : Orchestration :=
  { st with connections := st.connections.filter (fun d => !(d == c)) }

/-- Modelled from the spec: in-place update of the node with the given id. -/
def Orchestration.update_node (st : Orchestration) (i : Nat) (f : Node → Node) : Orchestration :=
  { st with nodes := st.nodes.map (fun n => if n.id == i then f n else n) }

/-- Modelled from the spec: create a node inside the named graph.  The caller
builds the node with `id = st.next_id`; the allocator advances monotonically. -/
def Orchestration.add_node (st : Orchestration) (gname : String) (n : Node) : Orchestration :=
  { st with
    nodes := st.nodes ++ [n],
    graphs := st.graphs.map (fun g =>
      if g.graph_name == gname then { g with node_ids := g.node_ids ++ [n.id] } else g),
    next_id := st.next_id + 1 }

/-- Modelled from the spec: atomic ownership transfer of a node between two
subgraphs; the node record (position, pins) is unchanged. -/
def Orchestration.move_node_to (st : Orchestration) (nid : Nat) (src dst : String) : Orchestration :=
  { st with graphs := st.graphs.map (fun g =>
      if g.graph_name == src then { g with node_ids := g.node_ids.filter (fun i => !(i == nid)) }
      else if g.graph_name == dst then { g with node_ids := g.node_ids ++ [nid] }
      else g) }

/-- Modelled from the spec: node removal; dangling connections are forbidden,
so every connection touching the node is removed with it. -/
def Orchestration.remove_node (st : Orchestration) (nid : Nat) : Orchestration :=
  { st with
    nodes := st.nodes.filter (fun n => !(n.id == nid)),
    graphs := st.graphs.map (fun g => { g with node_ids := g.node_ids.filter (fun i => !(i == nid)) }),
    connections := st.connections.filter (fun c => !(c.from_node == nid) && !(c.to_node == nid)) }

/-- Modelled from the spec: append one (name, type) argument to the named
function (resize_argument_list + set_argument_name + set_argument_type). -/
def Orchestration.add_function_argument (st : Orchestration) (fname aname : String) (atype : Nat) : Orchestration :=
  { st with functions := st.functions.map (fun f =>
      if f.fn_name == fname then { f with args := f.args ++ [(aname, atype)] } else f) }

/-- Modelled from the spec: mark the named function as having a return value
of the given type (set_has_return_value + set_return_type); the function's
Result node mirrors the return value as a new data input pin. -/
def Orchestration.set_function_return (st : Orchestration) (fname : String) (t : Nat) (result_id : Nat) : Orchestration :=
  { st with
    functions := st.functions.map (fun f =>
      if f.fn_name == fname then { f with has_return_value := true, return_type := t } else f),
    nodes := st.nodes.map (fun n =>
      if n.id == result_id then { n with inputs := n.inputs ++ [⟨"return value", t, false⟩] } else n) }

/-- Derived pin back-references (spec: denormalized views of the global list):
owning node ids of the pins connected into input pin `port` of node `nid`. -/
def Orchestration.input_refs (st : Orchestration) (nid port : Nat) : List Nat :=
  (st.connections.filter (fun c => c.to_node == nid && c.to_port == port)).map (fun c => c.from_node)

/-- Derived pin back-references: owning node ids of the pins connected from
output pin `port` of node `nid`. -/
def Orchestration.output_refs (st : Orchestration) (nid port : Nat) : List Nat :=
  (st.connections.filter (fun c => c.from_node == nid && c.from_port == port)).map (fun c => c.to_node)

/-- has_any_connections on an input pin, derived from the global list. -/
def Orchestration.input_pin_connected (st : Orchestration) (nid port : Nat) : Bool :=
  st.connections.any (fun c => c.to_node == nid && c.to_port == port)

/-- has_any_connections on an output pin, derived from the global list. -/
def Orchestration.output_pin_connected (st : Orchestration) (nid port : Nat) : Bool :=
  st.connections.any (fun c => c.from_node == nid && c.from_port == port)

/-- Membership test of a node id in a node list (the selection), mirroring
p_nodes.has(...) / the selection hash map. -/
def nodes_has (sel : List Node) (i : Nat) : Bool :=
  sel.any (fun n => n.id == i)

/-- Classification record produced by _resolve_node_set_connections:
the three buckets plus the four per-pin crossing counters. -/
structure NodeSetConnections where
  connections : List Connection
  inputs : List Connection
  outputs : List Connection
  input_executions : Nat
  input_data : Nat
  output_executions : Nat
  output_data : Nat
deriving DecidableEq, Repr

/-- Per-pin crossing counter pass of _resolve_node_set_connections, generic in
the pin back-reference oracle `refs` (owner ids of the pins connected to pin
`port` of node `nid`).  For each selected node, for each of its pins on the
given side, it counts the pin's connections whose other endpoint lies outside
the selection, keeping the pins whose execution flag matches `want`. -/
def pin_cross_count (refs : Nat → Nat → List Nat) (sel : List Node)
    (pins : Node → List Pin) (want : Bool) : Nat :=
  (sel.map (fun n =>
    (((pins n).enum).map (fun ip =>
      if ip.2.is_execution == want then
        ((refs n.id ip.1).filter (fun owner => !nodes_has sel owner)).length
      else 0)).sum)).sum

/-- Embedding of _resolve_node_set_connections.  The counters come from the
per-pin pass over the selected nodes' own pins (back-references read through
the derived views); the buckets come from the single scan of the global
connection list with a membership test on each endpoint. -/
def resolve_node_set_connections (st : Orchestration) (sel : List Node) : NodeSetConnections :=
  { input_executions := pin_cross_count st.input_refs sel (fun n => n.inputs) true
    input_data := pin_cross_count st.input_refs sel (fun n => n.inputs) false
    output_executions := pin_cross_count st.output_refs sel (fun n => n.outputs) true
    output_data := pin_cross_count st.output_refs sel (fun n => n.outputs) false
    connections := st.connections.filter (fun c => nodes_has sel c.from_node && nodes_has sel c.to_node)
    inputs := st.connections.filter (fun c => !nodes_has sel c.from_node && nodes_has sel c.to_node)
    outputs := st.connections.filter (fun c => nodes_has sel c.from_node && !nodes_has sel c.to_node) }

/-- Embedding of _get_node_set_rect: degenerate rectangle anchored at the
first node's position, expanded to every node's position; the empty sequence
yields the default (empty) rectangle sentinel. -/
def get_node_set_rect (nodes : List Node) : Rect2 :=
  match nodes with
  | [] => ⟨⟨0, 0⟩, ⟨0, 0⟩⟩
  | n0 :: _ => nodes.foldl (fun r n => r.expand_to n.position) ⟨n0.position, ⟨0, 0⟩⟩

/-- The execution pin carried by Entry (output 0), Result (input 0) and Call
(input and output 0) nodes. -/
def execPin : Pin := ⟨"ExecIn", 0, true⟩

/-- Error kinds reported by the collapse operation's precondition checks. -/
inductive CollapseError where
  | invalidSelection (node_id : Nat)
  | tooManyInputExecutions
  | tooManyOutputExecutions
  | tooManyOutputs
  | functionCreationFailed
deriving DecidableEq, Repr

/-- Modelled from the spec: deterministic base-name + numeric suffix
uniquification of a new function name against the existing names
(NameUtils::create_unique_name, outside the reviewed source). -/
def create_unique_name (base : String) (existing : List String) : String :=
  if !existing.contains base then base
  else
    let rec go (k fuel : Nat) : String :=
      match fuel with
      | 0 => base ++ toString k
      | fuel + 1 =>
        let cand := base ++ toString k
        if existing.contains cand then go (k + 1) fuel else cand
    go 1 (existing.length + 1)

/-- Embedding of _create_new_function: refuse on a graph-name collision,
otherwise create the function graph, the Entry node, and (when requested) a
Result node at a fixed (300, 0) offset from the Entry node, and register the
function (no arguments, no return value). -/
def create_new_function (st : Orchestration) (name : String) (add_return_node : Bool) :
    Orchestration × Option OScriptFunction :=
  if st.graphs.any (fun g => g.graph_name == name) then (st, none)
  else
    let entry_id := st.next_id
    let entry : Node :=
      { id := entry_id, position := ⟨0, 0⟩, inputs := [], outputs := [execPin],
        can_duplicate := false, kind := NodeKind.functionEntry }
    let stg := { st with graphs := st.graphs ++ [(⟨name, []⟩ : OScriptGraph)] }
    let st1 := stg.add_node name entry
    if add_return_node then
      let result_id := st1.next_id
      let result : Node :=
        { id := result_id, position := entry.position + ⟨300, 0⟩, inputs := [execPin],
          outputs := [], can_duplicate := false, kind := NodeKind.functionResult }
      let st2 := st1.add_node name result
      let fn : OScriptFunction :=
        { fn_name := name, args := [], has_return_value := false, return_type := 0,
          owning_node_id := entry_id, result_node_id := some result_id }
      ({ st2 with functions := st2.functions ++ [fn] }, some fn)
    else
      let fn : OScriptFunction :=
        { fn_name := name, args := [], has_return_value := false, return_type := 0,
          owning_node_id := entry_id, result_node_id := none }
      ({ st1 with functions := st1.functions ++ [fn] }, some fn)

/-- Pin of the external source endpoint of an inbound connection: output pin
`from_port` of the node `from_node`. -/
def source_pin_of (st : Orchestration) (E : Connection) : Pin :=
  ((st.get_node E.from_node).getD defaultNode).outputs.getD E.from_port defaultPin

/-- Pin of the destination endpoint of a connection: input pin `to_port` of
the node `to_node`. -/
def target_pin_of (st : Orchestration) (E : Connection) : Pin :=
  ((st.get_node E.to_node).getD defaultNode).inputs.getD E.to_port defaultPin

/-- Loop state of the inbound rewiring pass of _collapse_selected_to_function. -/
structure InboundAcc where
  st : Orchestration
  input_index : Nat
  call_input_index : Nat
  input_execution_wired : Bool
  call_execution_wired : Bool
  entry_positioned : Bool

/-- Inbound rewiring pass (source lines 203-250): for each severed inbound
connection, wire the external source to the Call node (execution input 0 for
the first execution source, next unused data input otherwise), reposition the
Entry node once beside the first inside destination, and for a data inside
destination append a Function argument (mirrored as a new Entry data output
pin) and wire the Entry's data output to the inside destination; the first
execution inside destination is wired from the Entry's execution output 0. -/
def wire_inbound_step (call_id entry_id : Nat) (fname : String) (E : Connection)
    (acc : InboundAcc) : InboundAcc :=
  let source_pin := source_pin_of acc.st E
  let acc1 :=
    if source_pin.is_execution && !acc.call_execution_wired then
      { acc with st := acc.st.link ⟨E.from_node, E.from_port, call_id, 0⟩,
                 call_execution_wired := true }
    else if !source_pin.is_execution then
      { acc with st := acc.st.link ⟨E.from_node, E.from_port, call_id, acc.call_input_index⟩,
                 call_input_index := acc.call_input_index + 1 }
    else acc
  let target := (acc1.st.get_node E.to_node).getD defaultNode
  let target_pin := target.inputs.getD E.to_port defaultPin
  let acc2 :=
    if !acc1.entry_positioned then
      { acc1 with st := acc1.st.update_node entry_id
                    (fun n => { n with position := target.position - ⟨250, 0⟩ }),
                  entry_positioned := true }
    else acc1
  if !target_pin.is_execution then
    let stArg := (acc2.st.add_function_argument fname target_pin.pin_name target_pin.pin_type).update_node
      entry_id (fun n => { n with outputs := n.outputs ++ [⟨target_pin.pin_name, target_pin.pin_type, false⟩] })
    { acc2 with st := stArg.link ⟨entry_id, acc2.input_index, E.to_node, E.to_port⟩,
                input_index := acc2.input_index + 1 }
  else if !acc2.input_execution_wired then
    { acc2 with st := acc2.st.link ⟨entry_id, 0, E.to_node, E.to_port⟩,
                input_execution_wired := true }
  else acc2

def wire_inbound (call_id entry_id : Nat) (fname : String) :
    List Connection → InboundAcc → InboundAcc
  | [], acc => acc
  | E :: rest, acc =>
    wire_inbound call_id entry_id fname rest (wire_inbound_step call_id entry_id fname E acc)

/-- Loop state of the outbound-to-Result rewiring pass. -/
structure OutboundAcc where
  st : Orchestration
  output_execution_wired : Bool
  output_data_wired : Bool
  positioned : Bool

/-- Outbound rewiring pass toward the Result node (source lines 252-283):
reposition the Result node once beside the first inside source; wire the
first execution inside source to the Result's execution input 0; the first
data inside source marks the function as returning that pin's type and is
wired to the Result's data input 1. -/
def wire_outbound_step (result_id : Nat) (fname : String) (E : Connection)
    (acc : OutboundAcc) : OutboundAcc :=
  let source := (acc.st.get_node E.from_node).getD defaultNode
  let source_pin := source.outputs.getD E.from_port defaultPin
  let acc1 :=
    if !acc.positioned then
      { acc with st := acc.st.update_node result_id
                   (fun n => { n with position := source.position + ⟨250, 0⟩ }),
                 positioned := true }
    else acc
  if source_pin.is_execution && !acc1.output_execution_wired then
    { acc1 with st := acc1.st.link ⟨E.from_node, E.from_port, result_id, 0⟩,
                output_execution_wired := true }
  else if !source_pin.is_execution && !acc1.output_data_wired then
    let stRet := acc1.st.set_function_return fname source_pin.pin_type result_id
    { acc1 with st := stRet.link ⟨E.from_node, E.from_port, result_id, 1⟩,
                output_data_wired := true }
  else acc1

def wire_outbound_result (result_id : Nat) (fname : String) :
    List Connection → OutboundAcc → OutboundAcc
  | [], acc => acc
  | E :: rest, acc =>
    wire_outbound_result result_id fname rest (wire_outbound_step result_id fname E acc)

/-- Degenerate-path fixup (source lines 285-298): when the Result node's
execution input and the Entry node's execution output both end up with no
connection, synthesize the direct Entry to Result execution link; when the
Entry node's output pin list is the lone execution pin, reposition the Entry
node at a fixed (250, 0) offset left of the Result node. -/
def fixup_degenerate (st : Orchestration) (entry_id result_id : Nat) : Orchestration :=
  let result := (st.get_node result_id).getD defaultNode
  if 0 < result.inputs.length && !st.input_pin_connected result_id 0 then
    let entry := (st.get_node entry_id).getD defaultNode
    if 0 < entry.outputs.length && !st.output_pin_connected entry_id 0 then
      let st1 := st.link ⟨entry_id, 0, result_id, 0⟩
      if ((st1.get_node entry_id).getD defaultNode).outputs.length == 1 then
        let result1 := (st1.get_node result_id).getD defaultNode
        st1.update_node entry_id (fun n => { n with position := result1.position - ⟨250, 0⟩ })
      else st1
    else st
  else st

/-- Loop state of the caller-side Call-node output rewiring pass. -/
structure CallOutAcc where
  st : Orchestration
  call_output_index : Nat
  call_execution_wired : Bool

/-- Caller-side output rewiring pass (source lines 301-318): wire the Call
node's execution output 0 to the first execution external destination, and
its data outputs (from port 1, discovery order) to the data destinations. -/
def wire_call_outputs_step (call_id : Nat) (E : Connection) (acc : CallOutAcc) : CallOutAcc :=
  let target := (acc.st.get_node E.to_node).getD defaultNode
  let target_pin := target.inputs.getD E.to_port defaultPin
  if target_pin.is_execution && !acc.call_execution_wired then
    { acc with st := acc.st.link ⟨call_id, 0, E.to_node, E.to_port⟩,
               call_execution_wired := true }
  else if !target_pin.is_execution then
    { acc with st := acc.st.link ⟨call_id, acc.call_output_index, E.to_node, E.to_port⟩,
               call_output_index := acc.call_output_index + 1 }
  else acc

def wire_call_outputs (call_id : Nat) : List Connection → CallOutAcc → CallOutAcc
  | [], acc => acc
  | E :: rest, acc =>
    wire_call_outputs call_id rest (wire_call_outputs_step call_id E acc)

/-- Mutation pipeline of a successful collapse (source lines 179-322), taken
after the precondition checks and the function creation: sever the boundary
connections, move the selected nodes, spawn the Call node, and run the three
rewiring passes and the degenerate-path fixup. -/
def collapse_pipeline (st : Orchestration) (src_graph : String) (selected : List Node)
    (st1 : Orchestration) (function : OScriptFunction) : Orchestration :=
  let conns := resolve_node_set_connections st selected
  let target_graph := function.fn_name
  let area := get_node_set_rect selected
  let st2 := conns.inputs.foldl (fun s E => s.unlink E) st1
  let st3 := conns.outputs.foldl (fun s E => s.unlink E) st2
  let st4 := selected.foldl (fun s n => s.move_node_to n.id src_graph target_graph) st3
  let call_id := st4.next_id
  let call_node : Node :=
    { id := call_id, position := area.get_center, inputs := [execPin],
      outputs := [execPin], can_duplicate := true,
      kind := NodeKind.callScriptFunction function.fn_name }
  let st5 := st4.add_node src_graph call_node
  let entry_id := function.owning_node_id
  let acc := wire_inbound call_id entry_id function.fn_name conns.inputs
    { st := st5, input_index := 1, call_input_index := 1,
      input_execution_wired := false, call_execution_wired := false,
      entry_positioned := false }
  let st6 := acc.st
  let st7 := match function.result_node_id with
    | some result_id =>
      let oacc := wire_outbound_result result_id function.fn_name conns.outputs
        { st := st6, output_execution_wired := false, output_data_wired := false,
          positioned := false }
      fixup_degenerate oacc.st entry_id result_id
    | none => st6
  let final := wire_call_outputs call_id conns.outputs
    { st := st7, call_output_index := 1, call_execution_wired := false }
  final.st

/-- Embedding of _collapse_selected_to_function.  `selected` is the node list
handed over by the editor, `src_graph` the name of its owning graph.  The C++
routine mutates in place and returns void; the embedding returns the new
orchestration state together with the optionally reported error, the input
state being returned unchanged on every aborted path. -/
def collapse_selected_to_function (st : Orchestration) (src_graph : String)
    (selected : List Node) : Orchestration × Option CollapseError :=
  if selected.isEmpty then (st, none)
  else match selected.find? (fun n => !n.can_duplicate) with
  | some n => (st, some (CollapseError.invalidSelection n.id))
  | none =>
    let conns := resolve_node_set_connections st selected
    if conns.input_executions > 1 then (st, some CollapseError.tooManyInputExecutions)
    else if conns.output_executions > 1 then (st, some CollapseError.tooManyOutputExecutions)
    else if conns.outputs.length > 2 then (st, some CollapseError.tooManyOutputs)
    else
      let new_function_name := create_unique_name "NewFunction" (st.functions.map (fun f => f.fn_name))
      match create_new_function st new_function_name true with
      | (_, none) => (st, some CollapseError.functionCreationFailed)
      | (st1, some function) => (collapse_pipeline st src_graph selected st1 function, none)

/-- HashMap-style lookup in the old-id to new-id remap (absent keys read as
the default-constructed id 0; every lookup performed hits a recorded key). -/
def remap_get (m : List (Nat × Nat)) (k : Nat) : Nat :=
  ((m.find? (fun p => p.1 == k)).map Prod.snd).getD 0

/-- Body of a function's graph as collected by _expand_node: every node of
the graph that is neither the Entry nor the Result node and is duplicable. -/
def function_body_nodes (st : Orchestration) (fname : String) : List Node :=
  (((st.graphs.find? (fun g => g.graph_name == fname)).getD
      (⟨fname, []⟩ : OScriptGraph)).node_ids.filterMap st.get_node).filter
    (fun n => !is_entry_kind n.kind && !is_result_kind n.kind && n.can_duplicate)

/-- Embedding of _expand_node (inline).  Silent no-op unless the id resolves
to a Call node whose Function resolves and whose body holds at least one
duplicable non-Entry non-Result node; otherwise duplicates the body nodes
into the target graph at the anchored offset, recreates their internal
wiring through the id remap, and removes the Call node. -/
def expand_node (st : Orchestration) (p_node_id : Nat) (target_graph : String) : Orchestration :=
  match st.get_node p_node_id with
  | none => st
  | some call_node =>
    match call_node.kind with
    | NodeKind.callScriptFunction fname =>
      match st.functions.find? (fun f => f.fn_name == fname) with
      | none => st
      | some _fn =>
        let selected := function_body_nodes st fname
        if selected.isEmpty then st
        else
          let area := get_node_set_rect selected
          let pos_delta := call_node.position - area.get_center
          let dup := selected.foldl (fun (p : Orchestration × List (Nat × Nat)) node =>
            let new_id := p.1.next_id
            (p.1.add_node target_graph { node with id := new_id, position := node.position + pos_delta },
             p.2 ++ [(node.id, new_id)])) (st, [])
          let st1 := dup.1
          let node_remap := dup.2
          let conns := resolve_node_set_connections st1 selected
          let st2 := conns.connections.foldl (fun s E =>
            s.link ⟨remap_get node_remap E.from_node, E.from_port,
                    remap_get node_remap E.to_node, E.to_port⟩) st1
          st2.remove_node p_node_id
    | _ => st

/-! ### Well-formedness of an orchestration state -/

/-- Node ids are unique across the orchestration and below the allocator. -/
def Orchestration.wf_ids (st : Orchestration) : Prop :=
  (st.nodes.map (fun n => n.id)).Nodup ∧ ∀ n ∈ st.nodes, n.id < st.next_id

/-- Every connection endpoint references an existing pin. -/
def Orchestration.wf_conns (st : Orchestration) : Prop :=
  ∀ c ∈ st.connections,
    (∃ n ∈ st.nodes, n.id = c.from_node ∧ c.from_port < n.outputs.length) ∧
    (∃ n ∈ st.nodes, n.id = c.to_node ∧ c.to_port < n.inputs.length)

/-- Every function is backed by a graph bearing its name. -/
def Orchestration.wf_functions (st : Orchestration) : Prop :=
  ∀ f ∈ st.functions, ∃ g ∈ st.graphs, g.graph_name = f.fn_name

/-! ### Basic bridging lemmas -/

theorem nodes_has_iff (sel : List Node) (i : Nat) :
    nodes_has sel i = true ↔ ∃ n ∈ sel, n.id = i := by
  simp [nodes_has]

theorem nodes_has_false_iff (sel : List Node) (i : Nat) :
    nodes_has sel i = false ↔ ∀ n ∈ sel, n.id ≠ i := by
  rw [← Bool.not_eq_true, nodes_has_iff]
  push_neg
  rfl

/-! ### C4: the boundary classifier partitions the touching connections -/

/-- C4: for every selection and connection list, the three buckets of
_resolve_node_set_connections are pairwise disjoint and their union is
exactly the set of connections with at least one selected endpoint: internal
(both endpoints selected), inbound (destination selected, source not),
outbound (source selected, destination not). -/
theorem c4_boundary_partition (st : Orchestration) (sel : List Node) :
    (∀ c, (c ∈ (resolve_node_set_connections st sel).connections ∨
           c ∈ (resolve_node_set_connections st sel).inputs ∨
           c ∈ (resolve_node_set_connections st sel).outputs) ↔
          (c ∈ st.connections ∧ (nodes_has sel c.from_node = true ∨ nodes_has sel c.to_node = true))) ∧
    (∀ c, c ∈ (resolve_node_set_connections st sel).connections ↔
          (c ∈ st.connections ∧ nodes_has sel c.from_node = true ∧ nodes_has sel c.to_node = true)) ∧
    (∀ c, c ∈ (resolve_node_set_connections st sel).inputs ↔
          (c ∈ st.connections ∧ nodes_has sel c.from_node = false ∧ nodes_has sel c.to_node = true)) ∧
    (∀ c, c ∈ (resolve_node_set_connections st sel).outputs ↔
          (c ∈ st.connections ∧ nodes_has sel c.from_node = true ∧ nodes_has sel c.to_node = false)) ∧
    (∀ c, ¬(c ∈ (resolve_node_set_connections st sel).connections ∧
            c ∈ (resolve_node_set_connections st sel).inputs)) ∧
    (∀ c, ¬(c ∈ (resolve_node_set_connections st sel).connections ∧
            c ∈ (resolve_node_set_connections st sel).outputs)) ∧
    (∀ c, ¬(c ∈ (resolve_node_set_connections st sel).inputs ∧
            c ∈ (resolve_node_set_connections st sel).outputs)) := by
  refine ⟨?_, ?_, ?_, ?_, ?_, ?_, ?_⟩ <;>
    intro c <;>
    simp only [resolve_node_set_connections, List.mem_filter, Bool.and_eq_true,
      Bool.not_eq_true', Bool.not_eq_true] <;>
    rcases h : nodes_has sel c.from_node <;>
    rcases h2 : nodes_has sel c.to_node <;>
    tauto

/-- Witness for C4 on a concrete two-node state. -/
theorem c4_boundary_partition_witness :
    (∀ c, (c ∈ (resolve_node_set_connections ⟨[⟨1, ⟨0,0⟩, [], [], true, NodeKind.generic⟩],
                 [⟨1,0,2,0⟩], [], [], 3⟩ [⟨1, ⟨0,0⟩, [], [], true, NodeKind.generic⟩]).connections ∨
           c ∈ (resolve_node_set_connections ⟨[⟨1, ⟨0,0⟩, [], [], true, NodeKind.generic⟩],
                 [⟨1,0,2,0⟩], [], [], 3⟩ [⟨1, ⟨0,0⟩, [], [], true, NodeKind.generic⟩]).inputs ∨
           c ∈ (resolve_node_set_connections ⟨[⟨1, ⟨0,0⟩, [], [], true, NodeKind.generic⟩],
                 [⟨1,0,2,0⟩], [], [], 3⟩ [⟨1, ⟨0,0⟩, [], [], true, NodeKind.generic⟩]).outputs) ↔
          (c ∈ ([⟨1,0,2,0⟩] : List Connection) ∧
           (nodes_has [⟨1, ⟨0,0⟩, [], [], true, NodeKind.generic⟩] c.from_node = true ∨
            nodes_has [⟨1, ⟨0,0⟩, [], [], true, NodeKind.generic⟩] c.to_node = true))) :=
  (c4_boundary_partition ⟨[⟨1, ⟨0,0⟩, [], [], true, NodeKind.generic⟩], [⟨1,0,2,0⟩], [], [], 3⟩
    [⟨1, ⟨0,0⟩, [], [], true, NodeKind.generic⟩]).1

/-! ### C9: the bounds calculator -/

theorem foldl_min_le_init {α : Type} (f : α → ℚ) (l : List α) (a : ℚ) :
    l.foldl (fun b x => min b (f x)) a ≤ a := by
  induction l generalizing a with
  | nil => simp
  | cons x xs ih => exact le_trans (ih (min a (f x))) (min_le_left _ _)

theorem foldl_min_le_mem {α : Type} (f : α → ℚ) (l : List α) (a : ℚ) :
    ∀ x ∈ l, l.foldl (fun b y => min b (f y)) a ≤ f x := by
  induction l generalizing a with
  | nil => simp
  | cons y ys ih =>
    intro x hx
    rcases List.mem_cons.mp hx with h | h
    · subst h
      exact le_trans (foldl_min_le_init f ys (min a (f x))) (min_le_right _ _)
    · exact ih (min a (f y)) x h

theorem le_foldl_min {α : Type} (f : α → ℚ) (l : List α) (a c : ℚ)
    (h0 : c ≤ a) (h : ∀ x ∈ l, c ≤ f x) :
    c ≤ l.foldl (fun b y => min b (f y)) a := by
  induction l generalizing a with
  | nil => simpa using h0
  | cons y ys ih =>
    refine ih (min a (f y)) (le_min h0 (h y (List.mem_cons_self y ys))) ?_
    intro x hx
    exact h x (List.mem_cons_of_mem y hx)

theorem init_le_foldl_max {α : Type} (f : α → ℚ) (l : List α) (a : ℚ) :
    a ≤ l.foldl (fun b x => max b (f x)) a := by
  induction l generalizing a with
  | nil => simp
  | cons x xs ih => exact le_trans (le_max_left _ _) (ih (max a (f x)))

theorem mem_le_foldl_max {α : Type} (f : α → ℚ) (l : List α) (a : ℚ) :
    ∀ x ∈ l, f x ≤ l.foldl (fun b y => max b (f y)) a := by
  induction l generalizing a with
  | nil => simp
  | cons y ys ih =>
    intro x hx
    rcases List.mem_cons.mp hx with h | h
    · subst h
      exact le_trans (le_max_right _ _) (init_le_foldl_max f ys (max a (f x)))
    · exact ih (max a (f y)) x h

theorem foldl_max_le {α : Type} (f : α → ℚ) (l : List α) (a c : ℚ)
    (h0 : a ≤ c) (h : ∀ x ∈ l, f x ≤ c) :
    l.foldl (fun b y => max b (f y)) a ≤ c := by
  induction l generalizing a with
  | nil => simpa using h0
  | cons y ys ih =>
    refine ih (max a (f y)) (max_le h0 (h y (List.mem_cons_self y ys))) ?_
    intro x hx
    exact h x (List.mem_cons_of_mem y hx)

/-- Coordinates of the fold of expand_to: the position is the running minimum
and the far corner the running maximum of the visited positions. -/
theorem expand_fold_bounds (l : List Node) (r0 : Rect2) :
    (l.foldl (fun r n => r.expand_to n.position) r0).position.x =
      l.foldl (fun a n => min a n.position.x) r0.position.x ∧
    (l.foldl (fun r n => r.expand_to n.position) r0).position.y =
      l.foldl (fun a n => min a n.position.y) r0.position.y ∧
    (l.foldl (fun r n => r.expand_to n.position) r0).position.x +
        (l.foldl (fun r n => r.expand_to n.position) r0).size.x =
      l.foldl (fun a n => max a n.position.x) (r0.position.x + r0.size.x) ∧
    (l.foldl (fun r n => r.expand_to n.position) r0).position.y +
        (l.foldl (fun r n => r.expand_to n.position) r0).size.y =
      l.foldl (fun a n => max a n.position.y) (r0.position.y + r0.size.y) := by
  induction l generalizing r0 with
  | nil => exact ⟨rfl, rfl, rfl, rfl⟩
  | cons n ns ih =>
    obtain ⟨h1, h2, h3, h4⟩ := ih (r0.expand_to n.position)
    refine ⟨?_, ?_, ?_, ?_⟩
    · rw [List.foldl_cons, h1]; rfl
    · rw [List.foldl_cons, h2]; rfl
    · rw [List.foldl_cons, h3, List.foldl_cons]
      congr 1
      show min r0.position.x n.position.x +
        (max (r0.position.x + r0.size.x) n.position.x - min r0.position.x n.position.x) = _
      ring
    · rw [List.foldl_cons, h4, List.foldl_cons]
      congr 1
      show min r0.position.y n.position.y +
        (max (r0.position.y + r0.size.y) n.position.y - min r0.position.y n.position.y) = _
      ring

/-- C9: the bounds calculator returns, for a non-empty node sequence, the
smallest axis-aligned rectangle containing every node position (every
position is inside it, and any rectangle covering all positions encloses
it); a single-node sequence yields the degenerate zero-size rectangle at
that node's position; the empty sequence yields the sentinel rectangle.
The embedding is a pure function of its argument. -/
theorem c9_node_set_rect (nodes : List Node) :
    (nodes = [] → get_node_set_rect nodes = ⟨⟨0, 0⟩, ⟨0, 0⟩⟩) ∧
    (nodes ≠ [] →
      (∀ n ∈ nodes, (get_node_set_rect nodes).contains_point n.position) ∧
      (∀ r : Rect2, (∀ n ∈ nodes, r.contains_point n.position) →
        r.encloses (get_node_set_rect nodes))) ∧
    (∀ n0, nodes = [n0] → get_node_set_rect nodes = ⟨n0.position, ⟨0, 0⟩⟩) := by
  refine ⟨?_, ?_, ?_⟩
  · intro h; subst h; rfl
  · intro hne
    match nodes, hne with
    | n0 :: rest, _ =>
      obtain ⟨h1, h2, h3, h4⟩ := expand_fold_bounds (n0 :: rest) ⟨n0.position, ⟨0, 0⟩⟩
      rw [show get_node_set_rect (n0 :: rest) =
        (n0 :: rest).foldl (fun r n => r.expand_to n.position) ⟨n0.position, ⟨0, 0⟩⟩ from rfl] at *
      constructor
      · intro n hn
        refine ⟨?_, ?_, ?_, ?_⟩
        · rw [h1]; exact foldl_min_le_mem _ _ _ n hn
        · have := mem_le_foldl_max (fun n => n.position.x) (n0 :: rest)
            ((⟨n0.position, ⟨0, 0⟩⟩ : Rect2).position.x + (⟨n0.position, ⟨0, 0⟩⟩ : Rect2).size.x) n hn
          rw [← h3] at this
          simpa using this
        · rw [h2]; exact foldl_min_le_mem _ _ _ n hn
        · have := mem_le_foldl_max (fun n => n.position.y) (n0 :: rest)
            ((⟨n0.position, ⟨0, 0⟩⟩ : Rect2).position.y + (⟨n0.position, ⟨0, 0⟩⟩ : Rect2).size.y) n hn
          rw [← h4] at this
          simpa using this
      · intro r hr
        have hn0 := hr n0 (List.mem_cons_self n0 rest)
        refine ⟨?_, ?_, ?_, ?_⟩
        · rw [h1]
          exact le_foldl_min _ _ _ _ (by simpa using hn0.1) (fun x hx => (hr x hx).1)
        · rw [h3]
          refine foldl_max_le _ _ _ _ ?_ (fun x hx => (hr x hx).2.1)
          simpa using hn0.2.1
        · rw [h2]
          exact le_foldl_min _ _ _ _ (by simpa using hn0.2.2.1) (fun x hx => (hr x hx).2.2.1)
        · rw [h4]
          refine foldl_max_le _ _ _ _ ?_ (fun x hx => (hr x hx).2.2.2)
          simpa using hn0.2.2.2
  · intro n0 h
    subst h
    show Rect2.expand_to ⟨n0.position, ⟨0, 0⟩⟩ n0.position = _
    simp [Rect2.expand_to]

/-- Witness for C9: instantiation at a concrete two-node list. -/
theorem c9_node_set_rect_witness :
    ([(⟨1, ⟨0, 0⟩, [], [], true, NodeKind.generic⟩ : Node),
      ⟨2, ⟨4, 6⟩, [], [], true, NodeKind.generic⟩] = [] →
      get_node_set_rect [⟨1, ⟨0, 0⟩, [], [], true, NodeKind.generic⟩,
        ⟨2, ⟨4, 6⟩, [], [], true, NodeKind.generic⟩] = ⟨⟨0, 0⟩, ⟨0, 0⟩⟩) ∧
    ([(⟨1, ⟨0, 0⟩, [], [], true, NodeKind.generic⟩ : Node),
      ⟨2, ⟨4, 6⟩, [], [], true, NodeKind.generic⟩] ≠ [] →
      (∀ n ∈ [(⟨1, ⟨0, 0⟩, [], [], true, NodeKind.generic⟩ : Node),
        ⟨2, ⟨4, 6⟩, [], [], true, NodeKind.generic⟩],
        (get_node_set_rect [⟨1, ⟨0, 0⟩, [], [], true, NodeKind.generic⟩,
          ⟨2, ⟨4, 6⟩, [], [], true, NodeKind.generic⟩]).contains_point n.position) ∧
      (∀ r : Rect2, (∀ n ∈ [(⟨1, ⟨0, 0⟩, [], [], true, NodeKind.generic⟩ : Node),
          ⟨2, ⟨4, 6⟩, [], [], true, NodeKind.generic⟩], r.contains_point n.position) →
        r.encloses (get_node_set_rect [⟨1, ⟨0, 0⟩, [], [], true, NodeKind.generic⟩,
          ⟨2, ⟨4, 6⟩, [], [], true, NodeKind.generic⟩]))) ∧
    (∀ n0, [(⟨1, ⟨0, 0⟩, [], [], true, NodeKind.generic⟩ : Node),
        ⟨2, ⟨4, 6⟩, [], [], true, NodeKind.generic⟩] = [n0] →
      get_node_set_rect [⟨1, ⟨0, 0⟩, [], [], true, NodeKind.generic⟩,
        ⟨2, ⟨4, 6⟩, [], [], true, NodeKind.generic⟩] = ⟨n0.position, ⟨0, 0⟩⟩) :=
  c9_node_set_rect [⟨1, ⟨0, 0⟩, [], [], true, NodeKind.generic⟩,
    ⟨2, ⟨4, 6⟩, [], [], true, NodeKind.generic⟩]

/-! ### C7: inline is a silent no-op on unresolvable references or empty bodies -/

/-- C7: _expand_node leaves the orchestration state untouched (so the Call
node, when present, stays in place, and no error channel even exists on this
operation) whenever the node id does not resolve, or resolves to a node that
is not a Call node, or the referenced Function is missing, or the function
body holds no duplicable node besides the Entry and Result nodes. -/
theorem c7_expand_noop (st : Orchestration) (p_node_id : Nat) (g : String)
    (h : st.get_node p_node_id = none ∨
      (∃ n, st.get_node p_node_id = some n ∧ ∀ fname, n.kind ≠ NodeKind.callScriptFunction fname) ∨
      (∃ n fname, st.get_node p_node_id = some n ∧ n.kind = NodeKind.callScriptFunction fname ∧
        st.functions.find? (fun f => f.fn_name == fname) = none) ∨
      (∃ n fname, st.get_node p_node_id = some n ∧ n.kind = NodeKind.callScriptFunction fname ∧
        function_body_nodes st fname = [])) :
    expand_node st p_node_id g = st := by
  unfold expand_node
  split
  · rfl
  next call_node heq =>
    split
    next fname heqk =>
      split
      · rfl
      next fn heqf =>
        by_cases hb : (function_body_nodes st fname).isEmpty
        · simp only [hb, if_true]
        · exfalso
          rcases h with h1 | ⟨n, hn, hk⟩ | ⟨n, fname', hn, hk, hf⟩ | ⟨n, fname', hn, hk, hbody⟩
          · rw [h1] at heq; cases heq
          · rw [heq] at hn
            cases hn
            exact hk fname heqk
          · rw [heq] at hn
            cases hn
            rw [heqk] at hk
            injection hk with hfn
            subst hfn
            rw [heqf] at hf
            cases hf
          · rw [heq] at hn
            cases hn
            rw [heqk] at hk
            injection hk with hfn
            subst hfn
            rw [hbody] at hb
            exact hb rfl
    next hnc => rfl

/-- Witness for C7: a state holding a Call node whose function body is just
the Entry and Result nodes; inlining it is a no-op. -/
theorem c7_expand_noop_witness :
    expand_node
      ⟨[⟨0, ⟨0, 0⟩, [execPin], [execPin], true, NodeKind.callScriptFunction "F"⟩,
        ⟨1, ⟨0, 0⟩, [], [execPin], false, NodeKind.functionEntry⟩,
        ⟨2, ⟨300, 0⟩, [execPin], [], false, NodeKind.functionResult⟩],
       [], [⟨"F", [1, 2]⟩], [⟨"F", [], false, 0, 1, some 2⟩], 3⟩ 0 "EventGraph" =
      ⟨[⟨0, ⟨0, 0⟩, [execPin], [execPin], true, NodeKind.callScriptFunction "F"⟩,
        ⟨1, ⟨0, 0⟩, [], [execPin], false, NodeKind.functionEntry⟩,
        ⟨2, ⟨300, 0⟩, [execPin], [], false, NodeKind.functionResult⟩],
       [], [⟨"F", [1, 2]⟩], [⟨"F", [], false, 0, 1, some 2⟩], 3⟩ :=
  c7_expand_noop _ 0 "EventGraph"
    (Or.inr (Or.inr (Or.inr
      ⟨⟨0, ⟨0, 0⟩, [execPin], [execPin], true, NodeKind.callScriptFunction "F"⟩, "F",
        by decide, by decide, by decide⟩)))

/-! ### C1 (corrected): precondition failures of the extractor -/

/-- Counterexample to C1 as stated: on an empty selection the extractor
returns with no reported error at all (the source performs a bare early
return), so the "rejects with a user-visible reported error" part of the
claim fails for the empty-selection case; the state is still unmutated. -/
theorem c1_counterexample :
    collapse_selected_to_function ⟨[], [], [], [], 0⟩ "EventGraph" [] =
      (⟨[], [], [], [], 0⟩, none) := rfl

/-- C1 as amended: under any of the claimed precondition failures (empty
selection, a non-duplicable selected node, more than one inbound execution
crossing, more than one outbound execution crossing, or a bucketed outbound
crossing set larger than two) the extractor performs no mutation of the
graph model, and it reports a user-visible error in exactly the non-empty
cases; the empty selection is a silent no-op. -/
theorem c1_reject_no_mutation (st : Orchestration) (g : String) (sel : List Node)
    (h : sel = [] ∨ (∃ n ∈ sel, n.can_duplicate = false) ∨
         1 < (resolve_node_set_connections st sel).input_executions ∨
         1 < (resolve_node_set_connections st sel).output_executions ∨
         2 < (resolve_node_set_connections st sel).outputs.length) :
    (collapse_selected_to_function st g sel).1 = st ∧
    ((collapse_selected_to_function st g sel).2.isSome = true ↔ sel ≠ []) := by
  rcases eq_or_ne sel [] with he | hne
  · subst he
    simp [collapse_selected_to_function]
  · have hne' : sel.isEmpty = false := by
      cases sel with
      | nil => exact absurd rfl hne
      | cons a l => rfl
    unfold collapse_selected_to_function
    rw [hne']
    simp only [Bool.false_eq_true, if_false]
    cases hf : sel.find? (fun n => !n.can_duplicate) with
    | some n => simp [hne]
    | none =>
      have hdup : ∀ n ∈ sel, n.can_duplicate = true := by
        intro n hn
        have := List.find?_eq_none.mp hf n hn
        simpa using this
      have hcond : 1 < (resolve_node_set_connections st sel).input_executions ∨
          1 < (resolve_node_set_connections st sel).output_executions ∨
          2 < (resolve_node_set_connections st sel).outputs.length := by
        rcases h with h | ⟨n, hn, hcd⟩ | h | h | h
        · exact absurd h hne
        · rw [hdup n hn] at hcd; cases hcd
        · exact Or.inl h
        · exact Or.inr (Or.inl h)
        · exact Or.inr (Or.inr h)
      by_cases h1 : 1 < (resolve_node_set_connections st sel).input_executions
      · simp [h1, hne]
      · by_cases h2 : 1 < (resolve_node_set_connections st sel).output_executions
        · simp [h1, h2, hne]
        · have h3 : 2 < (resolve_node_set_connections st sel).outputs.length := by
            rcases hcond with hc | hc | hc
            · exact absurd hc h1
            · exact absurd hc h2
            · exact hc
          simp [h1, h2, h3, hne]

/-- Witness for C1 as amended, at a concrete state with a non-duplicable
selected node: the error is reported and the state is unchanged. -/
theorem c1_reject_no_mutation_witness :
    (collapse_selected_to_function
        ⟨[⟨1, ⟨0, 0⟩, [], [], false, NodeKind.generic⟩], [], [⟨"EventGraph", [1]⟩], [], 2⟩
        "EventGraph" [⟨1, ⟨0, 0⟩, [], [], false, NodeKind.generic⟩]).1 =
      ⟨[⟨1, ⟨0, 0⟩, [], [], false, NodeKind.generic⟩], [], [⟨"EventGraph", [1]⟩], [], 2⟩ ∧
    ((collapse_selected_to_function
        ⟨[⟨1, ⟨0, 0⟩, [], [], false, NodeKind.generic⟩], [], [⟨"EventGraph", [1]⟩], [], 2⟩
        "EventGraph" [⟨1, ⟨0, 0⟩, [], [], false, NodeKind.generic⟩]).2.isSome = true ↔
      [(⟨1, ⟨0, 0⟩, [], [], false, NodeKind.generic⟩ : Node)] ≠ []) :=
  c1_reject_no_mutation _ "EventGraph" _
    (Or.inr (Or.inl ⟨⟨1, ⟨0, 0⟩, [], [], false, NodeKind.generic⟩, by decide, rfl⟩))

/-! ### C10: the per-pin counter pass agrees with the bucketed sets -/

theorem countP_congr_mem {α : Type} (p q : α → Bool) (l : List α)
    (h : ∀ x ∈ l, p x = q x) : l.countP p = l.countP q := by
  induction l with
  | nil => rfl
  | cons a as ih =>
    rw [List.countP_cons, List.countP_cons, h a (List.mem_cons_self a as),
      ih (fun x hx => h x (List.mem_cons_of_mem a hx))]

theorem countP_add_disjoint {α : Type} (p q : α → Bool) (l : List α)
    (h : ∀ x ∈ l, ¬(p x = true ∧ q x = true)) :
    l.countP p + l.countP q = l.countP (fun x => p x || q x) := by
  induction l with
  | nil => rfl
  | cons a as ih =>
    simp only [List.countP_cons]
    have ha := h a (List.mem_cons_self a as)
    have ih' := ih (fun x hx => h x (List.mem_cons_of_mem a hx))
    rcases hp : p a <;> rcases hq : q a <;> simp [hp, hq] at ha ⊢ <;> omega

theorem length_filter_map_filter {α β : Type} (l : List α) (p : α → Bool)
    (f : α → β) (q : β → Bool) :
    (((l.filter p).map f).filter q).length = l.countP (fun x => p x && q (f x)) := by
  induction l with
  | nil => rfl
  | cons a as ih =>
    rw [List.countP_cons]
    rcases hp : p a <;> rcases hq : q (f a) <;>
      simp [List.filter_cons, hp, hq, ih]

/-- One node's contribution to the per-pin counter pass, as a single countP
over the connection list; generic over which endpoint of a connection is the
inside one (`key`, with its port `port` and opposite node `other`). -/
theorem pcc_node_generic (conns : List Connection) (key port other : Connection → Nat)
    (nid : Nat) (want : Bool) (out : Nat → Bool) :
    ∀ (pins : List Pin) (s : Nat),
    ((List.enumFrom s pins).map (fun ip =>
      if ip.2.is_execution == want then
        (((conns.filter (fun c => key c == nid && port c == ip.1)).map other).filter out).length
      else 0)).sum
    = conns.countP (fun c =>
        decide (key c = nid ∧ s ≤ port c ∧ port c - s < pins.length ∧
          (pins.getD (port c - s) defaultPin).is_execution = want ∧ out (other c) = true)) := by
  intro pins
  induction pins with
  | nil =>
    intro s
    simp only [List.enumFrom_nil, List.map_nil, List.sum_nil, List.length_nil]
    rw [eq_comm, List.countP_eq_zero]
    intro c _
    simp only [decide_eq_true_eq]
    rintro ⟨_, _, h, _, _⟩
    omega
  | cons p ps ih =>
    intro s
    rw [List.enumFrom_cons, List.map_cons, List.sum_cons, ih (s + 1)]
    have hsplit : ∀ c ∈ conns,
        (decide (key c = nid ∧ s ≤ port c ∧ port c - s < (p :: ps).length ∧
          ((p :: ps).getD (port c - s) defaultPin).is_execution = want ∧ out (other c) = true)) =
        ((decide (key c = nid ∧ port c = s ∧ p.is_execution = want ∧ out (other c) = true)) ||
         (decide (key c = nid ∧ s + 1 ≤ port c ∧ port c - (s + 1) < ps.length ∧
           (ps.getD (port c - (s + 1)) defaultPin).is_execution = want ∧ out (other c) = true))) := by
      intro c _
      rw [Bool.eq_iff_iff]
      simp only [Bool.or_eq_true, decide_eq_true_eq, List.length_cons]
      constructor
      · rintro ⟨h1, h2, h3, h4, h5⟩
        rcases Nat.lt_or_ge (port c) (s + 1) with hc | hc
        · have hps : port c = s := by omega
          left
          refine ⟨h1, hps, ?_, h5⟩
          rw [show port c - s = 0 by omega, List.getD_cons_zero] at h4
          exact h4
        · right
          refine ⟨h1, hc, by omega, ?_, h5⟩
          rw [show port c - s = (port c - (s + 1)) + 1 by omega, List.getD_cons_succ] at h4
          exact h4
      · rintro (⟨h1, h2, h3, h4⟩ | ⟨h1, h2, h3, h4, h5⟩)
        · refine ⟨h1, by omega, by omega, ?_, h4⟩
          rw [show port c - s = 0 by omega, List.getD_cons_zero]
          exact h3
        · refine ⟨h1, by omega, by omega, ?_, h5⟩
          rw [show port c - s = (port c - (s + 1)) + 1 by omega, List.getD_cons_succ]
          exact h4
    rw [countP_congr_mem _ _ _ hsplit, ← countP_add_disjoint]
    · congr 1
      by_cases hw : p.is_execution = want
      · rw [if_pos (by simp [hw]), length_filter_map_filter]
        apply countP_congr_mem
        intro c _
        rw [Bool.eq_iff_iff]
        simp only [Bool.and_eq_true, beq_iff_eq, decide_eq_true_eq]
        constructor
        · rintro ⟨⟨h1, h2⟩, h3⟩
          exact ⟨h1, h2, hw, h3⟩
        · rintro ⟨h1, h2, _, h3⟩
          exact ⟨⟨h1, h2⟩, h3⟩
      · rw [if_neg (by simp [hw]), eq_comm, List.countP_eq_zero]
        intro c _
        simp only [decide_eq_true_eq]
        rintro ⟨_, _, hcon, _⟩
        exact hw hcon
    · intro c _
      rintro ⟨h1, h2⟩
      simp only [decide_eq_true_eq] at h1 h2
      omega

/-- Summing disjoint per-node counts (each count constrains the inside
endpoint to that node's id) equals one count over the whole selection. -/
theorem sum_countP_disjoint_nodes (conns : List Connection) (P : Node → Connection → Bool)
    (key : Connection → Nat)
    (hkey : ∀ n c, P n c = true → key c = n.id) :
    ∀ (sel : List Node), (sel.map (fun n => n.id)).Nodup →
    ((sel.map (fun n => conns.countP (P n))).sum
      = conns.countP (fun c => sel.any (fun n => P n c))) := by
  intro sel
  induction sel with
  | nil =>
    intro _
    simp
  | cons n ns ih =>
    intro hnd
    rw [List.map_cons, List.nodup_cons] at hnd
    rw [List.map_cons, List.sum_cons, ih hnd.2, countP_add_disjoint]
    · apply countP_congr_mem
      intro c _
      simp [List.any_cons]
    · intro c _
      rintro ⟨h1, h2⟩
      rw [List.any_eq_true] at h2
      obtain ⟨m, hm, hPm⟩ := h2
      have e1 := hkey n c h1
      have e2 := hkey m c hPm
      exact hnd.1 (List.mem_map.mpr ⟨m, hm, by omega⟩)

/-- With unique ids, find? by id recovers the selected node itself. -/
theorem find?_of_mem_nodup (sel : List Node) (hnd : (sel.map (fun n => n.id)).Nodup)
    (n : Node) (hn : n ∈ sel) (i : Nat) (hi : n.id = i) :
    sel.find? (fun m => m.id == i) = some n := by
  induction sel with
  | nil => cases hn
  | cons a as ih =>
    rw [List.map_cons, List.nodup_cons] at hnd
    rcases List.mem_cons.mp hn with h | h
    · subst h
      exact List.find?_cons_of_pos _ (by simp [hi])
    · have hne : (a.id == i) = false := by
        simp only [beq_eq_false_iff_ne, ne_eq]
        intro he
        exact hnd.1 (List.mem_map.mpr ⟨n, h, by omega⟩)
      rw [List.find?_cons_of_neg _ (by simp [hne])]
      exact ih hnd.2 h

/-- Inside pin of an inbound bucket connection: input pin `to_port` of the
selected destination node. -/
def inside_input_pin (sel : List Node) (c : Connection) : Pin :=
  ((sel.find? (fun m => m.id == c.to_node)).getD defaultNode).inputs.getD c.to_port defaultPin

/-- Inside pin of an outbound bucket connection: output pin `from_port` of
the selected source node. -/
def inside_output_pin (sel : List Node) (c : Connection) : Pin :=
  ((sel.find? (fun m => m.id == c.from_node)).getD defaultNode).outputs.getD c.from_port defaultPin

/-- The per-pin pass over derived back-references, as one countP. -/
theorem pin_cross_count_derived (conns : List Connection) (sel : List Node)
    (key port other : Connection → Nat) (pins : Node → List Pin) (want : Bool)
    (hnd : (sel.map (fun n => n.id)).Nodup) :
    (sel.map (fun n =>
      (((pins n).enum).map (fun ip =>
        if ip.2.is_execution == want then
          (((conns.filter (fun c => key c == n.id && port c == ip.1)).map other).filter
            (fun o => !nodes_has sel o)).length
        else 0)).sum)).sum
    = conns.countP (fun c => sel.any (fun n =>
        decide (key c = n.id ∧ port c < (pins n).length ∧
          ((pins n).getD (port c) defaultPin).is_execution = want ∧
          (!nodes_has sel (other c)) = true))) := by
  rw [← sum_countP_disjoint_nodes conns
      (fun n c => decide (key c = n.id ∧ port c < (pins n).length ∧
        ((pins n).getD (port c) defaultPin).is_execution = want ∧
        (!nodes_has sel (other c)) = true))
      key (fun n c h => (decide_eq_true_eq.mp h).1) sel hnd]
  congr 1
  apply List.map_congr_left
  intro n _
  rw [show (pins n).enum = List.enumFrom 0 (pins n) from rfl]
  rw [pcc_node_generic conns key port other n.id want (fun o => !nodes_has sel o) (pins n) 0]
  apply countP_congr_mem
  intro c _
  apply decide_eq_decide.mpr
  constructor
  · rintro ⟨h1, _, h3, h4, h5⟩
    rw [Nat.sub_zero] at h3 h4
    exact ⟨h1, h3, h4, h5⟩
  · rintro ⟨h1, h2, h3, h4⟩
    exact ⟨h1, Nat.zero_le _, by omega, by rw [Nat.sub_zero]; exact h3, h4⟩

/-- Counter passes with per-pin permutation-equivalent back-reference
oracles agree. -/
theorem pin_cross_count_perm (r1 r2 : Nat → Nat → List Nat) (sel : List Node)
    (pins : Node → List Pin) (want : Bool)
    (h : ∀ nid p, (r1 nid p).Perm (r2 nid p)) :
    pin_cross_count r1 sel pins want = pin_cross_count r2 sel pins want := by
  unfold pin_cross_count
  congr 1
  apply List.map_congr_left
  intro n _
  congr 1
  apply List.map_congr_left
  intro ip _
  rcases hw : ip.2.is_execution == want
  · simp only [hw, Bool.false_eq_true, if_false]
  · simp only [hw, if_true]
    rw [← List.countP_eq_length_filter, ← List.countP_eq_length_filter]
    exact (h n.id ip.1).countP_eq _

/-- C10: assuming every pin's back-references are consistent (as multisets)
with the global connection list and the selection's ids are unique with
in-range ports, the four per-pin counters of _resolve_node_set_connections
agree with the bucketed sets of its global-list pass: the inbound counters
sum to the inbound bucket size, the outbound counters to the outbound bucket
size, and each counter equals the number of bucket connections whose inside
endpoint pin has the matching kind. -/
theorem c10_counters_match_buckets (st : Orchestration) (sel : List Node)
    (inR outR : Nat → Nat → List Nat)
    (hin : ∀ nid p, (inR nid p).Perm (st.input_refs nid p))
    (hout : ∀ nid p, (outR nid p).Perm (st.output_refs nid p))
    (hnd : (sel.map (fun n => n.id)).Nodup)
    (hrange : ∀ c ∈ st.connections, ∀ n ∈ sel,
      (n.id = c.to_node → c.to_port < n.inputs.length) ∧
      (n.id = c.from_node → c.from_port < n.outputs.length)) :
    pin_cross_count inR sel (fun n => n.inputs) true
        = (resolve_node_set_connections st sel).input_executions ∧
    pin_cross_count inR sel (fun n => n.inputs) false
        = (resolve_node_set_connections st sel).input_data ∧
    pin_cross_count outR sel (fun n => n.outputs) true
        = (resolve_node_set_connections st sel).output_executions ∧
    pin_cross_count outR sel (fun n => n.outputs) false
        = (resolve_node_set_connections st sel).output_data ∧
    (resolve_node_set_connections st sel).input_executions
        + (resolve_node_set_connections st sel).input_data
      = (resolve_node_set_connections st sel).inputs.length ∧
    (resolve_node_set_connections st sel).output_executions
        + (resolve_node_set_connections st sel).output_data
      = (resolve_node_set_connections st sel).outputs.length ∧
    (resolve_node_set_connections st sel).input_executions
      = (resolve_node_set_connections st sel).inputs.countP
          (fun c => (inside_input_pin sel c).is_execution) ∧
    (resolve_node_set_connections st sel).input_data
      = (resolve_node_set_connections st sel).inputs.countP
          (fun c => !(inside_input_pin sel c).is_execution) ∧
    (resolve_node_set_connections st sel).output_executions
      = (resolve_node_set_connections st sel).outputs.countP
          (fun c => (inside_output_pin sel c).is_execution) ∧
    (resolve_node_set_connections st sel).output_data
      = (resolve_node_set_connections st sel).outputs.countP
          (fun c => !(inside_output_pin sel c).is_execution) := by
  have hbridge_in : ∀ want : Bool,
      pin_cross_count st.input_refs sel (fun n => n.inputs) want
        = (st.connections.filter
            (fun c => !nodes_has sel c.from_node && nodes_has sel c.to_node)).countP
            (fun c => (inside_input_pin sel c).is_execution == want) := by
    intro want
    rw [show pin_cross_count st.input_refs sel (fun n => n.inputs) want
        = (sel.map (fun n =>
          (((n.inputs).enum).map (fun ip =>
            if ip.2.is_execution == want then
              (((st.connections.filter (fun c => c.to_node == n.id && c.to_port == ip.1)).map
                (fun c => c.from_node)).filter (fun o => !nodes_has sel o)).length
            else 0)).sum)).sum from rfl]
    rw [pin_cross_count_derived st.connections sel (fun c => c.to_node) (fun c => c.to_port)
      (fun c => c.from_node) (fun n => n.inputs) want hnd]
    rw [List.countP_filter]
    apply countP_congr_mem
    intro c hc
    rw [Bool.eq_iff_iff]
    simp only [List.any_eq_true, decide_eq_true_eq, Bool.and_eq_true, beq_iff_eq]
    constructor
    · rintro ⟨n, hn, h1, h2, h3, h4⟩
      have hf := find?_of_mem_nodup sel hnd n hn c.to_node h1.symm
      refine ⟨?_, h4, (nodes_has_iff sel c.to_node).mpr ⟨n, hn, h1.symm⟩⟩
      rw [inside_input_pin, hf, Option.getD_some, h3]
    · rintro ⟨h1, h2, h3⟩
      obtain ⟨n, hn, hid⟩ := (nodes_has_iff sel c.to_node).mp h3
      have hf := find?_of_mem_nodup sel hnd n hn c.to_node hid
      refine ⟨n, hn, hid.symm, (hrange c hc n hn).1 hid, ?_, h2⟩
      rw [inside_input_pin, hf, Option.getD_some] at h1
      exact h1
  have hbridge_out : ∀ want : Bool,
      pin_cross_count st.output_refs sel (fun n => n.outputs) want
        = (st.connections.filter
            (fun c => nodes_has sel c.from_node && !nodes_has sel c.to_node)).countP
            (fun c => (inside_output_pin sel c).is_execution == want) := by
    intro want
    rw [show pin_cross_count st.output_refs sel (fun n => n.outputs) want
        = (sel.map (fun n =>
          (((n.outputs).enum).map (fun ip =>
            if ip.2.is_execution == want then
              (((st.connections.filter (fun c => c.from_node == n.id && c.from_port == ip.1)).map
                (fun c => c.to_node)).filter (fun o => !nodes_has sel o)).length
            else 0)).sum)).sum from rfl]
    rw [pin_cross_count_derived st.connections sel (fun c => c.from_node) (fun c => c.from_port)
      (fun c => c.to_node) (fun n => n.outputs) want hnd]
    rw [List.countP_filter]
    apply countP_congr_mem
    intro c hc
    rw [Bool.eq_iff_iff]
    simp only [List.any_eq_true, decide_eq_true_eq, Bool.and_eq_true, beq_iff_eq]
    constructor
    · rintro ⟨n, hn, h1, h2, h3, h4⟩
      have hf := find?_of_mem_nodup sel hnd n hn c.from_node h1.symm
      refine ⟨?_, (nodes_has_iff sel c.from_node).mpr ⟨n, hn, h1.symm⟩, h4⟩
      rw [inside_output_pin, hf, Option.getD_some, h3]
    · rintro ⟨h1, h2, h3⟩
      obtain ⟨n, hn, hid⟩ := (nodes_has_iff sel c.from_node).mp h2
      have hf := find?_of_mem_nodup sel hnd n hn c.from_node hid
      refine ⟨n, hn, hid.symm, (hrange c hc n hn).2 hid, ?_, h3⟩
      rw [inside_output_pin, hf, Option.getD_some] at h1
      exact h1
  have hie := hbridge_in true
  have hid := hbridge_in false
  have hoe := hbridge_out true
  have hod := hbridge_out false
  have hsimp : ∀ (l : List Connection) (f : Connection → Pin),
      l.countP (fun c => (f c).is_execution == true) = l.countP (fun c => (f c).is_execution) ∧
      l.countP (fun c => (f c).is_execution == false) = l.countP (fun c => !(f c).is_execution) := by
    intro l f
    constructor <;> apply countP_congr_mem <;> intro c _ <;>
      rcases hb : (f c).is_execution <;> simp [hb]
  have r_ie : (resolve_node_set_connections st sel).input_executions
      = (resolve_node_set_connections st sel).inputs.countP
          (fun c => (inside_input_pin sel c).is_execution) := by
    rw [show (resolve_node_set_connections st sel).input_executions
      = pin_cross_count st.input_refs sel (fun n => n.inputs) true from rfl, hie]
    exact (hsimp _ _).1
  have r_id : (resolve_node_set_connections st sel).input_data
      = (resolve_node_set_connections st sel).inputs.countP
          (fun c => !(inside_input_pin sel c).is_execution) := by
    rw [show (resolve_node_set_connections st sel).input_data
      = pin_cross_count st.input_refs sel (fun n => n.inputs) false from rfl, hid]
    exact (hsimp _ _).2
  have r_oe : (resolve_node_set_connections st sel).output_executions
      = (resolve_node_set_connections st sel).outputs.countP
          (fun c => (inside_output_pin sel c).is_execution) := by
    rw [show (resolve_node_set_connections st sel).output_executions
      = pin_cross_count st.output_refs sel (fun n => n.outputs) true from rfl, hoe]
    exact (hsimp _ _).1
  have r_od : (resolve_node_set_connections st sel).output_data
      = (resolve_node_set_connections st sel).outputs.countP
          (fun c => !(inside_output_pin sel c).is_execution) := by
    rw [show (resolve_node_set_connections st sel).output_data
      = pin_cross_count st.output_refs sel (fun n => n.outputs) false from rfl, hod]
    exact (hsimp _ _).2
  refine ⟨?_, ?_, ?_, ?_, ?_, ?_, r_ie, r_id, r_oe, r_od⟩
  · exact pin_cross_count_perm inR st.input_refs sel (fun n => n.inputs) true hin
  · exact pin_cross_count_perm inR st.input_refs sel (fun n => n.inputs) false hin
  · exact pin_cross_count_perm outR st.output_refs sel (fun n => n.outputs) true hout
  · exact pin_cross_count_perm outR st.output_refs sel (fun n => n.outputs) false hout
  · rw [r_ie, r_id, countP_add_disjoint]
    · rw [eq_comm]
      conv =>
        lhs
        rw [show (resolve_node_set_connections st sel).inputs.length
          = (resolve_node_set_connections st sel).inputs.countP (fun _ => true) from
            by rw [List.countP_true]]
      apply countP_congr_mem
      intro c _
      rcases hb : (inside_input_pin sel c).is_execution <;> simp [hb]
    · intro c _
      rintro ⟨h1, h2⟩
      rw [h1] at h2
      cases h2
  · rw [r_oe, r_od, countP_add_disjoint]
    · rw [eq_comm]
      conv =>
        lhs
        rw [show (resolve_node_set_connections st sel).outputs.length
          = (resolve_node_set_connections st sel).outputs.countP (fun _ => true) from
            by rw [List.countP_true]]
      apply countP_congr_mem
      intro c _
      rcases hb : (inside_output_pin sel c).is_execution <;> simp [hb]
    · intro c _
      rintro ⟨h1, h2⟩
      rw [h1] at h2
      cases h2

/-- Concrete state for the C10 witness: node 2 feeds node 1's execution
input; node 1 alone is selected. -/
def w10_st : Orchestration :=
  ⟨[⟨1, ⟨0, 0⟩, [execPin], [], true, NodeKind.generic⟩,
    ⟨2, ⟨0, 0⟩, [], [execPin], true, NodeKind.generic⟩],
   [⟨2, 0, 1, 0⟩], [⟨"EventGraph", [1, 2]⟩], [], 3⟩

def w10_sel : List Node := [⟨1, ⟨0, 0⟩, [execPin], [], true, NodeKind.generic⟩]

/-- Witness for C10 at a concrete state, with the back-reference oracles
instantiated by the derived views (consistent by reflexivity). -/
theorem c10_counters_match_buckets_witness :
    pin_cross_count w10_st.input_refs w10_sel (fun n => n.inputs) true
        = (resolve_node_set_connections w10_st w10_sel).input_executions ∧
    pin_cross_count w10_st.input_refs w10_sel (fun n => n.inputs) false
        = (resolve_node_set_connections w10_st w10_sel).input_data ∧
    pin_cross_count w10_st.output_refs w10_sel (fun n => n.outputs) true
        = (resolve_node_set_connections w10_st w10_sel).output_executions ∧
    pin_cross_count w10_st.output_refs w10_sel (fun n => n.outputs) false
        = (resolve_node_set_connections w10_st w10_sel).output_data ∧
    (resolve_node_set_connections w10_st w10_sel).input_executions
        + (resolve_node_set_connections w10_st w10_sel).input_data
      = (resolve_node_set_connections w10_st w10_sel).inputs.length ∧
    (resolve_node_set_connections w10_st w10_sel).output_executions
        + (resolve_node_set_connections w10_st w10_sel).output_data
      = (resolve_node_set_connections w10_st w10_sel).outputs.length ∧
    (resolve_node_set_connections w10_st w10_sel).input_executions
      = (resolve_node_set_connections w10_st w10_sel).inputs.countP
          (fun c => (inside_input_pin w10_sel c).is_execution) ∧
    (resolve_node_set_connections w10_st w10_sel).input_data
      = (resolve_node_set_connections w10_st w10_sel).inputs.countP
          (fun c => !(inside_input_pin w10_sel c).is_execution) ∧
    (resolve_node_set_connections w10_st w10_sel).output_executions
      = (resolve_node_set_connections w10_st w10_sel).outputs.countP
          (fun c => (inside_output_pin w10_sel c).is_execution) ∧
    (resolve_node_set_connections w10_st w10_sel).output_data
      = (resolve_node_set_connections w10_st w10_sel).outputs.countP
          (fun c => !(inside_output_pin w10_sel c).is_execution) :=
  c10_counters_match_buckets w10_st w10_sel w10_st.input_refs w10_st.output_refs
    (fun _ _ => List.Perm.refl _) (fun _ _ => List.Perm.refl _) (by decide) (by decide)

/-! ### Stability of node lookups under the mutation primitives -/

theorem get_node_link (st : Orchestration) (c : Connection) (j : Nat) :
    (st.link c).get_node j = st.get_node j := rfl

theorem get_node_unlink (st : Orchestration) (c : Connection) (j : Nat) :
    (st.unlink c).get_node j = st.get_node j := rfl

theorem get_node_move (st : Orchestration) (nid : Nat) (src dst : String) (j : Nat) :
    (st.move_node_to nid src dst).get_node j = st.get_node j := rfl

theorem get_node_add_fn_arg (st : Orchestration) (fname aname : String) (t j : Nat) :
    (st.add_function_argument fname aname t).get_node j = st.get_node j := rfl

theorem find?_id_map_update (l : List Node) (i j : Nat) (f : Node → Node)
    (hf : ∀ n, (f n).id = n.id) (hj : j ≠ i) :
    (l.map (fun n => if n.id == i then f n else n)).find? (fun n => n.id == j)
      = l.find? (fun n => n.id == j) := by
  induction l with
  | nil => rfl
  | cons a l ih =>
    rw [List.map_cons]
    by_cases hai : a.id = i
    · have he : (if a.id == i then f a else a) = f a := by simp [hai]
      rw [he, List.find?_cons, List.find?_cons]
      have hfj : ((f a).id == j) = false := by
        simp only [hf a, hai, beq_eq_false_iff_ne, ne_eq]
        omega
      have haj : (a.id == j) = false := by
        simp only [hai, beq_eq_false_iff_ne, ne_eq]
        omega
      rw [hfj, haj]
      exact ih
    · have he : (if a.id == i then f a else a) = a := by simp [hai]
      rw [he, List.find?_cons, List.find?_cons]
      rcases haj : (a.id == j)
      · exact ih
      · rfl

theorem get_node_update_ne (st : Orchestration) (i : Nat) (f : Node → Node)
    (hf : ∀ n, (f n).id = n.id) (j : Nat) (hj : j ≠ i) :
    (st.update_node i f).get_node j = st.get_node j :=
  find?_id_map_update st.nodes i j f hf hj

theorem get_node_set_return_ne (st : Orchestration) (fname : String) (t rid j : Nat)
    (hj : j ≠ rid) :
    (st.set_function_return fname t rid).get_node j = st.get_node j :=
  find?_id_map_update st.nodes rid j _ (fun _ => rfl) hj

theorem get_node_add (st : Orchestration) (g : String) (n : Node) (j : Nat) :
    (st.add_node g n).get_node j
      = (st.get_node j).or (if n.id == j then some n else none) := by
  show (st.nodes ++ [n]).find? (fun m => m.id == j) = _
  rw [List.find?_append]
  congr 1
  rcases h : (n.id == j) <;> simp [List.find?_cons, h]

theorem get_node_add_of_some (st : Orchestration) (g : String) (n : Node) (j : Nat)
    (m : Node) (hm : st.get_node j = some m) :
    (st.add_node g n).get_node j = some m := by
  rw [get_node_add, hm]
  rfl

theorem get_node_mem_nodup (st : Orchestration)
    (hnd : (st.nodes.map (fun n => n.id)).Nodup) (n : Node) (hn : n ∈ st.nodes) :
    st.get_node n.id = some n :=
  find?_of_mem_nodup st.nodes hnd n hn n.id rfl

theorem get_node_none_of_ge (st : Orchestration)
    (hb : ∀ m ∈ st.nodes, m.id < st.next_id) (j : Nat) (hj : st.next_id ≤ j) :
    st.get_node j = none := by
  rw [Orchestration.get_node, List.find?_eq_none]
  intro m hm
  have := hb m hm
  simp only [beq_iff_eq]
  omega

/-! ### Specification functions for the rewiring passes

Each pass of the extractor is characterized by a pure recursion over the
severed bucket, parameterized by pin/position lookup oracles taken in a fixed
state (the loops read the live state, but only the Entry, Result and Call
nodes are mutated while the loops run, and no bucket endpoint is one of those
fresh nodes, so the oracles are stable; the lemmas below make that exact). -/

def in_wires (sp tp : Connection → Pin) (call_id entry_id : Nat) :
    List Connection → Nat → Nat → Bool → Bool → List Connection
  | [], _, _, _, _ => []
  | E :: rest, cIdx, eIdx, cw, ew =>
    (if (sp E).is_execution && !cw then [(⟨E.from_node, E.from_port, call_id, 0⟩ : Connection)]
     else if !(sp E).is_execution then [(⟨E.from_node, E.from_port, call_id, cIdx⟩ : Connection)]
     else []) ++
    (if !(tp E).is_execution then [(⟨entry_id, eIdx, E.to_node, E.to_port⟩ : Connection)]
     else if !ew then [(⟨entry_id, 0, E.to_node, E.to_port⟩ : Connection)]
     else []) ++
    in_wires sp tp call_id entry_id rest
      (if !(sp E).is_execution then cIdx + 1 else cIdx)
      (if !(tp E).is_execution then eIdx + 1 else eIdx)
      (cw || (sp E).is_execution) (ew || (tp E).is_execution)

def in_args (tp : Connection → Pin) : List Connection → List (String × Nat)
  | [] => []
  | E :: rest =>
    if !(tp E).is_execution then ((tp E).pin_name, (tp E).pin_type) :: in_args tp rest
    else in_args tp rest

def out_wires (sp : Connection → Pin) (result_id : Nat) :
    List Connection → Bool → Bool → List Connection
  | [], _, _ => []
  | E :: rest, xw, dw =>
    (if (sp E).is_execution && !xw then [(⟨E.from_node, E.from_port, result_id, 0⟩ : Connection)]
     else if !(sp E).is_execution && !dw then [(⟨E.from_node, E.from_port, result_id, 1⟩ : Connection)]
     else []) ++
    out_wires sp result_id rest (xw || (sp E).is_execution) (dw || !(sp E).is_execution)

def callout_wires (tp : Connection → Pin) (call_id : Nat) :
    List Connection → Nat → Bool → List Connection
  | [], _, _ => []
  | E :: rest, oIdx, cw =>
    (if (tp E).is_execution && !cw then [(⟨call_id, 0, E.to_node, E.to_port⟩ : Connection)]
     else if !(tp E).is_execution then [(⟨call_id, oIdx, E.to_node, E.to_port⟩ : Connection)]
     else []) ++
    callout_wires tp call_id rest
      (if !(tp E).is_execution then oIdx + 1 else oIdx) (cw || (tp E).is_execution)

/-- Entry-node position after the inbound pass: set once beside the first
inbound inside destination, unless already positioned. -/
def first_target_pos (tpos : Connection → Vec2) (conns : List Connection)
    (positioned : Bool) (p0 : Vec2) : Vec2 :=
  match conns, positioned with
  | E :: _, false => tpos E - ⟨250, 0⟩
  | _, _ => p0

/-- Result-node position after the outbound pass: set once beside the first
outbound inside source, unless already positioned. -/
def first_source_pos (spos : Connection → Vec2) (conns : List Connection)
    (positioned : Bool) (p0 : Vec2) : Vec2 :=
  match conns, positioned with
  | E :: _, false => spos E + ⟨250, 0⟩
  | _, _ => p0

def target_pos_of (st : Orchestration) (E : Connection) : Vec2 :=
  ((st.get_node E.to_node).getD defaultNode).position

def source_pos_of (st : Orchestration) (E : Connection) : Vec2 :=
  ((st.get_node E.from_node).getD defaultNode).position

theorem in_wires_congr (sp1 tp1 sp2 tp2 : Connection → Pin) (call_id entry_id : Nat) :
    ∀ (conns : List Connection) (cIdx eIdx : Nat) (cw ew : Bool),
    (∀ E ∈ conns, sp1 E = sp2 E ∧ tp1 E = tp2 E) →
    in_wires sp1 tp1 call_id entry_id conns cIdx eIdx cw ew
      = in_wires sp2 tp2 call_id entry_id conns cIdx eIdx cw ew := by
  intro conns
  induction conns with
  | nil => intro _ _ _ _ _; rfl
  | cons E rest ih =>
    intro cIdx eIdx cw ew h
    have hE := h E (List.mem_cons_self E rest)
    have hr := fun F hF => h F (List.mem_cons_of_mem E hF)
    rw [in_wires, in_wires, hE.1, hE.2, ih _ _ _ _ hr]

theorem in_args_congr (tp1 tp2 : Connection → Pin) :
    ∀ (conns : List Connection), (∀ E ∈ conns, tp1 E = tp2 E) →
    in_args tp1 conns = in_args tp2 conns := by
  intro conns
  induction conns with
  | nil => intro _; rfl
  | cons E rest ih =>
    intro h
    rw [in_args, in_args, h E (List.mem_cons_self E rest),
      ih (fun F hF => h F (List.mem_cons_of_mem E hF))]

theorem out_wires_congr (sp1 sp2 : Connection → Pin) (result_id : Nat) :
    ∀ (conns : List Connection) (xw dw : Bool),
    (∀ E ∈ conns, sp1 E = sp2 E) →
    out_wires sp1 result_id conns xw dw = out_wires sp2 result_id conns xw dw := by
  intro conns
  induction conns with
  | nil => intro _ _ _; rfl
  | cons E rest ih =>
    intro xw dw h
    rw [out_wires, out_wires, h E (List.mem_cons_self E rest),
      ih _ _ (fun F hF => h F (List.mem_cons_of_mem E hF))]

theorem callout_wires_congr (tp1 tp2 : Connection → Pin) (call_id : Nat) :
    ∀ (conns : List Connection) (oIdx : Nat) (cw : Bool),
    (∀ E ∈ conns, tp1 E = tp2 E) →
    callout_wires tp1 call_id conns oIdx cw = callout_wires tp2 call_id conns oIdx cw := by
  intro conns
  induction conns with
  | nil => intro _ _ _; rfl
  | cons E rest ih =>
    intro oIdx cw h
    rw [callout_wires, callout_wires, h E (List.mem_cons_self E rest),
      ih _ _ (fun F hF => h F (List.mem_cons_of_mem E hF))]

theorem first_target_pos_congr (t1 t2 : Connection → Vec2) (conns : List Connection)
    (positioned : Bool) (p0 : Vec2) (h : ∀ E ∈ conns, t1 E = t2 E) :
    first_target_pos t1 conns positioned p0 = first_target_pos t2 conns positioned p0 := by
  cases conns with
  | nil => rfl
  | cons E rest =>
    cases positioned with
    | false => rw [first_target_pos, first_target_pos, h E (List.mem_cons_self E rest)]
    | true => rfl

theorem first_source_pos_congr (t1 t2 : Connection → Vec2) (conns : List Connection)
    (positioned : Bool) (p0 : Vec2) (h : ∀ E ∈ conns, t1 E = t2 E) :
    first_source_pos t1 conns positioned p0 = first_source_pos t2 conns positioned p0 := by
  cases conns with
  | nil => rfl
  | cons E rest =>
    cases positioned with
    | false => rw [first_source_pos, first_source_pos, h E (List.mem_cons_self E rest)]
    | true => rfl

theorem first_target_pos_true (t : Connection → Vec2) (conns : List Connection) (p0 : Vec2) :
    first_target_pos t conns true p0 = p0 := by
  cases conns <;> rfl

theorem first_source_pos_true (t : Connection → Vec2) (conns : List Connection) (p0 : Vec2) :
    first_source_pos t conns true p0 = p0 := by
  cases conns <;> rfl

theorem map_if_id {α : Type} (l : List α) (p : α → Bool) (f : α → α)
    (hf : ∀ n, p n = true → f n = n) :
    l.map (fun n => if p n then f n else n) = l := by
  induction l with
  | nil => rfl
  | cons a as ih =>
    rw [List.map_cons, ih]
    by_cases hp : p a = true
    · rw [if_pos hp, hf a hp]
    · rw [if_neg hp]

/-- The inbound step appends (in this order) the call-node wire for the
external source pin and the entry wire for the inside destination pin. -/
theorem wis_connections (call_id entry_id : Nat) (fname : String) (E : Connection)
    (acc : InboundAcc) :
    (wire_inbound_step call_id entry_id fname E acc).st.connections
      = acc.st.connections
        ++ ((if (source_pin_of acc.st E).is_execution && !acc.call_execution_wired then
              [(⟨E.from_node, E.from_port, call_id, 0⟩ : Connection)]
            else if !(source_pin_of acc.st E).is_execution then
              [(⟨E.from_node, E.from_port, call_id, acc.call_input_index⟩ : Connection)]
            else [])
        ++ (if !(target_pin_of acc.st E).is_execution then
              [(⟨entry_id, acc.input_index, E.to_node, E.to_port⟩ : Connection)]
            else if !acc.input_execution_wired then
              [(⟨entry_id, 0, E.to_node, E.to_port⟩ : Connection)]
            else [])) := by
  rcases hsp : (source_pin_of acc.st E).is_execution <;>
    rcases hcw : acc.call_execution_wired <;>
    rcases htp : (target_pin_of acc.st E).is_execution <;>
    rcases hpos : acc.entry_positioned <;>
    rcases hew : acc.input_execution_wired <;>
    (have hsp2 := hsp; have htp2 := htp;
     simp [source_pin_of, target_pin_of, Orchestration.get_node] at hsp2 htp2;
     simp [wire_inbound_step, Orchestration.link, Orchestration.update_node,
       Orchestration.add_function_argument, Orchestration.get_node, source_pin_of,
       target_pin_of, target_pos_of, hsp, hcw, htp, hpos, hew, hsp2, htp2])

theorem wis_functions (call_id entry_id : Nat) (fname : String) (E : Connection)
    (acc : InboundAcc) :
    (wire_inbound_step call_id entry_id fname E acc).st.functions
      = acc.st.functions.map (fun f => if f.fn_name == fname then
          { f with args := f.args ++ (if !(target_pin_of acc.st E).is_execution then
              [((target_pin_of acc.st E).pin_name, (target_pin_of acc.st E).pin_type)]
            else []) } else f) := by
  have hfnid : acc.st.functions.map
      (fun f => if f.fn_name == fname then { f with args := f.args ++ [] } else f)
      = acc.st.functions := by
    apply map_if_id
    intro f _
    simp
  rcases hsp : (source_pin_of acc.st E).is_execution <;>
    rcases hcw : acc.call_execution_wired <;>
    rcases htp : (target_pin_of acc.st E).is_execution <;>
    rcases hpos : acc.entry_positioned <;>
    rcases hew : acc.input_execution_wired <;>
    (have hsp2 := hsp; have htp2 := htp;
     simp [source_pin_of, target_pin_of, Orchestration.get_node] at hsp2 htp2;
     simp [wire_inbound_step, Orchestration.link, Orchestration.update_node,
       Orchestration.add_function_argument, Orchestration.get_node, source_pin_of,
       target_pin_of, target_pos_of, hsp, hcw, htp, hpos, hew, hsp2, htp2, hfnid])

theorem wis_nodes (call_id entry_id : Nat) (fname : String) (E : Connection)
    (acc : InboundAcc) :
    (wire_inbound_step call_id entry_id fname E acc).st.nodes
      = acc.st.nodes.map (fun n => if n.id == entry_id then
          { n with
            position := if acc.entry_positioned then n.position
                        else target_pos_of acc.st E - ⟨250, 0⟩,
            outputs := n.outputs ++ (if !(target_pin_of acc.st E).is_execution then
              [(⟨(target_pin_of acc.st E).pin_name, (target_pin_of acc.st E).pin_type, false⟩ : Pin)]
            else []) } else n) := by
  rcases hsp : (source_pin_of acc.st E).is_execution <;>
    rcases hcw : acc.call_execution_wired <;>
    rcases htp : (target_pin_of acc.st E).is_execution <;>
    rcases hpos : acc.entry_positioned <;>
    rcases hew : acc.input_execution_wired <;>
    (have hsp2 := hsp; have htp2 := htp;
     simp [source_pin_of, target_pin_of, Orchestration.get_node] at hsp2 htp2;
     simp [wire_inbound_step, Orchestration.link, Orchestration.update_node,
       Orchestration.add_function_argument, Orchestration.get_node, source_pin_of,
       target_pin_of, target_pos_of, hsp, hcw, htp, hpos, hew, hsp2, htp2,
       List.map_map]) <;>
    first
      | rfl
      | (intro n _
         by_cases hn : n.id = entry_id <;> simp [hn])

theorem wis_graphs (call_id entry_id : Nat) (fname : String) (E : Connection)
    (acc : InboundAcc) :
    (wire_inbound_step call_id entry_id fname E acc).st.graphs = acc.st.graphs := by
  rcases hsp : (source_pin_of acc.st E).is_execution <;>
    rcases hcw : acc.call_execution_wired <;>
    rcases htp : (target_pin_of acc.st E).is_execution <;>
    rcases hpos : acc.entry_positioned <;>
    rcases hew : acc.input_execution_wired <;>
    (have hsp2 := hsp; have htp2 := htp;
     simp [source_pin_of, target_pin_of, Orchestration.get_node] at hsp2 htp2;
     simp [wire_inbound_step, Orchestration.link, Orchestration.update_node,
       Orchestration.add_function_argument, Orchestration.get_node, source_pin_of,
       target_pin_of, target_pos_of, hsp, hcw, htp, hpos, hew, hsp2, htp2])

theorem wis_next_id (call_id entry_id : Nat) (fname : String) (E : Connection)
    (acc : InboundAcc) :
    (wire_inbound_step call_id entry_id fname E acc).st.next_id = acc.st.next_id := by
  rcases hsp : (source_pin_of acc.st E).is_execution <;>
    rcases hcw : acc.call_execution_wired <;>
    rcases htp : (target_pin_of acc.st E).is_execution <;>
    rcases hpos : acc.entry_positioned <;>
    rcases hew : acc.input_execution_wired <;>
    (have hsp2 := hsp; have htp2 := htp;
     simp [source_pin_of, target_pin_of, Orchestration.get_node] at hsp2 htp2;
     simp [wire_inbound_step, Orchestration.link, Orchestration.update_node,
       Orchestration.add_function_argument, Orchestration.get_node, source_pin_of,
       target_pin_of, target_pos_of, hsp, hcw, htp, hpos, hew, hsp2, htp2])

theorem wis_get_node (call_id entry_id : Nat) (fname : String) (E : Connection)
    (acc : InboundAcc) (j : Nat) (hj : j ≠ entry_id) :
    (wire_inbound_step call_id entry_id fname E acc).st.get_node j = acc.st.get_node j := by
  show ((wire_inbound_step call_id entry_id fname E acc).st.nodes).find? (fun n => n.id == j)
    = acc.st.nodes.find? (fun n => n.id == j)
  rw [wis_nodes]
  exact find?_id_map_update acc.st.nodes entry_id j _ (fun n => rfl) hj

theorem wis_source_pin (call_id entry_id : Nat) (fname : String) (E F : Connection)
    (acc : InboundAcc) (hj : F.from_node ≠ entry_id) :
    source_pin_of (wire_inbound_step call_id entry_id fname E acc).st F
      = source_pin_of acc.st F := by
  unfold source_pin_of
  rw [wis_get_node call_id entry_id fname E acc F.from_node hj]

theorem wis_target_pin (call_id entry_id : Nat) (fname : String) (E F : Connection)
    (acc : InboundAcc) (hj : F.to_node ≠ entry_id) :
    target_pin_of (wire_inbound_step call_id entry_id fname E acc).st F
      = target_pin_of acc.st F := by
  unfold target_pin_of
  rw [wis_get_node call_id entry_id fname E acc F.to_node hj]

theorem wis_target_pos (call_id entry_id : Nat) (fname : String) (E F : Connection)
    (acc : InboundAcc) (hj : F.to_node ≠ entry_id) :
    target_pos_of (wire_inbound_step call_id entry_id fname E acc).st F
      = target_pos_of acc.st F := by
  unfold target_pos_of
  rw [wis_get_node call_id entry_id fname E acc F.to_node hj]

theorem wis_counters (call_id entry_id : Nat) (fname : String) (E : Connection)
    (acc : InboundAcc) :
    (wire_inbound_step call_id entry_id fname E acc).input_index
        = (if !(target_pin_of acc.st E).is_execution then acc.input_index + 1
           else acc.input_index) ∧
    (wire_inbound_step call_id entry_id fname E acc).call_input_index
        = (if !(source_pin_of acc.st E).is_execution then acc.call_input_index + 1
           else acc.call_input_index) ∧
    (wire_inbound_step call_id entry_id fname E acc).input_execution_wired
        = (acc.input_execution_wired || (target_pin_of acc.st E).is_execution) ∧
    (wire_inbound_step call_id entry_id fname E acc).call_execution_wired
        = (acc.call_execution_wired || (source_pin_of acc.st E).is_execution) ∧
    (wire_inbound_step call_id entry_id fname E acc).entry_positioned = true := by
  rcases hsp : (source_pin_of acc.st E).is_execution <;>
    rcases hcw : acc.call_execution_wired <;>
    rcases htp : (target_pin_of acc.st E).is_execution <;>
    rcases hpos : acc.entry_positioned <;>
    rcases hew : acc.input_execution_wired <;>
    (have hsp2 := hsp; have htp2 := htp;
     simp [source_pin_of, target_pin_of, Orchestration.get_node] at hsp2 htp2;
     simp [wire_inbound_step, Orchestration.link, Orchestration.update_node,
       Orchestration.add_function_argument, Orchestration.get_node, source_pin_of,
       target_pin_of, target_pos_of, hsp, hcw, htp, hpos, hew, hsp2, htp2])

/-- Full characterization of the inbound rewiring pass: the loop appends
exactly the interleaved call-node and entry wires, appends exactly the
inbound-data-derived arguments to the named function (and mirrors them as
entry data output pins), positions the entry node once beside the first
inbound inside destination, and touches nothing else. -/
theorem wire_inbound_spec (call_id entry_id : Nat) (fname : String) :
    ∀ (conns : List Connection) (acc : InboundAcc),
    (∀ E ∈ conns, E.from_node ≠ entry_id ∧ E.to_node ≠ entry_id) →
    (wire_inbound call_id entry_id fname conns acc).st.connections
        = acc.st.connections
          ++ in_wires (source_pin_of acc.st) (target_pin_of acc.st) call_id entry_id conns
               acc.call_input_index acc.input_index acc.call_execution_wired
               acc.input_execution_wired ∧
    (wire_inbound call_id entry_id fname conns acc).st.functions
        = acc.st.functions.map (fun f => if f.fn_name == fname then
            { f with args := f.args ++ in_args (target_pin_of acc.st) conns } else f) ∧
    (wire_inbound call_id entry_id fname conns acc).st.nodes
        = acc.st.nodes.map (fun n => if n.id == entry_id then
            { n with
              position := first_target_pos (target_pos_of acc.st) conns
                acc.entry_positioned n.position,
              outputs := n.outputs ++ (in_args (target_pin_of acc.st) conns).map
                (fun a => (⟨a.1, a.2, false⟩ : Pin)) } else n) ∧
    (wire_inbound call_id entry_id fname conns acc).st.graphs = acc.st.graphs ∧
    (wire_inbound call_id entry_id fname conns acc).st.next_id = acc.st.next_id := by
  intro conns
  induction conns with
  | nil =>
    intro acc _
    refine ⟨?_, ?_, ?_, rfl, rfl⟩
    · rw [show wire_inbound call_id entry_id fname [] acc = acc from rfl, in_wires]
      simp
    · rw [show wire_inbound call_id entry_id fname [] acc = acc from rfl, in_args, eq_comm]
      apply map_if_id
      intro f _
      simp
    · rw [show wire_inbound call_id entry_id fname [] acc = acc from rfl, in_args, eq_comm]
      apply map_if_id
      intro n _
      simp [first_target_pos]
  | cons E rest ih =>
    intro acc h
    have hrest : ∀ F ∈ rest, F.from_node ≠ entry_id ∧ F.to_node ≠ entry_id :=
      fun F hF => h F (List.mem_cons_of_mem E hF)
    rw [show wire_inbound call_id entry_id fname (E :: rest) acc
        = wire_inbound call_id entry_id fname rest
            (wire_inbound_step call_id entry_id fname E acc) from rfl]
    obtain ⟨ihc, ihf, ihn, ihg, ihi⟩ := ih (wire_inbound_step call_id entry_id fname E acc) hrest
    obtain ⟨hc1, hc2, hc3, hc4, hc5⟩ := wis_counters call_id entry_id fname E acc
    have hsp : ∀ F ∈ rest,
        source_pin_of (wire_inbound_step call_id entry_id fname E acc).st F
          = source_pin_of acc.st F :=
      fun F hF => wis_source_pin call_id entry_id fname E F acc (hrest F hF).1
    have htp : ∀ F ∈ rest,
        target_pin_of (wire_inbound_step call_id entry_id fname E acc).st F
          = target_pin_of acc.st F :=
      fun F hF => wis_target_pin call_id entry_id fname E F acc (hrest F hF).2
    have htpos : ∀ F ∈ rest,
        target_pos_of (wire_inbound_step call_id entry_id fname E acc).st F
          = target_pos_of acc.st F :=
      fun F hF => wis_target_pos call_id entry_id fname E F acc (hrest F hF).2
    refine ⟨?_, ?_, ?_, ?_, ?_⟩
    · rw [ihc, wis_connections,
        in_wires_congr _ _ _ _ call_id entry_id rest _ _ _ _
          (fun F hF => ⟨hsp F hF, htp F hF⟩),
        hc1, hc2, hc3, hc4]
      conv =>
        rhs
        rw [in_wires]
      simp [List.append_assoc]
    · rw [ihf, wis_functions, List.map_map,
        in_args_congr _ _ rest htp]
      apply List.map_congr_left
      intro f _
      rcases htpe : (target_pin_of acc.st E).is_execution <;>
        by_cases hf : f.fn_name == fname <;>
        simp [Function.comp, hf, in_args, htpe, List.append_assoc]
    · have hftp : ∀ (b : Bool) (p0 : Vec2),
          first_target_pos (target_pos_of (wire_inbound_step call_id entry_id fname E acc).st)
              rest b p0
            = first_target_pos (target_pos_of acc.st) rest b p0 :=
        fun b p0 => first_target_pos_congr _ _ rest b p0 htpos
      have hargs : in_args (target_pin_of (wire_inbound_step call_id entry_id fname E acc).st) rest
          = in_args (target_pin_of acc.st) rest := in_args_congr _ _ rest htp
      rw [ihn]
      simp only [hftp, hargs, hc5, wis_nodes, List.map_map]
      apply List.map_congr_left
      intro n _
      rcases htpe : (target_pin_of acc.st E).is_execution <;>
        rcases hpos : acc.entry_positioned <;>
        by_cases hn : n.id = entry_id <;>
        simp [Function.comp, hn, in_args, htpe, hpos, first_target_pos, first_target_pos_true,
          List.append_assoc]
    · rw [ihg, wis_graphs]
    · rw [ihi, wis_next_id]

/-! ### Characterization of the outbound-to-Result pass -/

/-- Return type recorded by the outbound pass: the type of the first outbound
inside source data pin, unless a data wire was already made. -/
def out_ret (sp : Connection → Pin) (conns : List Connection) (dw : Bool) : Option Nat :=
  if dw then none
  else (conns.find? (fun E => !(sp E).is_execution)).map (fun E => (sp E).pin_type)

theorem find?_data_congr (sp1 sp2 : Connection → Pin) :
    ∀ (conns : List Connection), (∀ E ∈ conns, sp1 E = sp2 E) →
    conns.find? (fun E => !(sp1 E).is_execution)
      = conns.find? (fun E => !(sp2 E).is_execution) := by
  intro conns
  induction conns with
  | nil => intro _; rfl
  | cons E rest ih =>
    intro h
    rw [List.find?_cons, List.find?_cons, h E (List.mem_cons_self E rest)]
    rcases hd : (!(sp2 E).is_execution)
    · exact ih (fun F hF => h F (List.mem_cons_of_mem E hF))
    · rfl

theorem out_ret_congr (sp1 sp2 : Connection → Pin) (conns : List Connection) (dw : Bool)
    (h : ∀ E ∈ conns, sp1 E = sp2 E) :
    out_ret sp1 conns dw = out_ret sp2 conns dw := by
  unfold out_ret
  cases dw with
  | true => rfl
  | false =>
    rw [find?_data_congr sp1 sp2 conns h]
    rcases hf : conns.find? (fun E => !(sp2 E).is_execution) with _ | F
    · rfl
    · show some ((sp1 F).pin_type) = some ((sp2 F).pin_type)
      rw [h F (List.mem_of_find?_eq_some hf)]

theorem out_ret_true (sp : Connection → Pin) (conns : List Connection) :
    out_ret sp conns true = none := rfl

/-- One outbound step, characterized per component. -/
theorem wos_connections (result_id : Nat) (fname : String) (E : Connection)
    (acc : OutboundAcc) :
    (wire_outbound_step result_id fname E acc).st.connections
      = acc.st.connections
        ++ (if (source_pin_of acc.st E).is_execution && !acc.output_execution_wired then
              [(⟨E.from_node, E.from_port, result_id, 0⟩ : Connection)]
            else if !(source_pin_of acc.st E).is_execution && !acc.output_data_wired then
              [(⟨E.from_node, E.from_port, result_id, 1⟩ : Connection)]
            else []) := by
  rcases hsp : (source_pin_of acc.st E).is_execution <;>
    rcases hxw : acc.output_execution_wired <;>
    rcases hdw : acc.output_data_wired <;>
    rcases hpos : acc.positioned <;>
    (have hsp2 := hsp;
     simp [source_pin_of, Orchestration.get_node] at hsp2;
     simp [wire_outbound_step, Orchestration.link, Orchestration.update_node,
       Orchestration.set_function_return, Orchestration.get_node, source_pin_of,
       source_pos_of, hsp, hxw, hdw, hpos, hsp2])

theorem wos_functions (result_id : Nat) (fname : String) (E : Connection)
    (acc : OutboundAcc) :
    (wire_outbound_step result_id fname E acc).st.functions
      = acc.st.functions.map (fun f => if f.fn_name == fname then
          (if !(source_pin_of acc.st E).is_execution && !acc.output_data_wired then
            { f with has_return_value := true, return_type := (source_pin_of acc.st E).pin_type }
          else f) else f) := by
  have hid : acc.st.functions.map (fun f => if f.fn_name == fname then f else f)
      = acc.st.functions := by
    apply map_if_id
    intro f _
    rfl
  rcases hsp : (source_pin_of acc.st E).is_execution <;>
    rcases hxw : acc.output_execution_wired <;>
    rcases hdw : acc.output_data_wired <;>
    rcases hpos : acc.positioned <;>
    (have hsp2 := hsp;
     simp [source_pin_of, Orchestration.get_node] at hsp2;
     simp [wire_outbound_step, Orchestration.link, Orchestration.update_node,
       Orchestration.set_function_return, Orchestration.get_node, source_pin_of,
       source_pos_of, hsp, hxw, hdw, hpos, hsp2, hid])

theorem wos_nodes (result_id : Nat) (fname : String) (E : Connection)
    (acc : OutboundAcc) :
    (wire_outbound_step result_id fname E acc).st.nodes
      = acc.st.nodes.map (fun n => if n.id == result_id then
          { n with
            position := if acc.positioned then n.position
                        else source_pos_of acc.st E + ⟨250, 0⟩,
            inputs := n.inputs ++ (if !(source_pin_of acc.st E).is_execution && !acc.output_data_wired then
              [(⟨"return value", (source_pin_of acc.st E).pin_type, false⟩ : Pin)]
            else []) } else n) := by
  rcases hsp : (source_pin_of acc.st E).is_execution <;>
    rcases hxw : acc.output_execution_wired <;>
    rcases hdw : acc.output_data_wired <;>
    rcases hpos : acc.positioned <;>
    (have hsp2 := hsp;
     simp [source_pin_of, Orchestration.get_node] at hsp2;
     simp [wire_outbound_step, Orchestration.link, Orchestration.update_node,
       Orchestration.set_function_return, Orchestration.get_node, source_pin_of,
       source_pos_of, hsp, hxw, hdw, hpos, hsp2, List.map_map]) <;>
    first
      | rfl
      | (intro n _
         by_cases hn : n.id = result_id <;> simp [hn])

theorem wos_graphs (result_id : Nat) (fname : String) (E : Connection) (acc : OutboundAcc) :
    (wire_outbound_step result_id fname E acc).st.graphs = acc.st.graphs := by
  rcases hsp : (source_pin_of acc.st E).is_execution <;>
    rcases hxw : acc.output_execution_wired <;>
    rcases hdw : acc.output_data_wired <;>
    rcases hpos : acc.positioned <;>
    (have hsp2 := hsp;
     simp [source_pin_of, Orchestration.get_node] at hsp2;
     simp [wire_outbound_step, Orchestration.link, Orchestration.update_node,
       Orchestration.set_function_return, Orchestration.get_node, source_pin_of,
       source_pos_of, hsp, hxw, hdw, hpos, hsp2])

theorem wos_next_id (result_id : Nat) (fname : String) (E : Connection) (acc : OutboundAcc) :
    (wire_outbound_step result_id fname E acc).st.next_id = acc.st.next_id := by
  rcases hsp : (source_pin_of acc.st E).is_execution <;>
    rcases hxw : acc.output_execution_wired <;>
    rcases hdw : acc.output_data_wired <;>
    rcases hpos : acc.positioned <;>
    (have hsp2 := hsp;
     simp [source_pin_of, Orchestration.get_node] at hsp2;
     simp [wire_outbound_step, Orchestration.link, Orchestration.update_node,
       Orchestration.set_function_return, Orchestration.get_node, source_pin_of,
       source_pos_of, hsp, hxw, hdw, hpos, hsp2])

theorem wos_flags (result_id : Nat) (fname : String) (E : Connection) (acc : OutboundAcc) :
    (wire_outbound_step result_id fname E acc).output_execution_wired
        = (acc.output_execution_wired || (source_pin_of acc.st E).is_execution) ∧
    (wire_outbound_step result_id fname E acc).output_data_wired
        = (acc.output_data_wired || !(source_pin_of acc.st E).is_execution) ∧
    (wire_outbound_step result_id fname E acc).positioned = true := by
  rcases hsp : (source_pin_of acc.st E).is_execution <;>
    rcases hxw : acc.output_execution_wired <;>
    rcases hdw : acc.output_data_wired <;>
    rcases hpos : acc.positioned <;>
    (have hsp2 := hsp;
     simp [source_pin_of, Orchestration.get_node] at hsp2;
     simp [wire_outbound_step, Orchestration.link, Orchestration.update_node,
       Orchestration.set_function_return, Orchestration.get_node, source_pin_of,
       source_pos_of, hsp, hxw, hdw, hpos, hsp2])

theorem wos_get_node (result_id : Nat) (fname : String) (E : Connection)
    (acc : OutboundAcc) (j : Nat) (hj : j ≠ result_id) :
    (wire_outbound_step result_id fname E acc).st.get_node j = acc.st.get_node j := by
  show ((wire_outbound_step result_id fname E acc).st.nodes).find? (fun n => n.id == j)
    = acc.st.nodes.find? (fun n => n.id == j)
  rw [wos_nodes]
  exact find?_id_map_update acc.st.nodes result_id j _ (fun n => rfl) hj

/-- Full characterization of the outbound-to-Result pass. -/
theorem wire_outbound_spec (result_id : Nat) (fname : String) :
    ∀ (conns : List Connection) (acc : OutboundAcc),
    (∀ E ∈ conns, E.from_node ≠ result_id) →
    (wire_outbound_result result_id fname conns acc).st.connections
        = acc.st.connections
          ++ out_wires (source_pin_of acc.st) result_id conns
               acc.output_execution_wired acc.output_data_wired ∧
    (wire_outbound_result result_id fname conns acc).st.functions
        = acc.st.functions.map (fun f => if f.fn_name == fname then
            (match out_ret (source_pin_of acc.st) conns acc.output_data_wired with
             | some T => { f with has_return_value := true, return_type := T }
             | none => f) else f) ∧
    (wire_outbound_result result_id fname conns acc).st.nodes
        = acc.st.nodes.map (fun n => if n.id == result_id then
            { n with
              position := first_source_pos (source_pos_of acc.st) conns acc.positioned n.position,
              inputs := n.inputs
                ++ (match out_ret (source_pin_of acc.st) conns acc.output_data_wired with
                    | some T => [(⟨"return value", T, false⟩ : Pin)]
                    | none => []) } else n) ∧
    (wire_outbound_result result_id fname conns acc).st.graphs = acc.st.graphs ∧
    (wire_outbound_result result_id fname conns acc).st.next_id = acc.st.next_id := by
  intro conns
  induction conns with
  | nil =>
    intro acc _
    refine ⟨?_, ?_, ?_, rfl, rfl⟩
    · rw [show wire_outbound_result result_id fname [] acc = acc from rfl, out_wires]
      simp
    · rw [show wire_outbound_result result_id fname [] acc = acc from rfl, eq_comm]
      have : out_ret (source_pin_of acc.st) [] acc.output_data_wired = none := by
        unfold out_ret
        cases acc.output_data_wired <;> rfl
      rw [this]
      apply map_if_id
      intro f _
      rfl
    · rw [show wire_outbound_result result_id fname [] acc = acc from rfl, eq_comm]
      have : out_ret (source_pin_of acc.st) [] acc.output_data_wired = none := by
        unfold out_ret
        cases acc.output_data_wired <;> rfl
      rw [this]
      apply map_if_id
      intro n _
      simp [first_source_pos]
  | cons E rest ih =>
    intro acc h
    have hrest : ∀ F ∈ rest, F.from_node ≠ result_id :=
      fun F hF => h F (List.mem_cons_of_mem E hF)
    rw [show wire_outbound_result result_id fname (E :: rest) acc
        = wire_outbound_result result_id fname rest (wire_outbound_step result_id fname E acc)
        from rfl]
    obtain ⟨ihc, ihf, ihn, ihg, ihi⟩ := ih (wire_outbound_step result_id fname E acc) hrest
    obtain ⟨hf1, hf2, hf3⟩ := wos_flags result_id fname E acc
    have hsp : ∀ F ∈ rest,
        source_pin_of (wire_outbound_step result_id fname E acc).st F
          = source_pin_of acc.st F := by
      intro F hF
      unfold source_pin_of
      rw [wos_get_node result_id fname E acc F.from_node (hrest F hF)]
    have hspos : ∀ F ∈ rest,
        source_pos_of (wire_outbound_step result_id fname E acc).st F
          = source_pos_of acc.st F := by
      intro F hF
      unfold source_pos_of
      rw [wos_get_node result_id fname E acc F.from_node (hrest F hF)]
    have hret : ∀ (dw : Bool),
        out_ret (source_pin_of (wire_outbound_step result_id fname E acc).st) rest dw
          = out_ret (source_pin_of acc.st) rest dw :=
      fun dw => out_ret_congr _ _ rest dw hsp
    refine ⟨?_, ?_, ?_, ?_, ?_⟩
    · rw [ihc, wos_connections,
        out_wires_congr _ _ result_id rest _ _ hsp, hf1, hf2]
      conv =>
        rhs
        rw [out_wires]
      simp [List.append_assoc]
    · rw [ihf, wos_functions, List.map_map]
      simp only [hret, hf2]
      apply List.map_congr_left
      intro f _
      rcases hspe : (source_pin_of acc.st E).is_execution <;>
        rcases hdw : acc.output_data_wired <;>
        by_cases hf : (f.fn_name == fname) = true <;>
        simp [Function.comp, hf, out_ret, hspe, hdw, List.find?_cons]
    · have hfsp : ∀ (b : Bool) (p0 : Vec2),
          first_source_pos (source_pos_of (wire_outbound_step result_id fname E acc).st)
              rest b p0
            = first_source_pos (source_pos_of acc.st) rest b p0 :=
        fun b p0 => first_source_pos_congr _ _ rest b p0 hspos
      rw [ihn]
      simp only [hfsp, hret, hf2, hf3, wos_nodes, List.map_map]
      apply List.map_congr_left
      intro n _
      rcases hspe : (source_pin_of acc.st E).is_execution <;>
        rcases hdw : acc.output_data_wired <;>
        rcases hpos : acc.positioned <;>
        by_cases hn : n.id = result_id <;>
        simp [Function.comp, hn, out_ret, hspe, hdw, hpos, first_source_pos,
          first_source_pos_true, List.find?_cons, List.append_assoc]
    · rw [ihg, wos_graphs]
    · rw [ihi, wos_next_id]

/-! ### Characterization of the caller-side Call-node output pass -/

theorem wcs_connections (call_id : Nat) (E : Connection) (acc : CallOutAcc) :
    (wire_call_outputs_step call_id E acc).st.connections
      = acc.st.connections
        ++ (if (target_pin_of acc.st E).is_execution && !acc.call_execution_wired then
              [(⟨call_id, 0, E.to_node, E.to_port⟩ : Connection)]
            else if !(target_pin_of acc.st E).is_execution then
              [(⟨call_id, acc.call_output_index, E.to_node, E.to_port⟩ : Connection)]
            else []) := by
  rcases htp : (target_pin_of acc.st E).is_execution <;>
    rcases hcw : acc.call_execution_wired <;>
    (have htp2 := htp;
     simp [target_pin_of, Orchestration.get_node] at htp2;
     simp [wire_call_outputs_step, Orchestration.link, Orchestration.get_node,
       target_pin_of, htp, hcw, htp2])

theorem wcs_rest (call_id : Nat) (E : Connection) (acc : CallOutAcc) :
    (wire_call_outputs_step call_id E acc).st.nodes = acc.st.nodes ∧
    (wire_call_outputs_step call_id E acc).st.functions = acc.st.functions ∧
    (wire_call_outputs_step call_id E acc).st.graphs = acc.st.graphs ∧
    (wire_call_outputs_step call_id E acc).st.next_id = acc.st.next_id ∧
    (wire_call_outputs_step call_id E acc).call_output_index
        = (if !(target_pin_of acc.st E).is_execution then acc.call_output_index + 1
           else acc.call_output_index) ∧
    (wire_call_outputs_step call_id E acc).call_execution_wired
        = (acc.call_execution_wired || (target_pin_of acc.st E).is_execution) := by
  rcases htp : (target_pin_of acc.st E).is_execution <;>
    rcases hcw : acc.call_execution_wired <;>
    (have htp2 := htp;
     simp [target_pin_of, Orchestration.get_node] at htp2;
     simp [wire_call_outputs_step, Orchestration.link, Orchestration.get_node,
       target_pin_of, htp, hcw, htp2])

/-- Full characterization of the caller-side output pass: it only appends the
Call-node output wires. -/
theorem wire_call_outputs_spec (call_id : Nat) :
    ∀ (conns : List Connection) (acc : CallOutAcc),
    (wire_call_outputs call_id conns acc).st.connections
        = acc.st.connections
          ++ callout_wires (target_pin_of acc.st) call_id conns
               acc.call_output_index acc.call_execution_wired ∧
    (wire_call_outputs call_id conns acc).st.nodes = acc.st.nodes ∧
    (wire_call_outputs call_id conns acc).st.functions = acc.st.functions ∧
    (wire_call_outputs call_id conns acc).st.graphs = acc.st.graphs ∧
    (wire_call_outputs call_id conns acc).st.next_id = acc.st.next_id := by
  intro conns
  induction conns with
  | nil =>
    intro acc
    refine ⟨?_, rfl, rfl, rfl, rfl⟩
    rw [show wire_call_outputs call_id [] acc = acc from rfl, callout_wires]
    simp
  | cons E rest ih =>
    intro acc
    rw [show wire_call_outputs call_id (E :: rest) acc
        = wire_call_outputs call_id rest (wire_call_outputs_step call_id E acc) from rfl]
    obtain ⟨ihc, ihn, ihf, ihg, ihi⟩ := ih (wire_call_outputs_step call_id E acc)
    obtain ⟨hr1, hr2, hr3, hr4, hr5, hr6⟩ := wcs_rest call_id E acc
    have htp : ∀ F ∈ rest,
        target_pin_of (wire_call_outputs_step call_id E acc).st F
          = target_pin_of acc.st F := by
      intro F _
      unfold target_pin_of Orchestration.get_node
      rw [hr1]
    refine ⟨?_, ?_, ?_, ?_, ?_⟩
    · rw [ihc, wcs_connections,
        callout_wires_congr _ _ call_id rest _ _ htp, hr5, hr6]
      conv =>
        rhs
        rw [callout_wires]
      simp [List.append_assoc]
    · rw [ihn, hr1]
    · rw [ihf, hr2]
    · rw [ihg, hr3]
    · rw [ihi, hr4]

/-! ### Severing and moving passes -/

theorem foldl_unlink_connections (l : List Connection) (s0 : Orchestration) :
    (l.foldl (fun s E => s.unlink E) s0).connections
      = s0.connections.filter (fun d => !(decide (d ∈ l))) := by
  induction l generalizing s0 with
  | nil =>
    rw [List.foldl_nil, eq_comm]
    simp
  | cons c cs ih =>
    rw [List.foldl_cons, ih]
    show (s0.connections.filter (fun d => !(d == c))).filter (fun d => !(decide (d ∈ cs))) = _
    rw [List.filter_filter]
    apply List.filter_congr
    intro d _
    rcases hdc : (d == c)
    · simp only [beq_eq_false_iff_ne, ne_eq] at hdc
      simp [List.mem_cons, hdc]
    · simp only [beq_iff_eq] at hdc
      simp [List.mem_cons, hdc]

theorem foldl_unlink_rest (l : List Connection) (s0 : Orchestration) :
    (l.foldl (fun s E => s.unlink E) s0).nodes = s0.nodes ∧
    (l.foldl (fun s E => s.unlink E) s0).graphs = s0.graphs ∧
    (l.foldl (fun s E => s.unlink E) s0).functions = s0.functions ∧
    (l.foldl (fun s E => s.unlink E) s0).next_id = s0.next_id := by
  induction l generalizing s0 with
  | nil => exact ⟨rfl, rfl, rfl, rfl⟩
  | cons c cs ih => exact ih (s0.unlink c)

theorem foldl_move_graphs (sel : List Node) (s0 : Orchestration) (src dst : String)
    (hne : src ≠ dst) :
    (sel.foldl (fun s n => s.move_node_to n.id src dst) s0).graphs
      = s0.graphs.map (fun g =>
          if g.graph_name == src then
            { g with node_ids := List.filter (fun i => !((sel.map (fun n => n.id)).contains i)) g.node_ids }
          else if g.graph_name == dst then
            { g with node_ids := g.node_ids ++ sel.map (fun n => n.id) }
          else g) := by
  induction sel generalizing s0 with
  | nil =>
    rw [List.foldl_nil, eq_comm]
    simp
  | cons n ns ih =>
    rw [List.foldl_cons, ih]
    show ((s0.move_node_to n.id src dst).graphs).map _ = _
    unfold Orchestration.move_node_to
    rw [List.map_map]
    apply List.map_congr_left
    intro g _
    by_cases hs : (g.graph_name == src) = true
    · have hd : (g.graph_name == dst) = false := by
        simp only [beq_iff_eq] at hs
        simp only [beq_eq_false_iff_ne, ne_eq, hs]
        exact hne
      simp only [Function.comp, hs, hd, if_true, if_false, Bool.false_eq_true]
      congr 1
      rw [List.filter_filter]
      apply List.filter_congr
      intro i _
      rcases hic : (i == n.id)
      · simp only [beq_eq_false_iff_ne, ne_eq] at hic
        simp [List.contains_cons, hic]
      · simp only [beq_iff_eq] at hic
        simp [List.contains_cons, hic]
    · by_cases hd : (g.graph_name == dst) = true
      · simp only [Function.comp, hs, hd, if_true, if_false, Bool.false_eq_true]
        simp
      · simp only [Function.comp, hs, hd, if_false, Bool.false_eq_true]

theorem foldl_move_rest (sel : List Node) (s0 : Orchestration) (src dst : String) :
    (sel.foldl (fun s n => s.move_node_to n.id src dst) s0).nodes = s0.nodes ∧
    (sel.foldl (fun s n => s.move_node_to n.id src dst) s0).connections = s0.connections ∧
    (sel.foldl (fun s n => s.move_node_to n.id src dst) s0).functions = s0.functions ∧
    (sel.foldl (fun s n => s.move_node_to n.id src dst) s0).next_id = s0.next_id := by
  induction sel generalizing s0 with
  | nil => exact ⟨rfl, rfl, rfl, rfl⟩
  | cons n ns ih => exact ih (s0.move_node_to n.id src dst)

/-! ### Function creation, and the reference form of a successful collapse -/

theorem map_if_not {α : Type} (l : List α) (p : α → Bool) (f : α → α)
    (h : ∀ n ∈ l, p n = false) :
    l.map (fun n => if p n then f n else n) = l := by
  induction l with
  | nil => rfl
  | cons a as ih =>
    rw [List.map_cons, h a (List.mem_cons_self a as), if_neg (by simp),
      ih (fun x hx => h x (List.mem_cons_of_mem a hx))]

theorem create_new_function_success (st : Orchestration) (name : String)
    (hcol : st.graphs.any (fun g => g.graph_name == name) = false) :
    create_new_function st name true =
      ({ nodes := st.nodes
           ++ [⟨st.next_id, ⟨0, 0⟩, [], [execPin], false, NodeKind.functionEntry⟩,
               ⟨st.next_id + 1, (⟨0, 0⟩ : Vec2) + ⟨300, 0⟩, [execPin], [], false,
                 NodeKind.functionResult⟩],
         connections := st.connections,
         graphs := st.graphs ++ [⟨name, [st.next_id, st.next_id + 1]⟩],
         functions := st.functions ++ [⟨name, [], false, 0, st.next_id, some (st.next_id + 1)⟩],
         next_id := st.next_id + 2 },
       some ⟨name, [], false, 0, st.next_id, some (st.next_id + 1)⟩) := by
  have hg : ∀ g ∈ st.graphs, (g.graph_name == name) = false := by
    intro g hgm
    rcases hb : (g.graph_name == name)
    · rfl
    · exfalso
      have : st.graphs.any (fun g => g.graph_name == name) = true :=
        List.any_eq_true.mpr ⟨g, hgm, hb⟩
      rw [hcol] at this
      cases this
  unfold create_new_function
  rw [hcol]
  simp only [Bool.false_eq_true, if_false, if_true, Orchestration.add_node, Prod.mk.injEq]
  refine ⟨?_, trivial⟩
  have h1 : ((st.graphs ++ [(⟨name, []⟩ : OScriptGraph)]).map (fun g =>
      if g.graph_name == name then { g with node_ids := g.node_ids ++ [st.next_id] } else g))
      = st.graphs ++ [(⟨name, [st.next_id]⟩ : OScriptGraph)] := by
    rw [List.map_append, map_if_not st.graphs _ _ hg]
    simp
  have h2 : ((st.graphs ++ [(⟨name, [st.next_id]⟩ : OScriptGraph)]).map (fun g =>
      if g.graph_name == name then { g with node_ids := g.node_ids ++ [st.next_id + 1] } else g))
      = st.graphs ++ [(⟨name, [st.next_id, st.next_id + 1]⟩ : OScriptGraph)] := by
    rw [List.map_append, map_if_not st.graphs _ _ hg]
    simp
  simp only [h1, h2, List.append_assoc, List.cons_append, List.nil_append]

/-- The deterministic name chosen for the extracted function. -/
def collapse_fname (st : Orchestration) : String :=
  create_unique_name "NewFunction" (st.functions.map (fun f => f.fn_name))

/-- Reference form of the state produced by a successful collapse: the
explicit value of every component of the final orchestration, assembled from
the specification functions of the rewiring passes. -/
def collapse_spec_state (st : Orchestration) (src_graph : String) (selected : List Node) :
    Orchestration :=
  let fname := collapse_fname st
  let entry_id := st.next_id
  let result_id := st.next_id + 1
  let call_id := st.next_id + 2
  let conns := resolve_node_set_connections st selected
  let keep := st.connections.filter
    (fun d => !(decide (d ∈ conns.inputs)) && !(decide (d ∈ conns.outputs)))
  let inW := in_wires (source_pin_of st) (target_pin_of st) call_id entry_id conns.inputs
    1 1 false false
  let outW := out_wires (source_pin_of st) result_id conns.outputs false false
  let args := in_args (target_pin_of st) conns.inputs
  let ret := out_ret (source_pin_of st) conns.outputs false
  let entry1 : Node :=
    { id := entry_id,
      position := first_target_pos (target_pos_of st) conns.inputs false ⟨0, 0⟩,
      inputs := [],
      outputs := [execPin] ++ args.map (fun a => (⟨a.1, a.2, false⟩ : Pin)),
      can_duplicate := false, kind := NodeKind.functionEntry }
  let result1 : Node :=
    { id := result_id,
      position := first_source_pos (source_pos_of st) conns.outputs false
        ((⟨0, 0⟩ : Vec2) + ⟨300, 0⟩),
      inputs := [execPin] ++ (match ret with
        | some T => [(⟨"return value", T, false⟩ : Pin)]
        | none => []),
      outputs := [], can_duplicate := false, kind := NodeKind.functionResult }
  let midConns := keep ++ inW ++ outW
  let fixCond := (0 < result1.inputs.length
      && !(midConns.any (fun c => c.to_node == result_id && c.to_port == 0)))
    && (0 < entry1.outputs.length
      && !(midConns.any (fun c => c.from_node == entry_id && c.from_port == 0)))
  let fixLink := if fixCond then [(⟨entry_id, 0, result_id, 0⟩ : Connection)] else []
  let entry2 : Node :=
    if fixCond && (entry1.outputs.length == 1) then
      { entry1 with position := result1.position - ⟨250, 0⟩ }
    else entry1
  let callN : Node :=
    { id := call_id, position := (get_node_set_rect selected).get_center,
      inputs := [execPin], outputs := [execPin], can_duplicate := true,
      kind := NodeKind.callScriptFunction fname }
  let coW := callout_wires (target_pin_of st) call_id conns.outputs 1 false
  let fn : OScriptFunction :=
    { fn_name := fname, args := args,
      has_return_value := ret.isSome, return_type := ret.getD 0,
      owning_node_id := entry_id, result_node_id := some result_id }
  { nodes := st.nodes ++ [entry2, result1, callN],
    connections := midConns ++ fixLink ++ coW,
    graphs := (st.graphs.map (fun g =>
        if g.graph_name == src_graph then
          { g with node_ids := (List.filter
              (fun i => !((selected.map (fun n => n.id)).contains i)) g.node_ids) ++ [call_id] }
        else g))
      ++ [⟨fname, [entry_id, result_id] ++ selected.map (fun n => n.id)⟩],
    functions := st.functions ++ [fn],
    next_id := st.next_id + 3 }

/-- A successful non-empty collapse implies every precondition check passed. -/
theorem collapse_success_conditions (st : Orchestration) (src_graph : String)
    (selected : List Node) (stf : Orchestration)
    (h : collapse_selected_to_function st src_graph selected = (stf, none))
    (hne : selected ≠ []) :
    selected.find? (fun n => !n.can_duplicate) = none ∧
    ¬ (resolve_node_set_connections st selected).input_executions > 1 ∧
    ¬ (resolve_node_set_connections st selected).output_executions > 1 ∧
    ¬ (resolve_node_set_connections st selected).outputs.length > 2 ∧
    st.graphs.any (fun g => g.graph_name == collapse_fname st) = false := by
  have hne' : selected.isEmpty = false := by
    cases selected with
    | nil => exact absurd rfl hne
    | cons a l => rfl
  unfold collapse_selected_to_function at h
  rw [hne'] at h
  simp only [Bool.false_eq_true, if_false] at h
  cases hf : selected.find? (fun n => !n.can_duplicate) with
  | some n =>
    rw [hf] at h
    cases h
  | none =>
    rw [hf] at h
    by_cases h1 : (resolve_node_set_connections st selected).input_executions > 1
    · rw [if_pos h1] at h
      simp at h
    · rw [if_neg h1] at h
      by_cases h2 : (resolve_node_set_connections st selected).output_executions > 1
      · rw [if_pos h2] at h
        simp at h
      · rw [if_neg h2] at h
        by_cases h3 : (resolve_node_set_connections st selected).outputs.length > 2
        · rw [if_pos h3] at h
          simp at h
        · rw [if_neg h3] at h
          refine ⟨rfl, h1, h2, h3, ?_⟩
          rcases hcol : st.graphs.any (fun g => g.graph_name == collapse_fname st)
          · rfl
          · exfalso
            rw [show create_unique_name "NewFunction" (st.functions.map (fun f => f.fn_name))
                = collapse_fname st from rfl] at h
            unfold create_new_function at h
            rw [hcol] at h
            simp at h

end OModel

namespace OModel

theorem orch_ext (a b : Orchestration) (h1 : a.nodes = b.nodes)
    (h2 : a.connections = b.connections) (h3 : a.graphs = b.graphs)
    (h4 : a.functions = b.functions) (h5 : a.next_id = b.next_id) : a = b := by
  cases a
  cases b
  congr 1 <;> first | exact h1 | exact h2 | exact h3 | exact h4 | exact h5

theorem get_node_nodes_append (st : Orchestration) (extra : List Node) (j : Nat) (m : Node)
    (hm : st.get_node j = some m) (st2 : Orchestration) (h2 : st2.nodes = st.nodes ++ extra) :
    st2.get_node j = some m := by
  show st2.nodes.find? (fun n => n.id == j) = some m
  rw [h2, List.find?_append]
  unfold Orchestration.get_node at hm
  rw [hm]
  rfl

end OModel

namespace OModel

theorem stageB (st : Orchestration) (selected : List Node) (A : Orchestration)
    (hAc : A.connections = st.connections) :
    (resolve_node_set_connections st selected).outputs.foldl (fun s E => s.unlink E)
      ((resolve_node_set_connections st selected).inputs.foldl (fun s E => s.unlink E) A)
    = { A with connections := (List.filter
        (fun d => !(decide (d ∈ (resolve_node_set_connections st selected).inputs))
          && !(decide (d ∈ (resolve_node_set_connections st selected).outputs)))
        st.connections) } := by
  apply orch_ext
  · rw [(foldl_unlink_rest _ _).1, (foldl_unlink_rest _ _).1]
  · rw [foldl_unlink_connections, foldl_unlink_connections, hAc, List.filter_filter]
    apply List.filter_congr
    intro d _
    rw [Bool.and_comm]
  · rw [(foldl_unlink_rest _ _).2.1, (foldl_unlink_rest _ _).2.1]
  · rw [(foldl_unlink_rest _ _).2.2.1, (foldl_unlink_rest _ _).2.2.1]
  · rw [(foldl_unlink_rest _ _).2.2.2, (foldl_unlink_rest _ _).2.2.2]

end OModel

namespace OModel

theorem graphs_not_fname (st : Orchestration)
    (hcol : st.graphs.any (fun g => g.graph_name == collapse_fname st) = false) :
    ∀ g ∈ st.graphs, (g.graph_name == collapse_fname st) = false := by
  intro g hgm
  rcases hb : (g.graph_name == collapse_fname st)
  · rfl
  · exfalso
    have : st.graphs.any (fun g => g.graph_name == collapse_fname st) = true :=
      List.any_eq_true.mpr ⟨g, hgm, hb⟩
    rw [hcol] at this
    cases this

theorem stageC (st : Orchestration) (selected : List Node) (src_graph : String)
    (B : Orchestration)
    (hBg : B.graphs = st.graphs ++ [⟨collapse_fname st, [st.next_id, st.next_id + 1]⟩])
    (hcol : st.graphs.any (fun g => g.graph_name == collapse_fname st) = false)
    (hsrcne : src_graph ≠ collapse_fname st) :
    selected.foldl (fun s n => s.move_node_to n.id src_graph (collapse_fname st)) B
    = { B with graphs := (st.graphs.map (fun g =>
          if g.graph_name == src_graph then
            { g with node_ids := (List.filter
                (fun i => !((selected.map (fun n => n.id)).contains i)) g.node_ids) }
          else g))
        ++ [⟨collapse_fname st,
              [st.next_id, st.next_id + 1] ++ selected.map (fun n => n.id)⟩] } := by
  apply orch_ext
  · rw [(foldl_move_rest _ _ _ _).1]
  · rw [(foldl_move_rest _ _ _ _).2.1]
  · rw [foldl_move_graphs selected B src_graph (collapse_fname st) hsrcne, hBg,
      List.map_append]
    congr 1
    · apply List.map_congr_left
      intro g hg
      by_cases hs : (g.graph_name == src_graph) = true
      · rw [if_pos hs, if_pos hs]
      · rw [if_neg hs, if_neg hs, if_neg (by rw [graphs_not_fname st hcol g hg]; simp)]
    · have h1 : (((⟨collapse_fname st, [st.next_id, st.next_id + 1]⟩ : OScriptGraph).graph_name
          == src_graph)) = false := by
        simp only [beq_eq_false_iff_ne, ne_eq]
        exact fun he => hsrcne he.symm
      rw [List.map_cons, List.map_nil, if_neg (by rw [h1]; simp),
        if_pos (by simp)]
  · rw [(foldl_move_rest _ _ _ _).2.2.1]
  · rw [(foldl_move_rest _ _ _ _).2.2.2]

theorem stageD (st : Orchestration) (selected : List Node) (src_graph : String)
    (C : Orchestration) (cN : Node)
    (hCg : C.graphs = (st.graphs.map (fun g =>
          if g.graph_name == src_graph then
            { g with node_ids := (List.filter
                (fun i => !((selected.map (fun n => n.id)).contains i)) g.node_ids) }
          else g))
        ++ [⟨collapse_fname st,
              [st.next_id, st.next_id + 1] ++ selected.map (fun n => n.id)⟩])
    (hcol : st.graphs.any (fun g => g.graph_name == collapse_fname st) = false)
    (hsrcne : src_graph ≠ collapse_fname st) :
    C.add_node src_graph cN
    = { C with
        nodes := C.nodes ++ [cN],
        graphs := (st.graphs.map (fun g =>
          if g.graph_name == src_graph then
            { g with node_ids := (List.filter
                (fun i => !((selected.map (fun n => n.id)).contains i)) g.node_ids) ++ [cN.id] }
          else g))
        ++ [⟨collapse_fname st,
              [st.next_id, st.next_id + 1] ++ selected.map (fun n => n.id)⟩],
        next_id := C.next_id + 1 } := by
  apply orch_ext
  · rfl
  · rfl
  · show (C.graphs.map (fun g =>
      if g.graph_name == src_graph then { g with node_ids := g.node_ids ++ [cN.id] } else g)) = _
    rw [hCg, List.map_append, List.map_map]
    congr 1
    · apply List.map_congr_left
      intro g _
      by_cases hs : (g.graph_name == src_graph) = true
      · simp only [Function.comp, hs, if_true]
      · simp only [Function.comp, hs, Bool.false_eq_true, if_false]
    · have h1 : (((⟨collapse_fname st,
          [st.next_id, st.next_id + 1] ++ selected.map (fun n => n.id)⟩ : OScriptGraph).graph_name
          == src_graph)) = false := by
        simp only [beq_eq_false_iff_ne, ne_eq]
        exact fun he => hsrcne he.symm
      rw [List.map_cons, List.map_nil, if_neg (by rw [h1]; simp)]
  · rfl
  · rfl

end OModel

namespace OModel

theorem get_node_append_extra (st st2 : Orchestration) (extra : List Node)
    (h2 : st2.nodes = st.nodes ++ extra) (j : Nat)
    (hj : ∀ m ∈ extra, (m.id == j) = false) :
    st2.get_node j = st.get_node j := by
  show st2.nodes.find? (fun n => n.id == j) = st.nodes.find? (fun n => n.id == j)
  rw [h2, List.find?_append]
  cases hf : st.nodes.find? (fun n => n.id == j) with
  | some m => rfl
  | none =>
    show (extra.find? (fun n => n.id == j)) = none
    rw [List.find?_eq_none]
    intro m hm
    rw [hj m hm]
    simp

theorem conn_endpoint_bounds (st : Orchestration) (hwf : st.wf_ids) (hwc : st.wf_conns)
    (E : Connection) (hE : E ∈ st.connections) :
    E.from_node < st.next_id ∧ E.to_node < st.next_id := by
  obtain ⟨⟨n1, hn1, hid1, _⟩, ⟨n2, hn2, hid2, _⟩⟩ := hwc E hE
  exact ⟨hid1 ▸ hwf.2 n1 hn1, hid2 ▸ hwf.2 n2 hn2⟩

theorem stageE (st : Orchestration) (fname : String) (inputs : List Connection)
    (hwf : st.wf_ids) (hwc : st.wf_conns)
    (hsub : ∀ E ∈ inputs, E ∈ st.connections)
    (hfn : ∀ f ∈ st.functions, (f.fn_name == fname) = false)
    (cN : Node) (hcid : cN.id = st.next_id + 2)
    (D : Orchestration) (keep : List Connection) (G : List OScriptGraph)
    (hDn : D.nodes = st.nodes ++
        [⟨st.next_id, ⟨0, 0⟩, [], [execPin], false, NodeKind.functionEntry⟩,
         ⟨st.next_id + 1, (⟨0, 0⟩ : Vec2) + ⟨300, 0⟩, [execPin], [], false,
           NodeKind.functionResult⟩, cN])
    (hDc : D.connections = keep)
    (hDf : D.functions = st.functions
        ++ [⟨fname, [], false, 0, st.next_id, some (st.next_id + 1)⟩])
    (hDg : D.graphs = G) (hDi : D.next_id = st.next_id + 3) :
    (wire_inbound (st.next_id + 2) st.next_id fname inputs
        ⟨D, 1, 1, false, false, false⟩).st
    = { nodes := st.nodes ++
          [⟨st.next_id, first_target_pos (target_pos_of st) inputs false ⟨0, 0⟩, [],
             [execPin] ++ (in_args (target_pin_of st) inputs).map
               (fun a => (⟨a.1, a.2, false⟩ : Pin)),
             false, NodeKind.functionEntry⟩,
           ⟨st.next_id + 1, (⟨0, 0⟩ : Vec2) + ⟨300, 0⟩, [execPin], [], false,
             NodeKind.functionResult⟩, cN],
        connections := keep ++ in_wires (source_pin_of st) (target_pin_of st)
          (st.next_id + 2) st.next_id inputs 1 1 false false,
        graphs := G,
        functions := st.functions ++ [⟨fname, in_args (target_pin_of st) inputs, false, 0,
          st.next_id, some (st.next_id + 1)⟩],
        next_id := st.next_id + 3 } := by
  have hb : ∀ E ∈ inputs, E.from_node < st.next_id ∧ E.to_node < st.next_id :=
    fun E hE => conn_endpoint_bounds st hwf hwc E (hsub E hE)
  have hne : ∀ E ∈ inputs, E.from_node ≠ st.next_id ∧ E.to_node ≠ st.next_id := by
    intro E hE
    have := hb E hE
    omega
  have hextra : ∀ j : Nat, j < st.next_id →
      ∀ m ∈ [(⟨st.next_id, ⟨0, 0⟩, [], [execPin], false, NodeKind.functionEntry⟩ : Node),
         ⟨st.next_id + 1, (⟨0, 0⟩ : Vec2) + ⟨300, 0⟩, [execPin], [], false,
           NodeKind.functionResult⟩, cN], (m.id == j) = false := by
    intro j hj m hm
    simp only [List.mem_cons, List.not_mem_nil, or_false] at hm
    rcases hm with rfl | rfl | rfl <;>
      simp only [beq_eq_false_iff_ne, ne_eq] <;> first | omega | (rw [hcid]; omega)
  have hget : ∀ j : Nat, j < st.next_id → D.get_node j = st.get_node j :=
    fun j hj => get_node_append_extra st D _ hDn j (hextra j hj)
  have hsp : ∀ E ∈ inputs, source_pin_of D E = source_pin_of st E := by
    intro E hE
    unfold source_pin_of
    rw [hget E.from_node (hb E hE).1]
  have htp : ∀ E ∈ inputs, target_pin_of D E = target_pin_of st E := by
    intro E hE
    unfold target_pin_of
    rw [hget E.to_node (hb E hE).2]
  have htpos : ∀ E ∈ inputs, target_pos_of D E = target_pos_of st E := by
    intro E hE
    unfold target_pos_of
    rw [hget E.to_node (hb E hE).2]
  obtain ⟨hc, hf, hn, hg, hi⟩ := wire_inbound_spec (st.next_id + 2) st.next_id fname inputs
    ⟨D, 1, 1, false, false, false⟩ hne
  have hr1 : ((st.next_id + 1) == st.next_id) = false := by
    simp only [beq_eq_false_iff_ne, ne_eq]
    omega
  have hc1 : (cN.id == st.next_id) = false := by
    simp only [beq_eq_false_iff_ne, ne_eq]
    omega
  apply orch_ext
  · rw [hn]
    show (D.nodes.map _) = _
    rw [hDn, List.map_append,
      map_if_not st.nodes _ _ (by
        intro n hn2
        have := hwf.2 n hn2
        simp only [beq_eq_false_iff_ne, ne_eq]
        omega)]
    have hargs : in_args (target_pin_of D) inputs = in_args (target_pin_of st) inputs :=
      in_args_congr _ _ inputs htp
    have hftp : ∀ p0, first_target_pos (target_pos_of D) inputs false p0
        = first_target_pos (target_pos_of st) inputs false p0 :=
      fun p0 => first_target_pos_congr _ _ inputs false p0 htpos
    simp [hr1, hc1, hargs, hftp]
    intro h
    rw [hcid] at h
    exact absurd h (by omega)
  · rw [hc]
    show D.connections ++ _ = _
    rw [hDc,
      in_wires_congr _ _ _ _ (st.next_id + 2) st.next_id inputs 1 1 false false
        (fun E hE => ⟨hsp E hE, htp E hE⟩)]
  · rw [hg]
    show D.graphs = G
    exact hDg
  · rw [hf]
    show (D.functions.map _) = _
    rw [hDf, List.map_append, map_if_not st.functions _ _ hfn]
    have hargs : in_args (target_pin_of D) inputs = in_args (target_pin_of st) inputs :=
      in_args_congr _ _ inputs htp
    simp [hargs]
  · rw [hi]
    show D.next_id = st.next_id + 3
    exact hDi

end OModel

namespace OModel

theorem stageF (st : Orchestration) (fname : String) (outputs : List Connection)
    (hwf : st.wf_ids) (hwc : st.wf_conns)
    (hsub : ∀ E ∈ outputs, E ∈ st.connections)
    (hfn : ∀ f ∈ st.functions, (f.fn_name == fname) = false)
    (eN cN : Node) (heid : eN.id = st.next_id) (hcid : cN.id = st.next_id + 2)
    (args : List (String × Nat))
    (E6 : Orchestration) (mid : List Connection) (G : List OScriptGraph)
    (hEn : E6.nodes = st.nodes ++
        [eN, ⟨st.next_id + 1, (⟨0, 0⟩ : Vec2) + ⟨300, 0⟩, [execPin], [], false,
          NodeKind.functionResult⟩, cN])
    (hEc : E6.connections = mid)
    (hEf : E6.functions = st.functions
        ++ [⟨fname, args, false, 0, st.next_id, some (st.next_id + 1)⟩])
    (hEg : E6.graphs = G) (hEi : E6.next_id = st.next_id + 3) :
    (wire_outbound_result (st.next_id + 1) fname outputs ⟨E6, false, false, false⟩).st
    = { nodes := st.nodes ++
          [eN, ⟨st.next_id + 1,
             first_source_pos (source_pos_of st) outputs false ((⟨0, 0⟩ : Vec2) + ⟨300, 0⟩),
             [execPin] ++ (match out_ret (source_pin_of st) outputs false with
               | some T => [(⟨"return value", T, false⟩ : Pin)]
               | none => []),
             [], false, NodeKind.functionResult⟩, cN],
        connections := mid ++ out_wires (source_pin_of st) (st.next_id + 1) outputs false false,
        graphs := G,
        functions := st.functions ++ [⟨fname, args,
          (out_ret (source_pin_of st) outputs false).isSome,
          (out_ret (source_pin_of st) outputs false).getD 0,
          st.next_id, some (st.next_id + 1)⟩],
        next_id := st.next_id + 3 } := by
  have hb : ∀ E ∈ outputs, E.from_node < st.next_id ∧ E.to_node < st.next_id :=
    fun E hE => conn_endpoint_bounds st hwf hwc E (hsub E hE)
  have hne : ∀ E ∈ outputs, E.from_node ≠ st.next_id + 1 := by
    intro E hE
    have := hb E hE
    omega
  have hextra : ∀ j : Nat, j < st.next_id →
      ∀ m ∈ [eN, (⟨st.next_id + 1, (⟨0, 0⟩ : Vec2) + ⟨300, 0⟩, [execPin], [], false,
          NodeKind.functionResult⟩ : Node), cN], (m.id == j) = false := by
    intro j hj m hm
    simp only [List.mem_cons, List.not_mem_nil, or_false] at hm
    rcases hm with rfl | rfl | rfl <;>
      simp only [beq_eq_false_iff_ne, ne_eq] <;>
      first | omega | (rw [heid]; omega) | (rw [hcid]; omega)
  have hget : ∀ j : Nat, j < st.next_id → E6.get_node j = st.get_node j :=
    fun j hj => get_node_append_extra st E6 _ hEn j (hextra j hj)
  have hsp : ∀ E ∈ outputs, source_pin_of E6 E = source_pin_of st E := by
    intro E hE
    unfold source_pin_of
    rw [hget E.from_node (hb E hE).1]
  have hspos : ∀ E ∈ outputs, source_pos_of E6 E = source_pos_of st E := by
    intro E hE
    unfold source_pos_of
    rw [hget E.from_node (hb E hE).1]
  obtain ⟨hc, hf, hn, hg, hi⟩ := wire_outbound_spec (st.next_id + 1) fname outputs
    ⟨E6, false, false, false⟩ hne
  have hret : out_ret (source_pin_of E6) outputs false
      = out_ret (source_pin_of st) outputs false := out_ret_congr _ _ outputs false hsp
  have he1 : (eN.id == st.next_id + 1) = false := by
    simp only [beq_eq_false_iff_ne, ne_eq]
    omega
  have hc1 : (cN.id == st.next_id + 1) = false := by
    simp only [beq_eq_false_iff_ne, ne_eq]
    omega
  apply orch_ext
  · rw [hn]
    show (E6.nodes.map _) = _
    rw [hEn, List.map_append,
      map_if_not st.nodes _ _ (by
        intro n hn2
        have := hwf.2 n hn2
        simp only [beq_eq_false_iff_ne, ne_eq]
        omega)]
    have hfsp : ∀ p0, first_source_pos (source_pos_of E6) outputs false p0
        = first_source_pos (source_pos_of st) outputs false p0 :=
      fun p0 => first_source_pos_congr _ _ outputs false p0 hspos
    simp only [List.map_cons, List.map_nil, he1, hc1, Bool.false_eq_true, if_false,
      beq_self_eq_true, if_true, hret, hfsp, List.append_cancel_left_eq, List.cons.injEq,
      and_true, true_and]
  · rw [hc]
    show E6.connections ++ _ = _
    rw [hEc, out_wires_congr _ _ (st.next_id + 1) outputs false false hsp]
  · rw [hg]
    show E6.graphs = G
    exact hEg
  · rw [hf]
    show (E6.functions.map _) = _
    rw [hEf, List.map_append, map_if_not st.functions _ _ hfn,
      List.map_cons, List.map_nil]
    congr 1
    simp only [beq_self_eq_true, if_true, hret]
    rcases hr : out_ret (source_pin_of st) outputs false <;> simp [hr]
  · rw [hi]
    show E6.next_id = st.next_id + 3
    exact hEi

end OModel

namespace OModel

theorem stageH (st : Orchestration) (hwf : st.wf_ids)
    (eN rN cN : Node) (heid : eN.id = st.next_id) (hrid : rN.id = st.next_id + 1)
    (hcid : cN.id = st.next_id + 2)
    (F : Orchestration) (mid : List Connection)
    (hFn : F.nodes = st.nodes ++ [eN, rN, cN])
    (hFc : F.connections = mid) :
    fixup_degenerate F st.next_id (st.next_id + 1)
    = { F with
        connections := mid ++
          (if (0 < rN.inputs.length
                && !(mid.any (fun c => c.to_node == st.next_id + 1 && c.to_port == 0)))
              && (0 < eN.outputs.length
                && !(mid.any (fun c => c.from_node == st.next_id && c.from_port == 0))) then
            [(⟨st.next_id, 0, st.next_id + 1, 0⟩ : Connection)]
          else []),
        nodes := st.nodes ++
          [(if ((0 < rN.inputs.length
                && !(mid.any (fun c => c.to_node == st.next_id + 1 && c.to_port == 0)))
              && (0 < eN.outputs.length
                && !(mid.any (fun c => c.from_node == st.next_id && c.from_port == 0))))
              && (eN.outputs.length == 1) then
            { eN with position := rN.position - ⟨250, 0⟩ }
          else eN), rN, cN] } := by
  have hpre : ∀ j : Nat, st.next_id ≤ j → st.nodes.find? (fun n => n.id == j) = none :=
    fun j hj => get_node_none_of_ge st hwf.2 j hj
  have hfr : F.get_node (st.next_id + 1) = some rN := by
    show F.nodes.find? (fun n => n.id == st.next_id + 1) = some rN
    rw [hFn, List.find?_append, hpre (st.next_id + 1) (by omega)]
    show ([eN, rN, cN].find? (fun n => n.id == st.next_id + 1)) = some rN
    rw [List.find?_cons_of_neg _ (by simp only [heid]; simp),
      List.find?_cons_of_pos _ (by simp only [hrid]; simp)]
  have hfe : F.get_node st.next_id = some eN := by
    show F.nodes.find? (fun n => n.id == st.next_id) = some eN
    rw [hFn, List.find?_append, hpre st.next_id (by omega)]
    show ([eN, rN, cN].find? (fun n => n.id == st.next_id)) = some eN
    rw [List.find?_cons_of_pos _ (by simp only [heid]; simp)]
  simp only [fixup_degenerate, get_node_link, hfr, hfe, Option.getD_some,
    Orchestration.input_pin_connected, Orchestration.output_pin_connected, hFc]
  split
  next hA =>
    split
    next hB =>
      simp only [hA, hB, Bool.true_and]
      split
      next hC =>
        apply orch_ext
        · show (F.link _).nodes.map _ = _
          show F.nodes.map _ = _
          rw [hFn, List.map_append,
            map_if_not st.nodes _ _ (by
              intro n hn2
              have := hwf.2 n hn2
              simp only [beq_eq_false_iff_ne, ne_eq]
              omega)]
          simp only [List.map_cons, List.map_nil, heid, beq_self_eq_true, if_true, hC,
            Bool.and_true]
          rw [if_neg (by simp only [hrid]; simp), if_neg (by simp only [hcid]; simp)]
        · show F.connections ++ _ = _
          rw [hFc]
          simp
        · rfl
        · rfl
        · rfl
      next hC =>
        apply orch_ext
        · show F.nodes = _
          rw [hFn]
        · show F.connections ++ _ = _
          rw [hFc]
          simp
        · rfl
        · rfl
        · rfl
    next hB =>
      have hB' : (0 < eN.outputs.length
          && !(mid.any (fun c => c.from_node == st.next_id && c.from_port == 0))) = false := by
        rcases hx : (0 < eN.outputs.length
            && !(mid.any (fun c => c.from_node == st.next_id && c.from_port == 0)))
        · rfl
        · exact absurd hx hB
      apply orch_ext
      · rw [hFn]
        simp [hB']
      · rw [hFc]
        simp [hB']
      · rfl
      · rfl
      · rfl
  next hA =>
    have hA' : (0 < rN.inputs.length
        && !(mid.any (fun c => c.to_node == st.next_id + 1 && c.to_port == 0))) = false := by
      rcases hx : (0 < rN.inputs.length
          && !(mid.any (fun c => c.to_node == st.next_id + 1 && c.to_port == 0)))
      · rfl
      · exact absurd hx hA
    apply orch_ext
    · rw [hFn]
      simp [hA']
    · rw [hFc]
      simp [hA']
    · rfl
    · rfl
    · rfl

end OModel

namespace OModel

theorem stageI (st : Orchestration) (outputs : List Connection)
    (hwf : st.wf_ids) (hwc : st.wf_conns)
    (hsub : ∀ E ∈ outputs, E ∈ st.connections)
    (eN rN cN : Node) (heid : eN.id = st.next_id) (hrid : rN.id = st.next_id + 1)
    (hcid : cN.id = st.next_id + 2)
    (G7 : Orchestration) (cs : List Connection)
    (hGn : G7.nodes = st.nodes ++ [eN, rN, cN])
    (hGc : G7.connections = cs) :
    (wire_call_outputs (st.next_id + 2) outputs ⟨G7, 1, false⟩).st
    = { G7 with connections := cs
          ++ callout_wires (target_pin_of st) (st.next_id + 2) outputs 1 false } := by
  have hb : ∀ E ∈ outputs, E.from_node < st.next_id ∧ E.to_node < st.next_id :=
    fun E hE => conn_endpoint_bounds st hwf hwc E (hsub E hE)
  have hextra : ∀ j : Nat, j < st.next_id →
      ∀ m ∈ [eN, rN, cN], (m.id == j) = false := by
    intro j hj m hm
    simp only [List.mem_cons, List.not_mem_nil, or_false] at hm
    rcases hm with rfl | rfl | rfl <;>
      simp only [beq_eq_false_iff_ne, ne_eq] <;>
      first | omega | (rw [heid]; omega) | (rw [hrid]; omega) | (rw [hcid]; omega)
  have hget : ∀ j : Nat, j < st.next_id → G7.get_node j = st.get_node j :=
    fun j hj => get_node_append_extra st G7 _ hGn j (hextra j hj)
  have htp : ∀ E ∈ outputs, target_pin_of G7 E = target_pin_of st E := by
    intro E hE
    unfold target_pin_of
    rw [hget E.to_node (hb E hE).2]
  obtain ⟨hc, hn, hf, hg, hi⟩ := wire_call_outputs_spec (st.next_id + 2) outputs ⟨G7, 1, false⟩
  apply orch_ext
  · rw [hn]
  · rw [hc]
    show G7.connections ++ _ = _
    rw [hGc, callout_wires_congr _ _ (st.next_id + 2) outputs 1 false htp]
  · rw [hg]
  · rw [hf]
  · rw [hi]

end OModel

namespace OModel

set_option maxHeartbeats 1000000

theorem collapse_pipeline_spec (st : Orchestration) (src_graph : String) (selected : List Node)
    (hwf : st.wf_ids) (hwc : st.wf_conns)
    (hfn : ∀ f ∈ st.functions, (f.fn_name == collapse_fname st) = false)
    (hcol : st.graphs.any (fun g => g.graph_name == collapse_fname st) = false)
    (hsrcne : src_graph ≠ collapse_fname st) :
    collapse_pipeline st src_graph selected
      { nodes := st.nodes
          ++ [⟨st.next_id, ⟨0, 0⟩, [], [execPin], false, NodeKind.functionEntry⟩,
              ⟨st.next_id + 1, (⟨0, 0⟩ : Vec2) + ⟨300, 0⟩, [execPin], [], false,
                NodeKind.functionResult⟩],
        connections := st.connections,
        graphs := st.graphs ++ [⟨collapse_fname st, [st.next_id, st.next_id + 1]⟩],
        functions := st.functions
          ++ [⟨collapse_fname st, [], false, 0, st.next_id, some (st.next_id + 1)⟩],
        next_id := st.next_id + 2 }
      ⟨collapse_fname st, [], false, 0, st.next_id, some (st.next_id + 1)⟩
    = collapse_spec_state st src_graph selected := by
  simp only [collapse_pipeline]
  have hsubIn : ∀ E ∈ (resolve_node_set_connections st selected).inputs,
      E ∈ st.connections := by
    intro E hE
    exact List.mem_of_mem_filter hE
  have hsubOut : ∀ E ∈ (resolve_node_set_connections st selected).outputs,
      E ∈ st.connections := by
    intro E hE
    exact List.mem_of_mem_filter hE
  have hB : _ = ({ nodes := st.nodes ++ [⟨st.next_id, ⟨0, 0⟩, [], [execPin], false, NodeKind.functionEntry⟩, ⟨st.next_id + 1, (⟨0, 0⟩ : Vec2) + ⟨300, 0⟩, [execPin], [], false, NodeKind.functionResult⟩], connections := (List.filter (fun d => !(decide (d ∈ (resolve_node_set_connections st selected).inputs)) && !(decide (d ∈ (resolve_node_set_connections st selected).outputs))) st.connections), graphs := st.graphs ++ [⟨collapse_fname st, [st.next_id, st.next_id + 1]⟩], functions := st.functions ++ [⟨collapse_fname st, [], false, 0, st.next_id, some (st.next_id + 1)⟩], next_id := st.next_id + 2 } : Orchestration) :=
    stageB st selected ({ nodes := st.nodes ++ [⟨st.next_id, ⟨0, 0⟩, [], [execPin], false, NodeKind.functionEntry⟩, ⟨st.next_id + 1, (⟨0, 0⟩ : Vec2) + ⟨300, 0⟩, [execPin], [], false, NodeKind.functionResult⟩], connections := st.connections, graphs := st.graphs ++ [⟨collapse_fname st, [st.next_id, st.next_id + 1]⟩], functions := st.functions ++ [⟨collapse_fname st, [], false, 0, st.next_id, some (st.next_id + 1)⟩], next_id := st.next_id + 2 } : Orchestration) rfl
  rw [hB]
  have hC : _ = ({ nodes := st.nodes ++ [⟨st.next_id, ⟨0, 0⟩, [], [execPin], false, NodeKind.functionEntry⟩, ⟨st.next_id + 1, (⟨0, 0⟩ : Vec2) + ⟨300, 0⟩, [execPin], [], false, NodeKind.functionResult⟩], connections := (List.filter (fun d => !(decide (d ∈ (resolve_node_set_connections st selected).inputs)) && !(decide (d ∈ (resolve_node_set_connections st selected).outputs))) st.connections), graphs := (st.graphs.map (fun g => if g.graph_name == src_graph then { g with node_ids := (List.filter (fun i => !((selected.map (fun n => n.id)).contains i)) g.node_ids) } else g)) ++ [⟨collapse_fname st, [st.next_id, st.next_id + 1] ++ selected.map (fun n => n.id)⟩], functions := st.functions ++ [⟨collapse_fname st, [], false, 0, st.next_id, some (st.next_id + 1)⟩], next_id := st.next_id + 2 } : Orchestration) :=
    stageC st selected src_graph ({ nodes := st.nodes ++ [⟨st.next_id, ⟨0, 0⟩, [], [execPin], false, NodeKind.functionEntry⟩, ⟨st.next_id + 1, (⟨0, 0⟩ : Vec2) + ⟨300, 0⟩, [execPin], [], false, NodeKind.functionResult⟩], connections := (List.filter (fun d => !(decide (d ∈ (resolve_node_set_connections st selected).inputs)) && !(decide (d ∈ (resolve_node_set_connections st selected).outputs))) st.connections), graphs := st.graphs ++ [⟨collapse_fname st, [st.next_id, st.next_id + 1]⟩], functions := st.functions ++ [⟨collapse_fname st, [], false, 0, st.next_id, some (st.next_id + 1)⟩], next_id := st.next_id + 2 } : Orchestration) rfl hcol hsrcne
  rw [hC]
  dsimp only
  have hD : _ = ({ nodes := (st.nodes ++ [⟨st.next_id, ⟨0, 0⟩, [], [execPin], false, NodeKind.functionEntry⟩, ⟨st.next_id + 1, (⟨0, 0⟩ : Vec2) + ⟨300, 0⟩, [execPin], [], false, NodeKind.functionResult⟩]) ++ [(⟨st.next_id + 2, (get_node_set_rect selected).get_center, [execPin], [execPin], true, NodeKind.callScriptFunction (collapse_fname st)⟩ : Node)], connections := (List.filter (fun d => !(decide (d ∈ (resolve_node_set_connections st selected).inputs)) && !(decide (d ∈ (resolve_node_set_connections st selected).outputs))) st.connections), graphs := (st.graphs.map (fun g => if g.graph_name == src_graph then { g with node_ids := (List.filter (fun i => !((selected.map (fun n => n.id)).contains i)) g.node_ids) ++ [st.next_id + 2] } else g)) ++ [⟨collapse_fname st, [st.next_id, st.next_id + 1] ++ selected.map (fun n => n.id)⟩], functions := st.functions ++ [⟨collapse_fname st, [], false, 0, st.next_id, some (st.next_id + 1)⟩], next_id := st.next_id + 3 } : Orchestration) :=
    stageD st selected src_graph ({ nodes := st.nodes ++ [⟨st.next_id, ⟨0, 0⟩, [], [execPin], false, NodeKind.functionEntry⟩, ⟨st.next_id + 1, (⟨0, 0⟩ : Vec2) + ⟨300, 0⟩, [execPin], [], false, NodeKind.functionResult⟩], connections := (List.filter (fun d => !(decide (d ∈ (resolve_node_set_connections st selected).inputs)) && !(decide (d ∈ (resolve_node_set_connections st selected).outputs))) st.connections), graphs := (st.graphs.map (fun g => if g.graph_name == src_graph then { g with node_ids := (List.filter (fun i => !((selected.map (fun n => n.id)).contains i)) g.node_ids) } else g)) ++ [⟨collapse_fname st, [st.next_id, st.next_id + 1] ++ selected.map (fun n => n.id)⟩], functions := st.functions ++ [⟨collapse_fname st, [], false, 0, st.next_id, some (st.next_id + 1)⟩], next_id := st.next_id + 2 } : Orchestration) (⟨st.next_id + 2, (get_node_set_rect selected).get_center, [execPin], [execPin], true, NodeKind.callScriptFunction (collapse_fname st)⟩ : Node) rfl hcol hsrcne
  rw [hD]
  have hE : _ = ({ nodes := st.nodes ++ [(⟨st.next_id, first_target_pos (target_pos_of st) (resolve_node_set_connections st selected).inputs false ⟨0, 0⟩, [], [execPin] ++ (in_args (target_pin_of st) (resolve_node_set_connections st selected).inputs).map (fun a => (⟨a.1, a.2, false⟩ : Pin)), false, NodeKind.functionEntry⟩ : Node), ⟨st.next_id + 1, (⟨0, 0⟩ : Vec2) + ⟨300, 0⟩, [execPin], [], false, NodeKind.functionResult⟩, (⟨st.next_id + 2, (get_node_set_rect selected).get_center, [execPin], [execPin], true, NodeKind.callScriptFunction (collapse_fname st)⟩ : Node)], connections := (List.filter (fun d => !(decide (d ∈ (resolve_node_set_connections st selected).inputs)) && !(decide (d ∈ (resolve_node_set_connections st selected).outputs))) st.connections) ++ (in_wires (source_pin_of st) (target_pin_of st) (st.next_id + 2) st.next_id (resolve_node_set_connections st selected).inputs 1 1 false false), graphs := (st.graphs.map (fun g => if g.graph_name == src_graph then { g with node_ids := (List.filter (fun i => !((selected.map (fun n => n.id)).contains i)) g.node_ids) ++ [st.next_id + 2] } else g)) ++ [⟨collapse_fname st, [st.next_id, st.next_id + 1] ++ selected.map (fun n => n.id)⟩], functions := st.functions ++ [⟨collapse_fname st, (in_args (target_pin_of st) (resolve_node_set_connections st selected).inputs), false, 0, st.next_id, some (st.next_id + 1)⟩], next_id := st.next_id + 3 } : Orchestration) :=
    stageE st (collapse_fname st) (resolve_node_set_connections st selected).inputs hwf hwc hsubIn hfn
      (⟨st.next_id + 2, (get_node_set_rect selected).get_center, [execPin], [execPin], true, NodeKind.callScriptFunction (collapse_fname st)⟩ : Node) rfl ({ nodes := (st.nodes ++ [⟨st.next_id, ⟨0, 0⟩, [], [execPin], false, NodeKind.functionEntry⟩, ⟨st.next_id + 1, (⟨0, 0⟩ : Vec2) + ⟨300, 0⟩, [execPin], [], false, NodeKind.functionResult⟩]) ++ [(⟨st.next_id + 2, (get_node_set_rect selected).get_center, [execPin], [execPin], true, NodeKind.callScriptFunction (collapse_fname st)⟩ : Node)], connections := (List.filter (fun d => !(decide (d ∈ (resolve_node_set_connections st selected).inputs)) && !(decide (d ∈ (resolve_node_set_connections st selected).outputs))) st.connections), graphs := (st.graphs.map (fun g => if g.graph_name == src_graph then { g with node_ids := (List.filter (fun i => !((selected.map (fun n => n.id)).contains i)) g.node_ids) ++ [st.next_id + 2] } else g)) ++ [⟨collapse_fname st, [st.next_id, st.next_id + 1] ++ selected.map (fun n => n.id)⟩], functions := st.functions ++ [⟨collapse_fname st, [], false, 0, st.next_id, some (st.next_id + 1)⟩], next_id := st.next_id + 3 } : Orchestration)
      (List.filter (fun d => !(decide (d ∈ (resolve_node_set_connections st selected).inputs)) && !(decide (d ∈ (resolve_node_set_connections st selected).outputs))) st.connections) ((st.graphs.map (fun g => if g.graph_name == src_graph then { g with node_ids := (List.filter (fun i => !((selected.map (fun n => n.id)).contains i)) g.node_ids) ++ [st.next_id + 2] } else g)) ++ [⟨collapse_fname st, [st.next_id, st.next_id + 1] ++ selected.map (fun n => n.id)⟩]) (by simp) rfl rfl rfl rfl
  rw [hE]
  have hF : _ = ({ nodes := st.nodes ++ [(⟨st.next_id, first_target_pos (target_pos_of st) (resolve_node_set_connections st selected).inputs false ⟨0, 0⟩, [], [execPin] ++ (in_args (target_pin_of st) (resolve_node_set_connections st selected).inputs).map (fun a => (⟨a.1, a.2, false⟩ : Pin)), false, NodeKind.functionEntry⟩ : Node), (⟨st.next_id + 1, first_source_pos (source_pos_of st) (resolve_node_set_connections st selected).outputs false ((⟨0, 0⟩ : Vec2) + ⟨300, 0⟩), [execPin] ++ (match (out_ret (source_pin_of st) (resolve_node_set_connections st selected).outputs false) with | some T => [(⟨"return value", T, false⟩ : Pin)] | none => []), [], false, NodeKind.functionResult⟩ : Node), (⟨st.next_id + 2, (get_node_set_rect selected).get_center, [execPin], [execPin], true, NodeKind.callScriptFunction (collapse_fname st)⟩ : Node)], connections := ((List.filter (fun d => !(decide (d ∈ (resolve_node_set_connections st selected).inputs)) && !(decide (d ∈ (resolve_node_set_connections st selected).outputs))) st.connections) ++ (in_wires (source_pin_of st) (target_pin_of st) (st.next_id + 2) st.next_id (resolve_node_set_connections st selected).inputs 1 1 false false) ++ (out_wires (source_pin_of st) (st.next_id + 1) (resolve_node_set_connections st selected).outputs false false)), graphs := (st.graphs.map (fun g => if g.graph_name == src_graph then { g with node_ids := (List.filter (fun i => !((selected.map (fun n => n.id)).contains i)) g.node_ids) ++ [st.next_id + 2] } else g)) ++ [⟨collapse_fname st, [st.next_id, st.next_id + 1] ++ selected.map (fun n => n.id)⟩], functions := st.functions ++ [⟨collapse_fname st, (in_args (target_pin_of st) (resolve_node_set_connections st selected).inputs), (out_ret (source_pin_of st) (resolve_node_set_connections st selected).outputs false).isSome, (out_ret (source_pin_of st) (resolve_node_set_connections st selected).outputs false).getD 0, st.next_id, some (st.next_id + 1)⟩], next_id := st.next_id + 3 } : Orchestration) :=
    stageF st (collapse_fname st) (resolve_node_set_connections st selected).outputs hwf hwc hsubOut hfn
      (⟨st.next_id, first_target_pos (target_pos_of st) (resolve_node_set_connections st selected).inputs false ⟨0, 0⟩, [], [execPin] ++ (in_args (target_pin_of st) (resolve_node_set_connections st selected).inputs).map (fun a => (⟨a.1, a.2, false⟩ : Pin)), false, NodeKind.functionEntry⟩ : Node) (⟨st.next_id + 2, (get_node_set_rect selected).get_center, [execPin], [execPin], true, NodeKind.callScriptFunction (collapse_fname st)⟩ : Node) rfl rfl (in_args (target_pin_of st) (resolve_node_set_connections st selected).inputs) ({ nodes := st.nodes ++ [(⟨st.next_id, first_target_pos (target_pos_of st) (resolve_node_set_connections st selected).inputs false ⟨0, 0⟩, [], [execPin] ++ (in_args (target_pin_of st) (resolve_node_set_connections st selected).inputs).map (fun a => (⟨a.1, a.2, false⟩ : Pin)), false, NodeKind.functionEntry⟩ : Node), ⟨st.next_id + 1, (⟨0, 0⟩ : Vec2) + ⟨300, 0⟩, [execPin], [], false, NodeKind.functionResult⟩, (⟨st.next_id + 2, (get_node_set_rect selected).get_center, [execPin], [execPin], true, NodeKind.callScriptFunction (collapse_fname st)⟩ : Node)], connections := (List.filter (fun d => !(decide (d ∈ (resolve_node_set_connections st selected).inputs)) && !(decide (d ∈ (resolve_node_set_connections st selected).outputs))) st.connections) ++ (in_wires (source_pin_of st) (target_pin_of st) (st.next_id + 2) st.next_id (resolve_node_set_connections st selected).inputs 1 1 false false), graphs := (st.graphs.map (fun g => if g.graph_name == src_graph then { g with node_ids := (List.filter (fun i => !((selected.map (fun n => n.id)).contains i)) g.node_ids) ++ [st.next_id + 2] } else g)) ++ [⟨collapse_fname st, [st.next_id, st.next_id + 1] ++ selected.map (fun n => n.id)⟩], functions := st.functions ++ [⟨collapse_fname st, (in_args (target_pin_of st) (resolve_node_set_connections st selected).inputs), false, 0, st.next_id, some (st.next_id + 1)⟩], next_id := st.next_id + 3 } : Orchestration)
      ((List.filter (fun d => !(decide (d ∈ (resolve_node_set_connections st selected).inputs)) && !(decide (d ∈ (resolve_node_set_connections st selected).outputs))) st.connections) ++ (in_wires (source_pin_of st) (target_pin_of st) (st.next_id + 2) st.next_id (resolve_node_set_connections st selected).inputs 1 1 false false)) ((st.graphs.map (fun g => if g.graph_name == src_graph then { g with node_ids := (List.filter (fun i => !((selected.map (fun n => n.id)).contains i)) g.node_ids) ++ [st.next_id + 2] } else g)) ++ [⟨collapse_fname st, [st.next_id, st.next_id + 1] ++ selected.map (fun n => n.id)⟩]) rfl rfl rfl rfl rfl
  rw [hF]
  have hH : _ = ({ nodes := st.nodes ++ [(if ((0 < (⟨st.next_id + 1, first_source_pos (source_pos_of st) (resolve_node_set_connections st selected).outputs false ((⟨0, 0⟩ : Vec2) + ⟨300, 0⟩), [execPin] ++ (match (out_ret (source_pin_of st) (resolve_node_set_connections st selected).outputs false) with | some T => [(⟨"return value", T, false⟩ : Pin)] | none => []), [], false, NodeKind.functionResult⟩ : Node).inputs.length && !(((List.filter (fun d => !(decide (d ∈ (resolve_node_set_connections st selected).inputs)) && !(decide (d ∈ (resolve_node_set_connections st selected).outputs))) st.connections) ++ (in_wires (source_pin_of st) (target_pin_of st) (st.next_id + 2) st.next_id (resolve_node_set_connections st selected).inputs 1 1 false false) ++ (out_wires (source_pin_of st) (st.next_id + 1) (resolve_node_set_connections st selected).outputs false false)).any (fun c => c.to_node == st.next_id + 1 && c.to_port == 0))) && (0 < (⟨st.next_id, first_target_pos (target_pos_of st) (resolve_node_set_connections st selected).inputs false ⟨0, 0⟩, [], [execPin] ++ (in_args (target_pin_of st) (resolve_node_set_connections st selected).inputs).map (fun a => (⟨a.1, a.2, false⟩ : Pin)), false, NodeKind.functionEntry⟩ : Node).outputs.length && !(((List.filter (fun d => !(decide (d ∈ (resolve_node_set_connections st selected).inputs)) && !(decide (d ∈ (resolve_node_set_connections st selected).outputs))) st.connections) ++ (in_wires (source_pin_of st) (target_pin_of st) (st.next_id + 2) st.next_id (resolve_node_set_connections st selected).inputs 1 1 false false) ++ (out_wires (source_pin_of st) (st.next_id + 1) (resolve_node_set_connections st selected).outputs false false)).any (fun c => c.from_node == st.next_id && c.from_port == 0)))) && ((⟨st.next_id, first_target_pos (target_pos_of st) (resolve_node_set_connections st selected).inputs false ⟨0, 0⟩, [], [execPin] ++ (in_args (target_pin_of st) (resolve_node_set_connections st selected).inputs).map (fun a => (⟨a.1, a.2, false⟩ : Pin)), false, NodeKind.functionEntry⟩ : Node).outputs.length == 1) then { (⟨st.next_id, first_target_pos (target_pos_of st) (resolve_node_set_connections st selected).inputs false ⟨0, 0⟩, [], [execPin] ++ (in_args (target_pin_of st) (resolve_node_set_connections st selected).inputs).map (fun a => (⟨a.1, a.2, false⟩ : Pin)), false, NodeKind.functionEntry⟩ : Node) with position := (⟨st.next_id + 1, first_source_pos (source_pos_of st) (resolve_node_set_connections st selected).outputs false ((⟨0, 0⟩ : Vec2) + ⟨300, 0⟩), [execPin] ++ (match (out_ret (source_pin_of st) (resolve_node_set_connections st selected).outputs false) with | some T => [(⟨"return value", T, false⟩ : Pin)] | none => []), [], false, NodeKind.functionResult⟩ : Node).position - ⟨250, 0⟩ } else (⟨st.next_id, first_target_pos (target_pos_of st) (resolve_node_set_connections st selected).inputs false ⟨0, 0⟩, [], [execPin] ++ (in_args (target_pin_of st) (resolve_node_set_connections st selected).inputs).map (fun a => (⟨a.1, a.2, false⟩ : Pin)), false, NodeKind.functionEntry⟩ : Node)), (⟨st.next_id + 1, first_source_pos (source_pos_of st) (resolve_node_set_connections st selected).outputs false ((⟨0, 0⟩ : Vec2) + ⟨300, 0⟩), [execPin] ++ (match (out_ret (source_pin_of st) (resolve_node_set_connections st selected).outputs false) with | some T => [(⟨"return value", T, false⟩ : Pin)] | none => []), [], false, NodeKind.functionResult⟩ : Node), (⟨st.next_id + 2, (get_node_set_rect selected).get_center, [execPin], [execPin], true, NodeKind.callScriptFunction (collapse_fname st)⟩ : Node)], connections := ((List.filter (fun d => !(decide (d ∈ (resolve_node_set_connections st selected).inputs)) && !(decide (d ∈ (resolve_node_set_connections st selected).outputs))) st.connections) ++ (in_wires (source_pin_of st) (target_pin_of st) (st.next_id + 2) st.next_id (resolve_node_set_connections st selected).inputs 1 1 false false) ++ (out_wires (source_pin_of st) (st.next_id + 1) (resolve_node_set_connections st selected).outputs false false)) ++ (if ((0 < (⟨st.next_id + 1, first_source_pos (source_pos_of st) (resolve_node_set_connections st selected).outputs false ((⟨0, 0⟩ : Vec2) + ⟨300, 0⟩), [execPin] ++ (match (out_ret (source_pin_of st) (resolve_node_set_connections st selected).outputs false) with | some T => [(⟨"return value", T, false⟩ : Pin)] | none => []), [], false, NodeKind.functionResult⟩ : Node).inputs.length && !(((List.filter (fun d => !(decide (d ∈ (resolve_node_set_connections st selected).inputs)) && !(decide (d ∈ (resolve_node_set_connections st selected).outputs))) st.connections) ++ (in_wires (source_pin_of st) (target_pin_of st) (st.next_id + 2) st.next_id (resolve_node_set_connections st selected).inputs 1 1 false false) ++ (out_wires (source_pin_of st) (st.next_id + 1) (resolve_node_set_connections st selected).outputs false false)).any (fun c => c.to_node == st.next_id + 1 && c.to_port == 0))) && (0 < (⟨st.next_id, first_target_pos (target_pos_of st) (resolve_node_set_connections st selected).inputs false ⟨0, 0⟩, [], [execPin] ++ (in_args (target_pin_of st) (resolve_node_set_connections st selected).inputs).map (fun a => (⟨a.1, a.2, false⟩ : Pin)), false, NodeKind.functionEntry⟩ : Node).outputs.length && !(((List.filter (fun d => !(decide (d ∈ (resolve_node_set_connections st selected).inputs)) && !(decide (d ∈ (resolve_node_set_connections st selected).outputs))) st.connections) ++ (in_wires (source_pin_of st) (target_pin_of st) (st.next_id + 2) st.next_id (resolve_node_set_connections st selected).inputs 1 1 false false) ++ (out_wires (source_pin_of st) (st.next_id + 1) (resolve_node_set_connections st selected).outputs false false)).any (fun c => c.from_node == st.next_id && c.from_port == 0)))) then [(⟨st.next_id, 0, st.next_id + 1, 0⟩ : Connection)] else []), graphs := (st.graphs.map (fun g => if g.graph_name == src_graph then { g with node_ids := (List.filter (fun i => !((selected.map (fun n => n.id)).contains i)) g.node_ids) ++ [st.next_id + 2] } else g)) ++ [⟨collapse_fname st, [st.next_id, st.next_id + 1] ++ selected.map (fun n => n.id)⟩], functions := st.functions ++ [⟨collapse_fname st, (in_args (target_pin_of st) (resolve_node_set_connections st selected).inputs), (out_ret (source_pin_of st) (resolve_node_set_connections st selected).outputs false).isSome, (out_ret (source_pin_of st) (resolve_node_set_connections st selected).outputs false).getD 0, st.next_id, some (st.next_id + 1)⟩], next_id := st.next_id + 3 } : Orchestration) :=
    stageH st hwf (⟨st.next_id, first_target_pos (target_pos_of st) (resolve_node_set_connections st selected).inputs false ⟨0, 0⟩, [], [execPin] ++ (in_args (target_pin_of st) (resolve_node_set_connections st selected).inputs).map (fun a => (⟨a.1, a.2, false⟩ : Pin)), false, NodeKind.functionEntry⟩ : Node) (⟨st.next_id + 1, first_source_pos (source_pos_of st) (resolve_node_set_connections st selected).outputs false ((⟨0, 0⟩ : Vec2) + ⟨300, 0⟩), [execPin] ++ (match (out_ret (source_pin_of st) (resolve_node_set_connections st selected).outputs false) with | some T => [(⟨"return value", T, false⟩ : Pin)] | none => []), [], false, NodeKind.functionResult⟩ : Node) (⟨st.next_id + 2, (get_node_set_rect selected).get_center, [execPin], [execPin], true, NodeKind.callScriptFunction (collapse_fname st)⟩ : Node) rfl rfl rfl
      ({ nodes := st.nodes ++ [(⟨st.next_id, first_target_pos (target_pos_of st) (resolve_node_set_connections st selected).inputs false ⟨0, 0⟩, [], [execPin] ++ (in_args (target_pin_of st) (resolve_node_set_connections st selected).inputs).map (fun a => (⟨a.1, a.2, false⟩ : Pin)), false, NodeKind.functionEntry⟩ : Node), (⟨st.next_id + 1, first_source_pos (source_pos_of st) (resolve_node_set_connections st selected).outputs false ((⟨0, 0⟩ : Vec2) + ⟨300, 0⟩), [execPin] ++ (match (out_ret (source_pin_of st) (resolve_node_set_connections st selected).outputs false) with | some T => [(⟨"return value", T, false⟩ : Pin)] | none => []), [], false, NodeKind.functionResult⟩ : Node), (⟨st.next_id + 2, (get_node_set_rect selected).get_center, [execPin], [execPin], true, NodeKind.callScriptFunction (collapse_fname st)⟩ : Node)], connections := ((List.filter (fun d => !(decide (d ∈ (resolve_node_set_connections st selected).inputs)) && !(decide (d ∈ (resolve_node_set_connections st selected).outputs))) st.connections) ++ (in_wires (source_pin_of st) (target_pin_of st) (st.next_id + 2) st.next_id (resolve_node_set_connections st selected).inputs 1 1 false false) ++ (out_wires (source_pin_of st) (st.next_id + 1) (resolve_node_set_connections st selected).outputs false false)), graphs := (st.graphs.map (fun g => if g.graph_name == src_graph then { g with node_ids := (List.filter (fun i => !((selected.map (fun n => n.id)).contains i)) g.node_ids) ++ [st.next_id + 2] } else g)) ++ [⟨collapse_fname st, [st.next_id, st.next_id + 1] ++ selected.map (fun n => n.id)⟩], functions := st.functions ++ [⟨collapse_fname st, (in_args (target_pin_of st) (resolve_node_set_connections st selected).inputs), (out_ret (source_pin_of st) (resolve_node_set_connections st selected).outputs false).isSome, (out_ret (source_pin_of st) (resolve_node_set_connections st selected).outputs false).getD 0, st.next_id, some (st.next_id + 1)⟩], next_id := st.next_id + 3 } : Orchestration) ((List.filter (fun d => !(decide (d ∈ (resolve_node_set_connections st selected).inputs)) && !(decide (d ∈ (resolve_node_set_connections st selected).outputs))) st.connections) ++ (in_wires (source_pin_of st) (target_pin_of st) (st.next_id + 2) st.next_id (resolve_node_set_connections st selected).inputs 1 1 false false) ++ (out_wires (source_pin_of st) (st.next_id + 1) (resolve_node_set_connections st selected).outputs false false)) rfl rfl
  rw [hH]
  have hI : _ = ({ ({ nodes := st.nodes ++ [(if ((0 < (⟨st.next_id + 1, first_source_pos (source_pos_of st) (resolve_node_set_connections st selected).outputs false ((⟨0, 0⟩ : Vec2) + ⟨300, 0⟩), [execPin] ++ (match (out_ret (source_pin_of st) (resolve_node_set_connections st selected).outputs false) with | some T => [(⟨"return value", T, false⟩ : Pin)] | none => []), [], false, NodeKind.functionResult⟩ : Node).inputs.length && !(((List.filter (fun d => !(decide (d ∈ (resolve_node_set_connections st selected).inputs)) && !(decide (d ∈ (resolve_node_set_connections st selected).outputs))) st.connections) ++ (in_wires (source_pin_of st) (target_pin_of st) (st.next_id + 2) st.next_id (resolve_node_set_connections st selected).inputs 1 1 false false) ++ (out_wires (source_pin_of st) (st.next_id + 1) (resolve_node_set_connections st selected).outputs false false)).any (fun c => c.to_node == st.next_id + 1 && c.to_port == 0))) && (0 < (⟨st.next_id, first_target_pos (target_pos_of st) (resolve_node_set_connections st selected).inputs false ⟨0, 0⟩, [], [execPin] ++ (in_args (target_pin_of st) (resolve_node_set_connections st selected).inputs).map (fun a => (⟨a.1, a.2, false⟩ : Pin)), false, NodeKind.functionEntry⟩ : Node).outputs.length && !(((List.filter (fun d => !(decide (d ∈ (resolve_node_set_connections st selected).inputs)) && !(decide (d ∈ (resolve_node_set_connections st selected).outputs))) st.connections) ++ (in_wires (source_pin_of st) (target_pin_of st) (st.next_id + 2) st.next_id (resolve_node_set_connections st selected).inputs 1 1 false false) ++ (out_wires (source_pin_of st) (st.next_id + 1) (resolve_node_set_connections st selected).outputs false false)).any (fun c => c.from_node == st.next_id && c.from_port == 0)))) && ((⟨st.next_id, first_target_pos (target_pos_of st) (resolve_node_set_connections st selected).inputs false ⟨0, 0⟩, [], [execPin] ++ (in_args (target_pin_of st) (resolve_node_set_connections st selected).inputs).map (fun a => (⟨a.1, a.2, false⟩ : Pin)), false, NodeKind.functionEntry⟩ : Node).outputs.length == 1) then { (⟨st.next_id, first_target_pos (target_pos_of st) (resolve_node_set_connections st selected).inputs false ⟨0, 0⟩, [], [execPin] ++ (in_args (target_pin_of st) (resolve_node_set_connections st selected).inputs).map (fun a => (⟨a.1, a.2, false⟩ : Pin)), false, NodeKind.functionEntry⟩ : Node) with position := (⟨st.next_id + 1, first_source_pos (source_pos_of st) (resolve_node_set_connections st selected).outputs false ((⟨0, 0⟩ : Vec2) + ⟨300, 0⟩), [execPin] ++ (match (out_ret (source_pin_of st) (resolve_node_set_connections st selected).outputs false) with | some T => [(⟨"return value", T, false⟩ : Pin)] | none => []), [], false, NodeKind.functionResult⟩ : Node).position - ⟨250, 0⟩ } else (⟨st.next_id, first_target_pos (target_pos_of st) (resolve_node_set_connections st selected).inputs false ⟨0, 0⟩, [], [execPin] ++ (in_args (target_pin_of st) (resolve_node_set_connections st selected).inputs).map (fun a => (⟨a.1, a.2, false⟩ : Pin)), false, NodeKind.functionEntry⟩ : Node)), (⟨st.next_id + 1, first_source_pos (source_pos_of st) (resolve_node_set_connections st selected).outputs false ((⟨0, 0⟩ : Vec2) + ⟨300, 0⟩), [execPin] ++ (match (out_ret (source_pin_of st) (resolve_node_set_connections st selected).outputs false) with | some T => [(⟨"return value", T, false⟩ : Pin)] | none => []), [], false, NodeKind.functionResult⟩ : Node), (⟨st.next_id + 2, (get_node_set_rect selected).get_center, [execPin], [execPin], true, NodeKind.callScriptFunction (collapse_fname st)⟩ : Node)], connections := ((List.filter (fun d => !(decide (d ∈ (resolve_node_set_connections st selected).inputs)) && !(decide (d ∈ (resolve_node_set_connections st selected).outputs))) st.connections) ++ (in_wires (source_pin_of st) (target_pin_of st) (st.next_id + 2) st.next_id (resolve_node_set_connections st selected).inputs 1 1 false false) ++ (out_wires (source_pin_of st) (st.next_id + 1) (resolve_node_set_connections st selected).outputs false false)) ++ (if ((0 < (⟨st.next_id + 1, first_source_pos (source_pos_of st) (resolve_node_set_connections st selected).outputs false ((⟨0, 0⟩ : Vec2) + ⟨300, 0⟩), [execPin] ++ (match (out_ret (source_pin_of st) (resolve_node_set_connections st selected).outputs false) with | some T => [(⟨"return value", T, false⟩ : Pin)] | none => []), [], false, NodeKind.functionResult⟩ : Node).inputs.length && !(((List.filter (fun d => !(decide (d ∈ (resolve_node_set_connections st selected).inputs)) && !(decide (d ∈ (resolve_node_set_connections st selected).outputs))) st.connections) ++ (in_wires (source_pin_of st) (target_pin_of st) (st.next_id + 2) st.next_id (resolve_node_set_connections st selected).inputs 1 1 false false) ++ (out_wires (source_pin_of st) (st.next_id + 1) (resolve_node_set_connections st selected).outputs false false)).any (fun c => c.to_node == st.next_id + 1 && c.to_port == 0))) && (0 < (⟨st.next_id, first_target_pos (target_pos_of st) (resolve_node_set_connections st selected).inputs false ⟨0, 0⟩, [], [execPin] ++ (in_args (target_pin_of st) (resolve_node_set_connections st selected).inputs).map (fun a => (⟨a.1, a.2, false⟩ : Pin)), false, NodeKind.functionEntry⟩ : Node).outputs.length && !(((List.filter (fun d => !(decide (d ∈ (resolve_node_set_connections st selected).inputs)) && !(decide (d ∈ (resolve_node_set_connections st selected).outputs))) st.connections) ++ (in_wires (source_pin_of st) (target_pin_of st) (st.next_id + 2) st.next_id (resolve_node_set_connections st selected).inputs 1 1 false false) ++ (out_wires (source_pin_of st) (st.next_id + 1) (resolve_node_set_connections st selected).outputs false false)).any (fun c => c.from_node == st.next_id && c.from_port == 0)))) then [(⟨st.next_id, 0, st.next_id + 1, 0⟩ : Connection)] else []), graphs := (st.graphs.map (fun g => if g.graph_name == src_graph then { g with node_ids := (List.filter (fun i => !((selected.map (fun n => n.id)).contains i)) g.node_ids) ++ [st.next_id + 2] } else g)) ++ [⟨collapse_fname st, [st.next_id, st.next_id + 1] ++ selected.map (fun n => n.id)⟩], functions := st.functions ++ [⟨collapse_fname st, (in_args (target_pin_of st) (resolve_node_set_connections st selected).inputs), (out_ret (source_pin_of st) (resolve_node_set_connections st selected).outputs false).isSome, (out_ret (source_pin_of st) (resolve_node_set_connections st selected).outputs false).getD 0, st.next_id, some (st.next_id + 1)⟩], next_id := st.next_id + 3 } : Orchestration) with connections := (((List.filter (fun d => !(decide (d ∈ (resolve_node_set_connections st selected).inputs)) && !(decide (d ∈ (resolve_node_set_connections st selected).outputs))) st.connections) ++ (in_wires (source_pin_of st) (target_pin_of st) (st.next_id + 2) st.next_id (resolve_node_set_connections st selected).inputs 1 1 false false) ++ (out_wires (source_pin_of st) (st.next_id + 1) (resolve_node_set_connections st selected).outputs false false)) ++ (if ((0 < (⟨st.next_id + 1, first_source_pos (source_pos_of st) (resolve_node_set_connections st selected).outputs false ((⟨0, 0⟩ : Vec2) + ⟨300, 0⟩), [execPin] ++ (match (out_ret (source_pin_of st) (resolve_node_set_connections st selected).outputs false) with | some T => [(⟨"return value", T, false⟩ : Pin)] | none => []), [], false, NodeKind.functionResult⟩ : Node).inputs.length && !(((List.filter (fun d => !(decide (d ∈ (resolve_node_set_connections st selected).inputs)) && !(decide (d ∈ (resolve_node_set_connections st selected).outputs))) st.connections) ++ (in_wires (source_pin_of st) (target_pin_of st) (st.next_id + 2) st.next_id (resolve_node_set_connections st selected).inputs 1 1 false false) ++ (out_wires (source_pin_of st) (st.next_id + 1) (resolve_node_set_connections st selected).outputs false false)).any (fun c => c.to_node == st.next_id + 1 && c.to_port == 0))) && (0 < (⟨st.next_id, first_target_pos (target_pos_of st) (resolve_node_set_connections st selected).inputs false ⟨0, 0⟩, [], [execPin] ++ (in_args (target_pin_of st) (resolve_node_set_connections st selected).inputs).map (fun a => (⟨a.1, a.2, false⟩ : Pin)), false, NodeKind.functionEntry⟩ : Node).outputs.length && !(((List.filter (fun d => !(decide (d ∈ (resolve_node_set_connections st selected).inputs)) && !(decide (d ∈ (resolve_node_set_connections st selected).outputs))) st.connections) ++ (in_wires (source_pin_of st) (target_pin_of st) (st.next_id + 2) st.next_id (resolve_node_set_connections st selected).inputs 1 1 false false) ++ (out_wires (source_pin_of st) (st.next_id + 1) (resolve_node_set_connections st selected).outputs false false)).any (fun c => c.from_node == st.next_id && c.from_port == 0)))) then [(⟨st.next_id, 0, st.next_id + 1, 0⟩ : Connection)] else [])) ++ callout_wires (target_pin_of st) (st.next_id + 2) (resolve_node_set_connections st selected).outputs 1 false } : Orchestration) :=
    stageI st (resolve_node_set_connections st selected).outputs hwf hwc hsubOut
      (if ((0 < (⟨st.next_id + 1, first_source_pos (source_pos_of st) (resolve_node_set_connections st selected).outputs false ((⟨0, 0⟩ : Vec2) + ⟨300, 0⟩), [execPin] ++ (match (out_ret (source_pin_of st) (resolve_node_set_connections st selected).outputs false) with | some T => [(⟨"return value", T, false⟩ : Pin)] | none => []), [], false, NodeKind.functionResult⟩ : Node).inputs.length && !(((List.filter (fun d => !(decide (d ∈ (resolve_node_set_connections st selected).inputs)) && !(decide (d ∈ (resolve_node_set_connections st selected).outputs))) st.connections) ++ (in_wires (source_pin_of st) (target_pin_of st) (st.next_id + 2) st.next_id (resolve_node_set_connections st selected).inputs 1 1 false false) ++ (out_wires (source_pin_of st) (st.next_id + 1) (resolve_node_set_connections st selected).outputs false false)).any (fun c => c.to_node == st.next_id + 1 && c.to_port == 0))) && (0 < (⟨st.next_id, first_target_pos (target_pos_of st) (resolve_node_set_connections st selected).inputs false ⟨0, 0⟩, [], [execPin] ++ (in_args (target_pin_of st) (resolve_node_set_connections st selected).inputs).map (fun a => (⟨a.1, a.2, false⟩ : Pin)), false, NodeKind.functionEntry⟩ : Node).outputs.length && !(((List.filter (fun d => !(decide (d ∈ (resolve_node_set_connections st selected).inputs)) && !(decide (d ∈ (resolve_node_set_connections st selected).outputs))) st.connections) ++ (in_wires (source_pin_of st) (target_pin_of st) (st.next_id + 2) st.next_id (resolve_node_set_connections st selected).inputs 1 1 false false) ++ (out_wires (source_pin_of st) (st.next_id + 1) (resolve_node_set_connections st selected).outputs false false)).any (fun c => c.from_node == st.next_id && c.from_port == 0)))) && ((⟨st.next_id, first_target_pos (target_pos_of st) (resolve_node_set_connections st selected).inputs false ⟨0, 0⟩, [], [execPin] ++ (in_args (target_pin_of st) (resolve_node_set_connections st selected).inputs).map (fun a => (⟨a.1, a.2, false⟩ : Pin)), false, NodeKind.functionEntry⟩ : Node).outputs.length == 1) then { (⟨st.next_id, first_target_pos (target_pos_of st) (resolve_node_set_connections st selected).inputs false ⟨0, 0⟩, [], [execPin] ++ (in_args (target_pin_of st) (resolve_node_set_connections st selected).inputs).map (fun a => (⟨a.1, a.2, false⟩ : Pin)), false, NodeKind.functionEntry⟩ : Node) with position := (⟨st.next_id + 1, first_source_pos (source_pos_of st) (resolve_node_set_connections st selected).outputs false ((⟨0, 0⟩ : Vec2) + ⟨300, 0⟩), [execPin] ++ (match (out_ret (source_pin_of st) (resolve_node_set_connections st selected).outputs false) with | some T => [(⟨"return value", T, false⟩ : Pin)] | none => []), [], false, NodeKind.functionResult⟩ : Node).position - ⟨250, 0⟩ } else (⟨st.next_id, first_target_pos (target_pos_of st) (resolve_node_set_connections st selected).inputs false ⟨0, 0⟩, [], [execPin] ++ (in_args (target_pin_of st) (resolve_node_set_connections st selected).inputs).map (fun a => (⟨a.1, a.2, false⟩ : Pin)), false, NodeKind.functionEntry⟩ : Node)) (⟨st.next_id + 1, first_source_pos (source_pos_of st) (resolve_node_set_connections st selected).outputs false ((⟨0, 0⟩ : Vec2) + ⟨300, 0⟩), [execPin] ++ (match (out_ret (source_pin_of st) (resolve_node_set_connections st selected).outputs false) with | some T => [(⟨"return value", T, false⟩ : Pin)] | none => []), [], false, NodeKind.functionResult⟩ : Node) (⟨st.next_id + 2, (get_node_set_rect selected).get_center, [execPin], [execPin], true, NodeKind.callScriptFunction (collapse_fname st)⟩ : Node) (by split <;> rfl) rfl rfl
      ({ nodes := st.nodes ++ [(if ((0 < (⟨st.next_id + 1, first_source_pos (source_pos_of st) (resolve_node_set_connections st selected).outputs false ((⟨0, 0⟩ : Vec2) + ⟨300, 0⟩), [execPin] ++ (match (out_ret (source_pin_of st) (resolve_node_set_connections st selected).outputs false) with | some T => [(⟨"return value", T, false⟩ : Pin)] | none => []), [], false, NodeKind.functionResult⟩ : Node).inputs.length && !(((List.filter (fun d => !(decide (d ∈ (resolve_node_set_connections st selected).inputs)) && !(decide (d ∈ (resolve_node_set_connections st selected).outputs))) st.connections) ++ (in_wires (source_pin_of st) (target_pin_of st) (st.next_id + 2) st.next_id (resolve_node_set_connections st selected).inputs 1 1 false false) ++ (out_wires (source_pin_of st) (st.next_id + 1) (resolve_node_set_connections st selected).outputs false false)).any (fun c => c.to_node == st.next_id + 1 && c.to_port == 0))) && (0 < (⟨st.next_id, first_target_pos (target_pos_of st) (resolve_node_set_connections st selected).inputs false ⟨0, 0⟩, [], [execPin] ++ (in_args (target_pin_of st) (resolve_node_set_connections st selected).inputs).map (fun a => (⟨a.1, a.2, false⟩ : Pin)), false, NodeKind.functionEntry⟩ : Node).outputs.length && !(((List.filter (fun d => !(decide (d ∈ (resolve_node_set_connections st selected).inputs)) && !(decide (d ∈ (resolve_node_set_connections st selected).outputs))) st.connections) ++ (in_wires (source_pin_of st) (target_pin_of st) (st.next_id + 2) st.next_id (resolve_node_set_connections st selected).inputs 1 1 false false) ++ (out_wires (source_pin_of st) (st.next_id + 1) (resolve_node_set_connections st selected).outputs false false)).any (fun c => c.from_node == st.next_id && c.from_port == 0)))) && ((⟨st.next_id, first_target_pos (target_pos_of st) (resolve_node_set_connections st selected).inputs false ⟨0, 0⟩, [], [execPin] ++ (in_args (target_pin_of st) (resolve_node_set_connections st selected).inputs).map (fun a => (⟨a.1, a.2, false⟩ : Pin)), false, NodeKind.functionEntry⟩ : Node).outputs.length == 1) then { (⟨st.next_id, first_target_pos (target_pos_of st) (resolve_node_set_connections st selected).inputs false ⟨0, 0⟩, [], [execPin] ++ (in_args (target_pin_of st) (resolve_node_set_connections st selected).inputs).map (fun a => (⟨a.1, a.2, false⟩ : Pin)), false, NodeKind.functionEntry⟩ : Node) with position := (⟨st.next_id + 1, first_source_pos (source_pos_of st) (resolve_node_set_connections st selected).outputs false ((⟨0, 0⟩ : Vec2) + ⟨300, 0⟩), [execPin] ++ (match (out_ret (source_pin_of st) (resolve_node_set_connections st selected).outputs false) with | some T => [(⟨"return value", T, false⟩ : Pin)] | none => []), [], false, NodeKind.functionResult⟩ : Node).position - ⟨250, 0⟩ } else (⟨st.next_id, first_target_pos (target_pos_of st) (resolve_node_set_connections st selected).inputs false ⟨0, 0⟩, [], [execPin] ++ (in_args (target_pin_of st) (resolve_node_set_connections st selected).inputs).map (fun a => (⟨a.1, a.2, false⟩ : Pin)), false, NodeKind.functionEntry⟩ : Node)), (⟨st.next_id + 1, first_source_pos (source_pos_of st) (resolve_node_set_connections st selected).outputs false ((⟨0, 0⟩ : Vec2) + ⟨300, 0⟩), [execPin] ++ (match (out_ret (source_pin_of st) (resolve_node_set_connections st selected).outputs false) with | some T => [(⟨"return value", T, false⟩ : Pin)] | none => []), [], false, NodeKind.functionResult⟩ : Node), (⟨st.next_id + 2, (get_node_set_rect selected).get_center, [execPin], [execPin], true, NodeKind.callScriptFunction (collapse_fname st)⟩ : Node)], connections := ((List.filter (fun d => !(decide (d ∈ (resolve_node_set_connections st selected).inputs)) && !(decide (d ∈ (resolve_node_set_connections st selected).outputs))) st.connections) ++ (in_wires (source_pin_of st) (target_pin_of st) (st.next_id + 2) st.next_id (resolve_node_set_connections st selected).inputs 1 1 false false) ++ (out_wires (source_pin_of st) (st.next_id + 1) (resolve_node_set_connections st selected).outputs false false)) ++ (if ((0 < (⟨st.next_id + 1, first_source_pos (source_pos_of st) (resolve_node_set_connections st selected).outputs false ((⟨0, 0⟩ : Vec2) + ⟨300, 0⟩), [execPin] ++ (match (out_ret (source_pin_of st) (resolve_node_set_connections st selected).outputs false) with | some T => [(⟨"return value", T, false⟩ : Pin)] | none => []), [], false, NodeKind.functionResult⟩ : Node).inputs.length && !(((List.filter (fun d => !(decide (d ∈ (resolve_node_set_connections st selected).inputs)) && !(decide (d ∈ (resolve_node_set_connections st selected).outputs))) st.connections) ++ (in_wires (source_pin_of st) (target_pin_of st) (st.next_id + 2) st.next_id (resolve_node_set_connections st selected).inputs 1 1 false false) ++ (out_wires (source_pin_of st) (st.next_id + 1) (resolve_node_set_connections st selected).outputs false false)).any (fun c => c.to_node == st.next_id + 1 && c.to_port == 0))) && (0 < (⟨st.next_id, first_target_pos (target_pos_of st) (resolve_node_set_connections st selected).inputs false ⟨0, 0⟩, [], [execPin] ++ (in_args (target_pin_of st) (resolve_node_set_connections st selected).inputs).map (fun a => (⟨a.1, a.2, false⟩ : Pin)), false, NodeKind.functionEntry⟩ : Node).outputs.length && !(((List.filter (fun d => !(decide (d ∈ (resolve_node_set_connections st selected).inputs)) && !(decide (d ∈ (resolve_node_set_connections st selected).outputs))) st.connections) ++ (in_wires (source_pin_of st) (target_pin_of st) (st.next_id + 2) st.next_id (resolve_node_set_connections st selected).inputs 1 1 false false) ++ (out_wires (source_pin_of st) (st.next_id + 1) (resolve_node_set_connections st selected).outputs false false)).any (fun c => c.from_node == st.next_id && c.from_port == 0)))) then [(⟨st.next_id, 0, st.next_id + 1, 0⟩ : Connection)] else []), graphs := (st.graphs.map (fun g => if g.graph_name == src_graph then { g with node_ids := (List.filter (fun i => !((selected.map (fun n => n.id)).contains i)) g.node_ids) ++ [st.next_id + 2] } else g)) ++ [⟨collapse_fname st, [st.next_id, st.next_id + 1] ++ selected.map (fun n => n.id)⟩], functions := st.functions ++ [⟨collapse_fname st, (in_args (target_pin_of st) (resolve_node_set_connections st selected).inputs), (out_ret (source_pin_of st) (resolve_node_set_connections st selected).outputs false).isSome, (out_ret (source_pin_of st) (resolve_node_set_connections st selected).outputs false).getD 0, st.next_id, some (st.next_id + 1)⟩], next_id := st.next_id + 3 } : Orchestration) (((List.filter (fun d => !(decide (d ∈ (resolve_node_set_connections st selected).inputs)) && !(decide (d ∈ (resolve_node_set_connections st selected).outputs))) st.connections) ++ (in_wires (source_pin_of st) (target_pin_of st) (st.next_id + 2) st.next_id (resolve_node_set_connections st selected).inputs 1 1 false false) ++ (out_wires (source_pin_of st) (st.next_id + 1) (resolve_node_set_connections st selected).outputs false false)) ++ (if ((0 < (⟨st.next_id + 1, first_source_pos (source_pos_of st) (resolve_node_set_connections st selected).outputs false ((⟨0, 0⟩ : Vec2) + ⟨300, 0⟩), [execPin] ++ (match (out_ret (source_pin_of st) (resolve_node_set_connections st selected).outputs false) with | some T => [(⟨"return value", T, false⟩ : Pin)] | none => []), [], false, NodeKind.functionResult⟩ : Node).inputs.length && !(((List.filter (fun d => !(decide (d ∈ (resolve_node_set_connections st selected).inputs)) && !(decide (d ∈ (resolve_node_set_connections st selected).outputs))) st.connections) ++ (in_wires (source_pin_of st) (target_pin_of st) (st.next_id + 2) st.next_id (resolve_node_set_connections st selected).inputs 1 1 false false) ++ (out_wires (source_pin_of st) (st.next_id + 1) (resolve_node_set_connections st selected).outputs false false)).any (fun c => c.to_node == st.next_id + 1 && c.to_port == 0))) && (0 < (⟨st.next_id, first_target_pos (target_pos_of st) (resolve_node_set_connections st selected).inputs false ⟨0, 0⟩, [], [execPin] ++ (in_args (target_pin_of st) (resolve_node_set_connections st selected).inputs).map (fun a => (⟨a.1, a.2, false⟩ : Pin)), false, NodeKind.functionEntry⟩ : Node).outputs.length && !(((List.filter (fun d => !(decide (d ∈ (resolve_node_set_connections st selected).inputs)) && !(decide (d ∈ (resolve_node_set_connections st selected).outputs))) st.connections) ++ (in_wires (source_pin_of st) (target_pin_of st) (st.next_id + 2) st.next_id (resolve_node_set_connections st selected).inputs 1 1 false false) ++ (out_wires (source_pin_of st) (st.next_id + 1) (resolve_node_set_connections st selected).outputs false false)).any (fun c => c.from_node == st.next_id && c.from_port == 0)))) then [(⟨st.next_id, 0, st.next_id + 1, 0⟩ : Connection)] else [])) rfl rfl
  rw [hI]
  simp only [collapse_spec_state]

end OModel

namespace OModel

theorem collapse_success_eq (st : Orchestration) (src_graph : String) (selected : List Node)
    (hne : selected ≠ [])
    (hdup : selected.find? (fun n => !n.can_duplicate) = none)
    (h1 : ¬ (resolve_node_set_connections st selected).input_executions > 1)
    (h2 : ¬ (resolve_node_set_connections st selected).output_executions > 1)
    (h3 : ¬ (resolve_node_set_connections st selected).outputs.length > 2)
    (hcol : st.graphs.any (fun g => g.graph_name == collapse_fname st) = false)
    (hwf : st.wf_ids) (hwc : st.wf_conns)
    (hfn : ∀ f ∈ st.functions, (f.fn_name == collapse_fname st) = false)
    (hsrcne : src_graph ≠ collapse_fname st) :
    collapse_selected_to_function st src_graph selected
      = (collapse_spec_state st src_graph selected, none) := by
  have hne' : selected.isEmpty = false := by
    cases selected with
    | nil => exact absurd rfl hne
    | cons a l => rfl
  unfold collapse_selected_to_function
  rw [hne']
  simp only [Bool.false_eq_true, if_false]
  rw [hdup, if_neg h1, if_neg h2, if_neg h3,
    (show create_unique_name "NewFunction" (st.functions.map (fun f => f.fn_name))
      = collapse_fname st from rfl),
    create_new_function_success st (collapse_fname st) hcol]
  dsimp only
  rw [collapse_pipeline_spec st src_graph selected hwf hwc hfn hcol hsrcne]

end OModel

namespace OModel

theorem in_wires_shape (sp tp : Connection → Pin) (cid eid : Nat) :
    ∀ (conns : List Connection) (cIdx eIdx : Nat) (cw ew : Bool) (c : Connection),
    c ∈ in_wires sp tp cid eid conns cIdx eIdx cw ew →
    (c.to_node = cid ∧ ∃ E ∈ conns, c.from_node = E.from_node)
      ∨ (c.from_node = eid ∧ ∃ E ∈ conns, c.to_node = E.to_node) := by
  intro conns
  induction conns with
  | nil => intro _ _ _ _ c hc; cases hc
  | cons E rest ih =>
    intro cIdx eIdx cw ew c hc
    rw [in_wires, List.append_assoc, List.mem_append, List.mem_append] at hc
    rcases hc with h | h | h
    · left
      rcases hsp : ((sp E).is_execution && !cw) <;> rw [hsp] at h
      · rcases hd : (!(sp E).is_execution) <;> rw [hd] at h
        · cases h
        · rcases List.mem_singleton.mp h with rfl
          exact ⟨rfl, E, List.mem_cons_self E rest, rfl⟩
      · rcases List.mem_singleton.mp h with rfl
        exact ⟨rfl, E, List.mem_cons_self E rest, rfl⟩
    · right
      rcases htp : (!(tp E).is_execution) <;> rw [htp] at h
      · rcases hw : (!ew) <;> rw [hw] at h
        · cases h
        · rcases List.mem_singleton.mp h with rfl
          exact ⟨rfl, E, List.mem_cons_self E rest, rfl⟩
      · rcases List.mem_singleton.mp h with rfl
        exact ⟨rfl, E, List.mem_cons_self E rest, rfl⟩
    · rcases ih _ _ _ _ c h with ⟨h1, F, hF, h2⟩ | ⟨h1, F, hF, h2⟩
      · exact Or.inl ⟨h1, F, List.mem_cons_of_mem E hF, h2⟩
      · exact Or.inr ⟨h1, F, List.mem_cons_of_mem E hF, h2⟩

theorem out_wires_shape (sp : Connection → Pin) (rid : Nat) :
    ∀ (conns : List Connection) (xw dw : Bool) (c : Connection),
    c ∈ out_wires sp rid conns xw dw →
    c.to_node = rid ∧ ∃ E ∈ conns, c.from_node = E.from_node := by
  intro conns
  induction conns with
  | nil => intro _ _ c hc; cases hc
  | cons E rest ih =>
    intro xw dw c hc
    rw [out_wires, List.mem_append] at hc
    rcases hc with h | h
    · rcases hsp : ((sp E).is_execution && !xw) <;> rw [hsp] at h
      · rcases hd : (!(sp E).is_execution && !dw) <;> rw [hd] at h
        · cases h
        · rcases List.mem_singleton.mp h with rfl
          exact ⟨rfl, E, List.mem_cons_self E rest, rfl⟩
      · rcases List.mem_singleton.mp h with rfl
        exact ⟨rfl, E, List.mem_cons_self E rest, rfl⟩
    · rcases ih _ _ c h with ⟨h1, F, hF, h2⟩
      exact ⟨h1, F, List.mem_cons_of_mem E hF, h2⟩

theorem callout_wires_shape (tp : Connection → Pin) (cid : Nat) :
    ∀ (conns : List Connection) (oIdx : Nat) (cw : Bool) (c : Connection),
    c ∈ callout_wires tp cid conns oIdx cw →
    c.from_node = cid ∧ ∃ E ∈ conns, c.to_node = E.to_node := by
  intro conns
  induction conns with
  | nil => intro _ _ c hc; cases hc
  | cons E rest ih =>
    intro oIdx cw c hc
    rw [callout_wires, List.mem_append] at hc
    rcases hc with h | h
    · rcases htp : ((tp E).is_execution && !cw) <;> rw [htp] at h
      · rcases hd : (!(tp E).is_execution) <;> rw [hd] at h
        · cases h
        · rcases List.mem_singleton.mp h with rfl
          exact ⟨rfl, E, List.mem_cons_self E rest, rfl⟩
      · rcases List.mem_singleton.mp h with rfl
        exact ⟨rfl, E, List.mem_cons_self E rest, rfl⟩
    · rcases ih _ _ c h with ⟨h1, F, hF, h2⟩
      exact ⟨h1, F, List.mem_cons_of_mem E hF, h2⟩

end OModel

namespace OModel

theorem in_wires_filter_call_exec (sp tp : Connection → Pin) (cid eid : Nat) :
    ∀ (conns : List Connection) (cIdx eIdx : Nat) (cw ew : Bool),
    1 ≤ cIdx → eid ≠ cid → (∀ E ∈ conns, E.to_node ≠ cid) →
    (in_wires sp tp cid eid conns cIdx eIdx cw ew).filter
        (fun c => c.to_node == cid && c.to_port == 0)
      = (if cw then [] else
          match conns.find? (fun E => (sp E).is_execution) with
          | some E => [(⟨E.from_node, E.from_port, cid, 0⟩ : Connection)]
          | none => []) := by
  intro conns
  induction conns with
  | nil =>
    intro cIdx eIdx cw ew _ _ _
    cases cw <;> rfl
  | cons E rest ih =>
    intro cIdx eIdx cw ew hc1 hne hto
    have hEto : (E.to_node == cid) = false := by
      simp only [beq_eq_false_iff_ne, ne_eq]
      exact hto E (List.mem_cons_self E rest)
    have hcIdx0 : (cIdx == 0) = false := by
      simp only [beq_eq_false_iff_ne, ne_eq]
      omega
    have heid : (eid == cid) = false := by
      simp only [beq_eq_false_iff_ne, ne_eq]
      exact hne
    have ihr := ih (if !(sp E).is_execution then cIdx + 1 else cIdx)
      (if !(tp E).is_execution then eIdx + 1 else eIdx)
      (cw || (sp E).is_execution) (ew || (tp E).is_execution)
      (by rcases (sp E).is_execution <;> simp <;> omega) hne
      (fun F hF => hto F (List.mem_cons_of_mem E hF))
    rw [in_wires, List.filter_append, List.filter_append, ihr, List.find?_cons]
    rcases hsp : (sp E).is_execution <;> rcases hcw : cw <;> rcases htp : (tp E).is_execution <;>
      simp [hsp, hcw, htp, hEto, hcIdx0, heid] <;>
      (intros
       exact absurd (by assumption : E.to_node = cid) (hto E (List.mem_cons_self E rest)))

theorem in_wires_filter_call_data (sp tp : Connection → Pin) (cid eid : Nat) :
    ∀ (conns : List Connection) (cIdx eIdx : Nat) (cw ew : Bool),
    1 ≤ cIdx → eid ≠ cid → (∀ E ∈ conns, E.to_node ≠ cid) →
    (in_wires sp tp cid eid conns cIdx eIdx cw ew).filter
        (fun c => c.to_node == cid && !(c.to_port == 0))
      = ((conns.filter (fun E => !(sp E).is_execution)).enumFrom cIdx).map
          (fun x => (⟨x.2.from_node, x.2.from_port, cid, x.1⟩ : Connection)) := by
  intro conns
  induction conns with
  | nil =>
    intro cIdx eIdx cw ew _ _ _
    rfl
  | cons E rest ih =>
    intro cIdx eIdx cw ew hc1 hne hto
    have hEto : (E.to_node == cid) = false := by
      simp only [beq_eq_false_iff_ne, ne_eq]
      exact hto E (List.mem_cons_self E rest)
    have hcIdx0 : (cIdx == 0) = false := by
      simp only [beq_eq_false_iff_ne, ne_eq]
      omega
    have heid : (eid == cid) = false := by
      simp only [beq_eq_false_iff_ne, ne_eq]
      exact hne
    have ihr := ih (if !(sp E).is_execution then cIdx + 1 else cIdx)
      (if !(tp E).is_execution then eIdx + 1 else eIdx)
      (cw || (sp E).is_execution) (ew || (tp E).is_execution)
      (by rcases (sp E).is_execution <;> simp <;> omega) hne
      (fun F hF => hto F (List.mem_cons_of_mem E hF))
    rw [in_wires, List.filter_append, List.filter_append, ihr]
    rcases hsp : (sp E).is_execution <;> rcases hcw : cw <;> rcases htp : (tp E).is_execution <;>
      simp [hsp, hcw, htp, hEto, hcIdx0, heid, List.enumFrom_cons] <;>
      (intros
       exact absurd (by assumption : E.to_node = cid) (hto E (List.mem_cons_self E rest)))

theorem in_args_eq (tp : Connection → Pin) :
    ∀ (conns : List Connection),
    in_args tp conns = (conns.filter (fun E => !(tp E).is_execution)).map
      (fun E => ((tp E).pin_name, (tp E).pin_type)) := by
  intro conns
  induction conns with
  | nil => rfl
  | cons E rest ih =>
    rw [in_args]
    rcases htp : (tp E).is_execution <;> simp [htp, ih]

end OModel

namespace OModel

theorem in_wires_filter_entry_data (sp tp : Connection → Pin) (cid eid : Nat) :
    ∀ (conns : List Connection) (cIdx eIdx : Nat) (cw ew : Bool),
    1 ≤ eIdx → (∀ E ∈ conns, E.from_node ≠ eid) →
    (in_wires sp tp cid eid conns cIdx eIdx cw ew).filter
        (fun c => c.from_node == eid && !(c.from_port == 0))
      = ((conns.filter (fun E => !(tp E).is_execution)).enumFrom eIdx).map
          (fun x => (⟨eid, x.1, x.2.to_node, x.2.to_port⟩ : Connection)) := by
  intro conns
  induction conns with
  | nil =>
    intro cIdx eIdx cw ew _ _
    rfl
  | cons E rest ih =>
    intro cIdx eIdx cw ew he1 hfrom
    have hEf : (E.from_node == eid) = false := by
      simp only [beq_eq_false_iff_ne, ne_eq]
      exact hfrom E (List.mem_cons_self E rest)
    have heIdx0 : (eIdx == 0) = false := by
      simp only [beq_eq_false_iff_ne, ne_eq]
      omega
    have ihr := ih (if !(sp E).is_execution then cIdx + 1 else cIdx)
      (if !(tp E).is_execution then eIdx + 1 else eIdx)
      (cw || (sp E).is_execution) (ew || (tp E).is_execution)
      (by rcases (tp E).is_execution <;> simp <;> omega)
      (fun F hF => hfrom F (List.mem_cons_of_mem E hF))
    rw [in_wires, List.filter_append, List.filter_append, ihr]
    rcases hsp : (sp E).is_execution <;> rcases hcw : cw <;> rcases htp : (tp E).is_execution <;>
      rcases hew : ew <;>
      simp [hsp, hcw, htp, hew, hEf, heIdx0, List.enumFrom_cons] <;>
      (intros
       exact absurd (by assumption : E.from_node = eid) (hfrom E (List.mem_cons_self E rest)))

theorem in_wires_filter_entry_exec (sp tp : Connection → Pin) (cid eid rid : Nat) :
    ∀ (conns : List Connection) (cIdx eIdx : Nat) (cw ew : Bool),
    1 ≤ eIdx → (∀ E ∈ conns, E.from_node ≠ eid ∧ E.to_node ≠ rid) →
    (in_wires sp tp cid eid conns cIdx eIdx cw ew).filter
        (fun c => c.from_node == eid && c.from_port == 0 && !(c.to_node == rid))
      = (if ew then [] else
          match conns.find? (fun E => (tp E).is_execution) with
          | some E => [(⟨eid, 0, E.to_node, E.to_port⟩ : Connection)]
          | none => []) := by
  intro conns
  induction conns with
  | nil =>
    intro cIdx eIdx cw ew _ _
    cases ew <;> rfl
  | cons E rest ih =>
    intro cIdx eIdx cw ew he1 hh
    have hEf : (E.from_node == eid) = false := by
      simp only [beq_eq_false_iff_ne, ne_eq]
      exact (hh E (List.mem_cons_self E rest)).1
    have hEr : (E.to_node == rid) = false := by
      simp only [beq_eq_false_iff_ne, ne_eq]
      exact (hh E (List.mem_cons_self E rest)).2
    have heIdx0 : (eIdx == 0) = false := by
      simp only [beq_eq_false_iff_ne, ne_eq]
      omega
    have ihr := ih (if !(sp E).is_execution then cIdx + 1 else cIdx)
      (if !(tp E).is_execution then eIdx + 1 else eIdx)
      (cw || (sp E).is_execution) (ew || (tp E).is_execution)
      (by rcases (tp E).is_execution <;> simp <;> omega)
      (fun F hF => hh F (List.mem_cons_of_mem E hF))
    rw [in_wires, List.filter_append, List.filter_append, ihr, List.find?_cons]
    rcases hsp : (sp E).is_execution <;> rcases hcw : cw <;> rcases htp : (tp E).is_execution <;>
      rcases hew : ew <;>
      simp [hsp, hcw, htp, hew, hEf, hEr, heIdx0] <;>
      (intros
       exact absurd (by assumption : E.from_node = eid)
         (hh E (List.mem_cons_self E rest)).1)

end OModel

namespace OModel

theorem out_wires_filter_exec (sp : Connection → Pin) (rid : Nat) :
    ∀ (conns : List Connection) (xw dw : Bool),
    (out_wires sp rid conns xw dw).filter (fun c => c.to_node == rid && c.to_port == 0)
      = (if xw then [] else
          match conns.find? (fun E => (sp E).is_execution) with
          | some E => [(⟨E.from_node, E.from_port, rid, 0⟩ : Connection)]
          | none => []) := by
  intro conns
  induction conns with
  | nil =>
    intro xw dw
    cases xw <;> rfl
  | cons E rest ih =>
    intro xw dw
    rw [out_wires, List.filter_append,
      ih (xw || (sp E).is_execution) (dw || !(sp E).is_execution), List.find?_cons]
    rcases hsp : (sp E).is_execution <;> rcases hxw : xw <;> rcases hdw : dw <;>
      simp [hsp, hxw, hdw]

theorem out_wires_filter_data (sp : Connection → Pin) (rid : Nat) :
    ∀ (conns : List Connection) (xw dw : Bool),
    (out_wires sp rid conns xw dw).filter (fun c => c.to_node == rid && c.to_port == 1)
      = (if dw then [] else
          match conns.find? (fun E => !(sp E).is_execution) with
          | some E => [(⟨E.from_node, E.from_port, rid, 1⟩ : Connection)]
          | none => []) := by
  intro conns
  induction conns with
  | nil =>
    intro xw dw
    cases dw <;> rfl
  | cons E rest ih =>
    intro xw dw
    rw [out_wires, List.filter_append,
      ih (xw || (sp E).is_execution) (dw || !(sp E).is_execution), List.find?_cons]
    rcases hsp : (sp E).is_execution <;> rcases hxw : xw <;> rcases hdw : dw <;>
      simp [hsp, hxw, hdw]

theorem callout_filter_exec (tp : Connection → Pin) (cid : Nat) :
    ∀ (conns : List Connection) (oIdx : Nat) (cw : Bool),
    1 ≤ oIdx →
    (callout_wires tp cid conns oIdx cw).filter
        (fun c => c.from_node == cid && c.from_port == 0)
      = (if cw then [] else
          match conns.find? (fun E => (tp E).is_execution) with
          | some E => [(⟨cid, 0, E.to_node, E.to_port⟩ : Connection)]
          | none => []) := by
  intro conns
  induction conns with
  | nil =>
    intro oIdx cw _
    cases cw <;> rfl
  | cons E rest ih =>
    intro oIdx cw ho1
    have hoIdx0 : (oIdx == 0) = false := by
      simp only [beq_eq_false_iff_ne, ne_eq]
      omega
    rw [callout_wires, List.filter_append,
      ih (if !(tp E).is_execution then oIdx + 1 else oIdx) (cw || (tp E).is_execution)
        (by rcases (tp E).is_execution <;> simp <;> omega),
      List.find?_cons]
    rcases htp : (tp E).is_execution <;> rcases hcw : cw <;>
      simp [htp, hcw, hoIdx0]

theorem callout_filter_data (tp : Connection → Pin) (cid : Nat) :
    ∀ (conns : List Connection) (oIdx : Nat) (cw : Bool),
    1 ≤ oIdx →
    (callout_wires tp cid conns oIdx cw).filter
        (fun c => c.from_node == cid && !(c.from_port == 0))
      = ((conns.filter (fun E => !(tp E).is_execution)).enumFrom oIdx).map
          (fun x => (⟨cid, x.1, x.2.to_node, x.2.to_port⟩ : Connection)) := by
  intro conns
  induction conns with
  | nil =>
    intro oIdx cw _
    rfl
  | cons E rest ih =>
    intro oIdx cw ho1
    have hoIdx0 : (oIdx == 0) = false := by
      simp only [beq_eq_false_iff_ne, ne_eq]
      omega
    rw [callout_wires, List.filter_append,
      ih (if !(tp E).is_execution then oIdx + 1 else oIdx) (cw || (tp E).is_execution)
        (by rcases (tp E).is_execution <;> simp <;> omega)]
    rcases htp : (tp E).is_execution <;> rcases hcw : cw <;>
      simp [htp, hcw, hoIdx0, List.enumFrom_cons]

end OModel

namespace OModel

theorem collapse_final_eq (st : Orchestration) (src_graph : String) (selected : List Node)
    (hne : selected ≠ [])
    (hsucc : (collapse_selected_to_function st src_graph selected).2 = none)
    (hwf : st.wf_ids) (hwc : st.wf_conns)
    (hfn : ∀ f ∈ st.functions, (f.fn_name == collapse_fname st) = false)
    (hsrcne : src_graph ≠ collapse_fname st) :
    (collapse_selected_to_function st src_graph selected).1
      = collapse_spec_state st src_graph selected := by
  have h : collapse_selected_to_function st src_graph selected
      = ((collapse_selected_to_function st src_graph selected).1, none) := by
    rw [← hsucc]
  obtain ⟨hdup, h1, h2, h3, hcol⟩ := collapse_success_conditions st src_graph selected _ h hne
  rw [collapse_success_eq st src_graph selected hne hdup h1 h2 h3 hcol hwf hwc hfn hsrcne]

theorem filter_eq_nil_of_all {α : Type} (l : List α) (p : α → Bool)
    (h : ∀ a ∈ l, p a = false) : l.filter p = [] := by
  rw [List.filter_eq_nil]
  intro a ha
  rw [h a ha]
  simp

theorem filter_parts {α : Type} (p : α → Bool) (l1 l2 l3 l4 l5 : List α)
    (h1 : l1.filter p = []) (h4 : l4.filter p = []) :
    (l1 ++ l2 ++ l3 ++ l4 ++ l5).filter p = l2.filter p ++ l3.filter p ++ l5.filter p := by
  simp only [List.filter_append, h1, h4, List.nil_append, List.append_nil]

theorem spec_conns_filter (st : Orchestration) (src_graph : String) (selected : List Node)
    (p : Connection → Bool)
    (hkeep : ∀ c ∈ st.connections, p c = false)
    (hlink : p ⟨st.next_id, 0, st.next_id + 1, 0⟩ = false) :
    (collapse_spec_state st src_graph selected).connections.filter p
      = (in_wires (source_pin_of st) (target_pin_of st) (st.next_id + 2) st.next_id
           (resolve_node_set_connections st selected).inputs 1 1 false false).filter p
        ++ (out_wires (source_pin_of st) (st.next_id + 1)
             (resolve_node_set_connections st selected).outputs false false).filter p
        ++ (callout_wires (target_pin_of st) (st.next_id + 2)
             (resolve_node_set_connections st selected).outputs 1 false).filter p := by
  simp only [collapse_spec_state]
  refine filter_parts p _ _ _ _ _
    (filter_eq_nil_of_all _ _ (fun c hc => hkeep c (List.mem_of_mem_filter hc))) ?_
  apply filter_eq_nil_of_all
  intro a ha
  split at ha
  · rw [List.mem_singleton.mp ha]
    exact hlink
  · cases ha

/-- C2: inbound rewiring discipline of a successful extraction. -/
theorem c2_inbound_rewiring (st : Orchestration) (src_graph : String) (selected : List Node)
    (hne : selected ≠ [])
    (hsucc : (collapse_selected_to_function st src_graph selected).2 = none)
    (hwf : st.wf_ids) (hwc : st.wf_conns)
    (hfn : ∀ f ∈ st.functions, (f.fn_name == collapse_fname st) = false)
    (hsrcne : src_graph ≠ collapse_fname st) :
    ((collapse_selected_to_function st src_graph selected).1).connections.filter
        (fun c => c.to_node == st.next_id + 2 && c.to_port == 0)
      = (match (resolve_node_set_connections st selected).inputs.find?
            (fun E => (source_pin_of st E).is_execution) with
         | some E => [(⟨E.from_node, E.from_port, st.next_id + 2, 0⟩ : Connection)]
         | none => []) ∧
    ((collapse_selected_to_function st src_graph selected).1).connections.filter
        (fun c => c.to_node == st.next_id + 2 && !(c.to_port == 0))
      = (((resolve_node_set_connections st selected).inputs.filter
            (fun E => !(source_pin_of st E).is_execution)).enumFrom 1).map
          (fun x => (⟨x.2.from_node, x.2.from_port, st.next_id + 2, x.1⟩ : Connection)) ∧
    (∃ fn, ((collapse_selected_to_function st src_graph selected).1).functions
        = st.functions ++ [fn]
      ∧ fn.args = ((resolve_node_set_connections st selected).inputs.filter
            (fun E => !(target_pin_of st E).is_execution)).map
          (fun E => ((target_pin_of st E).pin_name, (target_pin_of st E).pin_type))) ∧
    ((collapse_selected_to_function st src_graph selected).1).connections.filter
        (fun c => c.from_node == st.next_id && !(c.from_port == 0))
      = (((resolve_node_set_connections st selected).inputs.filter
            (fun E => !(target_pin_of st E).is_execution)).enumFrom 1).map
          (fun x => (⟨st.next_id, x.1, x.2.to_node, x.2.to_port⟩ : Connection)) ∧
    ((collapse_selected_to_function st src_graph selected).1).connections.filter
        (fun c => c.from_node == st.next_id && c.from_port == 0
          && !(c.to_node == st.next_id + 1))
      = (match (resolve_node_set_connections st selected).inputs.find?
            (fun E => (target_pin_of st E).is_execution) with
         | some E => [(⟨st.next_id, 0, E.to_node, E.to_port⟩ : Connection)]
         | none => []) := by
  have hb : ∀ c ∈ st.connections, c.from_node < st.next_id ∧ c.to_node < st.next_id :=
    fun c hc => conn_endpoint_bounds st hwf hwc c hc
  have hbIn : ∀ E ∈ (resolve_node_set_connections st selected).inputs,
      E.from_node < st.next_id ∧ E.to_node < st.next_id :=
    fun E hE => hb E (List.mem_of_mem_filter hE)
  have hbOut : ∀ E ∈ (resolve_node_set_connections st selected).outputs,
      E.from_node < st.next_id ∧ E.to_node < st.next_id :=
    fun E hE => hb E (List.mem_of_mem_filter hE)
  rw [collapse_final_eq st src_graph selected hne hsucc hwf hwc hfn hsrcne]
  refine ⟨?_, ?_, ?_, ?_, ?_⟩
  · rw [spec_conns_filter st src_graph selected
        (fun c => c.to_node == st.next_id + 2 && c.to_port == 0)
        (fun c hc => by have := (hb c hc).2; simp; omega)
        (by simp),
      in_wires_filter_call_exec (source_pin_of st) (target_pin_of st) (st.next_id + 2)
        st.next_id (resolve_node_set_connections st selected).inputs 1 1 false false
        (by omega) (by omega) (fun E hE => by have := (hbIn E hE).2; omega),
      filter_eq_nil_of_all (out_wires (source_pin_of st) (st.next_id + 1) (resolve_node_set_connections st selected).outputs false false) _ (fun c hc => by
        have := (out_wires_shape _ _ _ _ _ c hc).1
        simp
        omega),
      filter_eq_nil_of_all (callout_wires (target_pin_of st) (st.next_id + 2) (resolve_node_set_connections st selected).outputs 1 false) _ (fun c hc => by
        obtain ⟨h1, E, hE, h2⟩ := callout_wires_shape _ _ _ _ _ c hc
        have := (hbOut E hE).2
        simp
        omega)]
    simp
  · rw [spec_conns_filter st src_graph selected
        (fun c => c.to_node == st.next_id + 2 && !(c.to_port == 0))
        (fun c hc => by have := (hb c hc).2; simp; omega)
        (by simp),
      in_wires_filter_call_data (source_pin_of st) (target_pin_of st) (st.next_id + 2)
        st.next_id (resolve_node_set_connections st selected).inputs 1 1 false false
        (by omega) (by omega) (fun E hE => by have := (hbIn E hE).2; omega),
      filter_eq_nil_of_all (out_wires (source_pin_of st) (st.next_id + 1) (resolve_node_set_connections st selected).outputs false false) _ (fun c hc => by
        have := (out_wires_shape _ _ _ _ _ c hc).1
        simp
        omega),
      filter_eq_nil_of_all (callout_wires (target_pin_of st) (st.next_id + 2) (resolve_node_set_connections st selected).outputs 1 false) _ (fun c hc => by
        obtain ⟨h1, E, hE, h2⟩ := callout_wires_shape _ _ _ _ _ c hc
        have := (hbOut E hE).2
        simp
        omega)]
    simp
  · refine ⟨⟨collapse_fname st,
        in_args (target_pin_of st) (resolve_node_set_connections st selected).inputs,
        (out_ret (source_pin_of st) (resolve_node_set_connections st selected).outputs
          false).isSome,
        (out_ret (source_pin_of st) (resolve_node_set_connections st selected).outputs
          false).getD 0,
        st.next_id, some (st.next_id + 1)⟩, ?_, ?_⟩
    · simp only [collapse_spec_state]
    · simp only [in_args_eq]
  · rw [spec_conns_filter st src_graph selected
        (fun c => c.from_node == st.next_id && !(c.from_port == 0))
        (fun c hc => by have := (hb c hc).1; simp; omega)
        (by simp),
      in_wires_filter_entry_data (source_pin_of st) (target_pin_of st) (st.next_id + 2)
        st.next_id (resolve_node_set_connections st selected).inputs 1 1 false false
        (by omega) (fun E hE => by have := (hbIn E hE).1; omega),
      filter_eq_nil_of_all (out_wires (source_pin_of st) (st.next_id + 1) (resolve_node_set_connections st selected).outputs false false) _ (fun c hc => by
        obtain ⟨h1, E, hE, h2⟩ := out_wires_shape _ _ _ _ _ c hc
        have := (hbOut E hE).1
        simp
        omega),
      filter_eq_nil_of_all (callout_wires (target_pin_of st) (st.next_id + 2) (resolve_node_set_connections st selected).outputs 1 false) _ (fun c hc => by
        have := (callout_wires_shape _ _ _ _ _ c hc).1
        simp
        omega)]
    simp
  · rw [spec_conns_filter st src_graph selected
        (fun c => c.from_node == st.next_id && c.from_port == 0
          && !(c.to_node == st.next_id + 1))
        (fun c hc => by have := (hb c hc).1; simp; omega)
        (by simp),
      in_wires_filter_entry_exec (source_pin_of st) (target_pin_of st) (st.next_id + 2)
        st.next_id (st.next_id + 1) (resolve_node_set_connections st selected).inputs 1 1 false false
        (by omega)
        (fun E hE => by have h1 := (hbIn E hE).1; have h2 := (hbIn E hE).2; omega),
      filter_eq_nil_of_all (out_wires (source_pin_of st) (st.next_id + 1) (resolve_node_set_connections st selected).outputs false false) _ (fun c hc => by
        obtain ⟨h1, E, hE, h2⟩ := out_wires_shape _ _ _ _ _ c hc
        have := (hbOut E hE).1
        simp
        omega),
      filter_eq_nil_of_all (callout_wires (target_pin_of st) (st.next_id + 2) (resolve_node_set_connections st selected).outputs 1 false) _ (fun c hc => by
        have := (callout_wires_shape _ _ _ _ _ c hc).1
        simp
        omega)]
    simp

end OModel

namespace OModel

/-- C3: outbound-to-Result rewiring and caller-side Call-node output rewiring
of a successful extraction. -/
theorem c3_outbound_rewiring (st : Orchestration) (src_graph : String) (selected : List Node)
    (hne : selected ≠ [])
    (hsucc : (collapse_selected_to_function st src_graph selected).2 = none)
    (hwf : st.wf_ids) (hwc : st.wf_conns)
    (hfn : ∀ f ∈ st.functions, (f.fn_name == collapse_fname st) = false)
    (hsrcne : src_graph ≠ collapse_fname st) :
    ((collapse_selected_to_function st src_graph selected).1).connections.filter
        (fun c => c.to_node == st.next_id + 1 && c.to_port == 0
          && !(c.from_node == st.next_id))
      = (match (resolve_node_set_connections st selected).outputs.find?
            (fun E => (source_pin_of st E).is_execution) with
         | some E => [(⟨E.from_node, E.from_port, st.next_id + 1, 0⟩ : Connection)]
         | none => []) ∧
    ((collapse_selected_to_function st src_graph selected).1).connections.filter
        (fun c => c.to_node == st.next_id + 1 && c.to_port == 1)
      = (match (resolve_node_set_connections st selected).outputs.find?
            (fun E => !(source_pin_of st E).is_execution) with
         | some E => [(⟨E.from_node, E.from_port, st.next_id + 1, 1⟩ : Connection)]
         | none => []) ∧
    (∃ fn, ((collapse_selected_to_function st src_graph selected).1).functions
        = st.functions ++ [fn]
      ∧ fn.result_node_id = some (st.next_id + 1)
      ∧ fn.has_return_value = ((resolve_node_set_connections st selected).outputs.find?
          (fun E => !(source_pin_of st E).is_execution)).isSome
      ∧ (∀ E, (resolve_node_set_connections st selected).outputs.find?
            (fun E => !(source_pin_of st E).is_execution) = some E →
          fn.return_type = (source_pin_of st E).pin_type)) ∧
    ((collapse_selected_to_function st src_graph selected).1).connections.filter
        (fun c => c.from_node == st.next_id + 2 && c.from_port == 0)
      = (match (resolve_node_set_connections st selected).outputs.find?
            (fun E => (target_pin_of st E).is_execution) with
         | some E => [(⟨st.next_id + 2, 0, E.to_node, E.to_port⟩ : Connection)]
         | none => []) ∧
    ((collapse_selected_to_function st src_graph selected).1).connections.filter
        (fun c => c.from_node == st.next_id + 2 && !(c.from_port == 0))
      = (((resolve_node_set_connections st selected).outputs.filter
            (fun E => !(target_pin_of st E).is_execution)).enumFrom 1).map
          (fun x => (⟨st.next_id + 2, x.1, x.2.to_node, x.2.to_port⟩ : Connection)) := by
  have hb : ∀ c ∈ st.connections, c.from_node < st.next_id ∧ c.to_node < st.next_id :=
    fun c hc => conn_endpoint_bounds st hwf hwc c hc
  have hbIn : ∀ E ∈ (resolve_node_set_connections st selected).inputs,
      E.from_node < st.next_id ∧ E.to_node < st.next_id :=
    fun E hE => hb E (List.mem_of_mem_filter hE)
  have hbOut : ∀ E ∈ (resolve_node_set_connections st selected).outputs,
      E.from_node < st.next_id ∧ E.to_node < st.next_id :=
    fun E hE => hb E (List.mem_of_mem_filter hE)
  rw [collapse_final_eq st src_graph selected hne hsucc hwf hwc hfn hsrcne]
  refine ⟨?_, ?_, ?_, ?_, ?_⟩
  · rw [spec_conns_filter st src_graph selected
        (fun c => c.to_node == st.next_id + 1 && c.to_port == 0
          && !(c.from_node == st.next_id))
        (fun c hc => by have := (hb c hc).2; simp; omega)
        (by simp),
      filter_eq_nil_of_all (in_wires (source_pin_of st) (target_pin_of st) (st.next_id + 2) st.next_id (resolve_node_set_connections st selected).inputs 1 1 false false) _ (fun c hc => by
        rcases in_wires_shape _ _ _ _ _ _ _ _ _ c hc with ⟨h1, E, hE, h2⟩ | ⟨h1, E, hE, h2⟩
        · simp
          omega
        · have := (hbIn E hE).2
          simp
          omega),
      List.filter_congr
        (p := fun (c : Connection) => c.to_node == st.next_id + 1 && c.to_port == 0
          && !(c.from_node == st.next_id))
        (q := fun (c : Connection) => c.to_node == st.next_id + 1 && c.to_port == 0)
        (fun c hc => by
          obtain ⟨h1, E, hE, h2⟩ := out_wires_shape _ _ _ _ _ c hc
          have := (hbOut E hE).1
          have hfe : (c.from_node == st.next_id) = false := by
            simp only [beq_eq_false_iff_ne, ne_eq]
            omega
          simp [hfe]),
      out_wires_filter_exec (source_pin_of st) (st.next_id + 1) (resolve_node_set_connections st selected).outputs false false,
      filter_eq_nil_of_all (callout_wires (target_pin_of st) (st.next_id + 2) (resolve_node_set_connections st selected).outputs 1 false) _ (fun c hc => by
        obtain ⟨h1, E, hE, h2⟩ := callout_wires_shape _ _ _ _ _ c hc
        have := (hbOut E hE).2
        simp
        omega)]
    simp
  · rw [spec_conns_filter st src_graph selected
        (fun c => c.to_node == st.next_id + 1 && c.to_port == 1)
        (fun c hc => by have := (hb c hc).2; simp; omega)
        (by simp),
      filter_eq_nil_of_all (in_wires (source_pin_of st) (target_pin_of st) (st.next_id + 2) st.next_id (resolve_node_set_connections st selected).inputs 1 1 false false) _ (fun c hc => by
        rcases in_wires_shape _ _ _ _ _ _ _ _ _ c hc with ⟨h1, E, hE, h2⟩ | ⟨h1, E, hE, h2⟩
        · simp
          omega
        · have := (hbIn E hE).2
          simp
          omega),
      out_wires_filter_data (source_pin_of st) (st.next_id + 1) (resolve_node_set_connections st selected).outputs false false,
      filter_eq_nil_of_all (callout_wires (target_pin_of st) (st.next_id + 2) (resolve_node_set_connections st selected).outputs 1 false) _ (fun c hc => by
        obtain ⟨h1, E, hE, h2⟩ := callout_wires_shape _ _ _ _ _ c hc
        have := (hbOut E hE).2
        simp
        omega)]
    simp
  · refine ⟨⟨collapse_fname st,
        in_args (target_pin_of st) (resolve_node_set_connections st selected).inputs,
        (out_ret (source_pin_of st) (resolve_node_set_connections st selected).outputs false).isSome,
        (out_ret (source_pin_of st) (resolve_node_set_connections st selected).outputs false).getD 0,
        st.next_id, some (st.next_id + 1)⟩, ?_, rfl, ?_, ?_⟩
    · simp only [collapse_spec_state]
    · show (out_ret (source_pin_of st) (resolve_node_set_connections st selected).outputs false).isSome = _
      unfold out_ret
      simp
    · intro E hfind
      show (out_ret (source_pin_of st) (resolve_node_set_connections st selected).outputs false).getD 0 = _
      unfold out_ret
      rw [if_neg (by simp), hfind]
      rfl
  · rw [spec_conns_filter st src_graph selected
        (fun c => c.from_node == st.next_id + 2 && c.from_port == 0)
        (fun c hc => by have := (hb c hc).1; simp; omega)
        (by simp),
      filter_eq_nil_of_all (in_wires (source_pin_of st) (target_pin_of st) (st.next_id + 2) st.next_id (resolve_node_set_connections st selected).inputs 1 1 false false) _ (fun c hc => by
        rcases in_wires_shape _ _ _ _ _ _ _ _ _ c hc with ⟨h1, E, hE, h2⟩ | ⟨h1, E, hE, h2⟩
        · have := (hbIn E hE).1
          simp
          omega
        · simp
          omega),
      filter_eq_nil_of_all (out_wires (source_pin_of st) (st.next_id + 1) (resolve_node_set_connections st selected).outputs false false) _ (fun c hc => by
        obtain ⟨h1, E, hE, h2⟩ := out_wires_shape _ _ _ _ _ c hc
        have := (hbOut E hE).1
        simp
        omega),
      callout_filter_exec (target_pin_of st) (st.next_id + 2) (resolve_node_set_connections st selected).outputs 1 false (by omega)]
    simp
  · rw [spec_conns_filter st src_graph selected
        (fun c => c.from_node == st.next_id + 2 && !(c.from_port == 0))
        (fun c hc => by have := (hb c hc).1; simp; omega)
        (by simp),
      filter_eq_nil_of_all (in_wires (source_pin_of st) (target_pin_of st) (st.next_id + 2) st.next_id (resolve_node_set_connections st selected).inputs 1 1 false false) _ (fun c hc => by
        rcases in_wires_shape _ _ _ _ _ _ _ _ _ c hc with ⟨h1, E, hE, h2⟩ | ⟨h1, E, hE, h2⟩
        · have := (hbIn E hE).1
          simp
          omega
        · simp
          omega),
      filter_eq_nil_of_all (out_wires (source_pin_of st) (st.next_id + 1) (resolve_node_set_connections st selected).outputs false false) _ (fun c hc => by
        obtain ⟨h1, E, hE, h2⟩ := out_wires_shape _ _ _ _ _ c hc
        have := (hbOut E hE).1
        simp
        omega),
      callout_filter_data (target_pin_of st) (st.next_id + 2) (resolve_node_set_connections st selected).outputs 1 false (by omega)]
    simp

end OModel

namespace OModel

theorem length_filter_split {α : Type} (l : List α) (p q : α → Bool) :
    (l.filter p).length
      = (l.filter (fun a => p a && q a)).length + (l.filter (fun a => p a && !q a)).length := by
  induction l with
  | nil => rfl
  | cons a as ih =>
    rcases hp : p a <;> rcases hq : q a <;>
      simp [List.filter_cons, hp, hq, ih] <;> omega

end OModel

namespace OModel

/-- C8: degenerate-path fixup of a successful extraction: the direct
Entry-to-Result execution link exists exactly when neither the Result node's
execution input nor the Entry node's execution output received a wire in the
rewiring passes, and when that link is the Entry node's only outgoing
connection the Entry node is repositioned at the fixed (250, 0) offset left
of the Result node. -/
theorem c8_degenerate_fixup (st : Orchestration) (src_graph : String) (selected : List Node)
    (hne : selected ≠ [])
    (hsucc : (collapse_selected_to_function st src_graph selected).2 = none)
    (hwf : st.wf_ids) (hwc : st.wf_conns)
    (hfn : ∀ f ∈ st.functions, (f.fn_name == collapse_fname st) = false)
    (hsrcne : src_graph ≠ collapse_fname st) :
    ((⟨st.next_id, 0, st.next_id + 1, 0⟩ : Connection) ∈ ((collapse_selected_to_function st src_graph selected).1).connections
      ↔ (((List.filter (fun d => !(decide (d ∈ (resolve_node_set_connections st selected).inputs)) && !(decide (d ∈ (resolve_node_set_connections st selected).outputs))) st.connections) ++ (in_wires (source_pin_of st) (target_pin_of st) (st.next_id + 2) st.next_id (resolve_node_set_connections st selected).inputs 1 1 false false) ++ (out_wires (source_pin_of st) (st.next_id + 1) (resolve_node_set_connections st selected).outputs false false)).any (fun c => c.to_node == st.next_id + 1 && c.to_port == 0) = false
         ∧ ((List.filter (fun d => !(decide (d ∈ (resolve_node_set_connections st selected).inputs)) && !(decide (d ∈ (resolve_node_set_connections st selected).outputs))) st.connections) ++ (in_wires (source_pin_of st) (target_pin_of st) (st.next_id + 2) st.next_id (resolve_node_set_connections st selected).inputs 1 1 false false) ++ (out_wires (source_pin_of st) (st.next_id + 1) (resolve_node_set_connections st selected).outputs false false)).any (fun c => c.from_node == st.next_id && c.from_port == 0) = false)) ∧
    (∃ en rn, ((collapse_selected_to_function st src_graph selected).1).get_node st.next_id = some en
      ∧ ((collapse_selected_to_function st src_graph selected).1).get_node (st.next_id + 1) = some rn
      ∧ (((List.filter (fun d => !(decide (d ∈ (resolve_node_set_connections st selected).inputs)) && !(decide (d ∈ (resolve_node_set_connections st selected).outputs))) st.connections) ++ (in_wires (source_pin_of st) (target_pin_of st) (st.next_id + 2) st.next_id (resolve_node_set_connections st selected).inputs 1 1 false false) ++ (out_wires (source_pin_of st) (st.next_id + 1) (resolve_node_set_connections st selected).outputs false false)).any (fun c => c.to_node == st.next_id + 1 && c.to_port == 0) = false →
         ((List.filter (fun d => !(decide (d ∈ (resolve_node_set_connections st selected).inputs)) && !(decide (d ∈ (resolve_node_set_connections st selected).outputs))) st.connections) ++ (in_wires (source_pin_of st) (target_pin_of st) (st.next_id + 2) st.next_id (resolve_node_set_connections st selected).inputs 1 1 false false) ++ (out_wires (source_pin_of st) (st.next_id + 1) (resolve_node_set_connections st selected).outputs false false)).any (fun c => c.from_node == st.next_id && c.from_port == 0) = false →
         (((collapse_selected_to_function st src_graph selected).1).connections.filter (fun c => c.from_node == st.next_id)).length = 1 →
         en.position = rn.position - ⟨250, 0⟩)) := by
  have hb : ∀ c ∈ st.connections, c.from_node < st.next_id ∧ c.to_node < st.next_id :=
    fun c hc => conn_endpoint_bounds st hwf hwc c hc
  have hbIn : ∀ E ∈ (resolve_node_set_connections st selected).inputs,
      E.from_node < st.next_id ∧ E.to_node < st.next_id :=
    fun E hE => hb E (List.mem_of_mem_filter hE)
  have hbOut : ∀ E ∈ (resolve_node_set_connections st selected).outputs,
      E.from_node < st.next_id ∧ E.to_node < st.next_id :=
    fun E hE => hb E (List.mem_of_mem_filter hE)
  have hnk : (⟨st.next_id, 0, st.next_id + 1, 0⟩ : Connection) ∉ (List.filter (fun d => !(decide (d ∈ (resolve_node_set_connections st selected).inputs)) && !(decide (d ∈ (resolve_node_set_connections st selected).outputs))) st.connections) := by
    intro hm
    have := (hb _ (List.mem_of_mem_filter hm)).1
    simp at this
  have hni : (⟨st.next_id, 0, st.next_id + 1, 0⟩ : Connection) ∉ (in_wires (source_pin_of st) (target_pin_of st) (st.next_id + 2) st.next_id (resolve_node_set_connections st selected).inputs 1 1 false false) := by
    intro hm
    rcases in_wires_shape _ _ _ _ _ _ _ _ _ _ hm with ⟨h1, E, hE, h2⟩ | ⟨h1, E, hE, h2⟩
    · simp at h1
    · have := (hbIn E hE).2
      simp at h2
      omega
  have hno : (⟨st.next_id, 0, st.next_id + 1, 0⟩ : Connection) ∉ (out_wires (source_pin_of st) (st.next_id + 1) (resolve_node_set_connections st selected).outputs false false) := by
    intro hm
    obtain ⟨h1, E, hE, h2⟩ := out_wires_shape _ _ _ _ _ _ hm
    have := (hbOut E hE).1
    simp at h2
    omega
  have hnc : (⟨st.next_id, 0, st.next_id + 1, 0⟩ : Connection) ∉ (callout_wires (target_pin_of st) (st.next_id + 2) (resolve_node_set_connections st selected).outputs 1 false) := by
    intro hm
    obtain ⟨h1, E, hE, h2⟩ := callout_wires_shape _ _ _ _ _ _ hm
    simp at h1
  rw [collapse_final_eq st src_graph selected hne hsucc hwf hwc hfn hsrcne]
  have hpre : ∀ j : Nat, st.next_id ≤ j → st.nodes.find? (fun n => n.id == j) = none :=
    fun j hj => get_node_none_of_ge st hwf.2 j hj
  constructor
  · simp only [collapse_spec_state]
    rw [List.mem_append, List.mem_append, List.mem_append, List.mem_append]
    constructor
    · rintro ((((hm | hm) | hm) | hm) | hm)
      · exact absurd hm hnk
      · exact absurd hm hni
      · exact absurd hm hno
      · split at hm
        next hcond =>
          simp only [Bool.and_eq_true, Bool.not_eq_true'] at hcond
          exact ⟨hcond.1.2, hcond.2.2⟩
        next hcond => cases hm
      · exact absurd hm hnc
    · rintro ⟨h1, h2⟩
      refine Or.inl (Or.inr ?_)
      rw [if_pos ?_]
      · exact List.mem_singleton.mpr rfl
      · rw [h1, h2]
        simp
  · refine ⟨(if ((0 < (⟨st.next_id + 1, first_source_pos (source_pos_of st) (resolve_node_set_connections st selected).outputs false ((⟨0, 0⟩ : Vec2) + ⟨300, 0⟩), [execPin] ++ (match (out_ret (source_pin_of st) (resolve_node_set_connections st selected).outputs false) with | some T => [(⟨"return value", T, false⟩ : Pin)] | none => []), [], false, NodeKind.functionResult⟩ : Node).inputs.length && !(((List.filter (fun d => !(decide (d ∈ (resolve_node_set_connections st selected).inputs)) && !(decide (d ∈ (resolve_node_set_connections st selected).outputs))) st.connections) ++ (in_wires (source_pin_of st) (target_pin_of st) (st.next_id + 2) st.next_id (resolve_node_set_connections st selected).inputs 1 1 false false) ++ (out_wires (source_pin_of st) (st.next_id + 1) (resolve_node_set_connections st selected).outputs false false)).any (fun c => c.to_node == st.next_id + 1 && c.to_port == 0))) && (0 < (⟨st.next_id, first_target_pos (target_pos_of st) (resolve_node_set_connections st selected).inputs false ⟨0, 0⟩, [], [execPin] ++ (in_args (target_pin_of st) (resolve_node_set_connections st selected).inputs).map (fun a => (⟨a.1, a.2, false⟩ : Pin)), false, NodeKind.functionEntry⟩ : Node).outputs.length && !(((List.filter (fun d => !(decide (d ∈ (resolve_node_set_connections st selected).inputs)) && !(decide (d ∈ (resolve_node_set_connections st selected).outputs))) st.connections) ++ (in_wires (source_pin_of st) (target_pin_of st) (st.next_id + 2) st.next_id (resolve_node_set_connections st selected).inputs 1 1 false false) ++ (out_wires (source_pin_of st) (st.next_id + 1) (resolve_node_set_connections st selected).outputs false false)).any (fun c => c.from_node == st.next_id && c.from_port == 0)))) && ((⟨st.next_id, first_target_pos (target_pos_of st) (resolve_node_set_connections st selected).inputs false ⟨0, 0⟩, [], [execPin] ++ (in_args (target_pin_of st) (resolve_node_set_connections st selected).inputs).map (fun a => (⟨a.1, a.2, false⟩ : Pin)), false, NodeKind.functionEntry⟩ : Node).outputs.length == 1) then { (⟨st.next_id, first_target_pos (target_pos_of st) (resolve_node_set_connections st selected).inputs false ⟨0, 0⟩, [], [execPin] ++ (in_args (target_pin_of st) (resolve_node_set_connections st selected).inputs).map (fun a => (⟨a.1, a.2, false⟩ : Pin)), false, NodeKind.functionEntry⟩ : Node) with position := (⟨st.next_id + 1, first_source_pos (source_pos_of st) (resolve_node_set_connections st selected).outputs false ((⟨0, 0⟩ : Vec2) + ⟨300, 0⟩), [execPin] ++ (match (out_ret (source_pin_of st) (resolve_node_set_connections st selected).outputs false) with | some T => [(⟨"return value", T, false⟩ : Pin)] | none => []), [], false, NodeKind.functionResult⟩ : Node).position - ⟨250, 0⟩ } else (⟨st.next_id, first_target_pos (target_pos_of st) (resolve_node_set_connections st selected).inputs false ⟨0, 0⟩, [], [execPin] ++ (in_args (target_pin_of st) (resolve_node_set_connections st selected).inputs).map (fun a => (⟨a.1, a.2, false⟩ : Pin)), false, NodeKind.functionEntry⟩ : Node)), (⟨st.next_id + 1, first_source_pos (source_pos_of st) (resolve_node_set_connections st selected).outputs false ((⟨0, 0⟩ : Vec2) + ⟨300, 0⟩), [execPin] ++ (match (out_ret (source_pin_of st) (resolve_node_set_connections st selected).outputs false) with | some T => [(⟨"return value", T, false⟩ : Pin)] | none => []), [], false, NodeKind.functionResult⟩ : Node), ?_, ?_, ?_⟩
    · show (collapse_spec_state st src_graph selected).nodes.find? _ = _
      simp only [collapse_spec_state]
      rw [List.find?_append, hpre st.next_id (by omega),
        List.find?_cons_of_pos _ (by split <;> simp)]
      rfl
    · show (collapse_spec_state st src_graph selected).nodes.find? _ = _
      simp only [collapse_spec_state]
      rw [List.find?_append, hpre (st.next_id + 1) (by omega),
        List.find?_cons_of_neg _ (by split <;> simp),
        List.find?_cons_of_pos _ (by simp)]
      rfl
    · intro h1 h2 hlen
      have hfix : ((0 < (⟨st.next_id + 1, first_source_pos (source_pos_of st) (resolve_node_set_connections st selected).outputs false ((⟨0, 0⟩ : Vec2) + ⟨300, 0⟩), [execPin] ++ (match (out_ret (source_pin_of st) (resolve_node_set_connections st selected).outputs false) with | some T => [(⟨"return value", T, false⟩ : Pin)] | none => []), [], false, NodeKind.functionResult⟩ : Node).inputs.length && !(((List.filter (fun d => !(decide (d ∈ (resolve_node_set_connections st selected).inputs)) && !(decide (d ∈ (resolve_node_set_connections st selected).outputs))) st.connections) ++ (in_wires (source_pin_of st) (target_pin_of st) (st.next_id + 2) st.next_id (resolve_node_set_connections st selected).inputs 1 1 false false) ++ (out_wires (source_pin_of st) (st.next_id + 1) (resolve_node_set_connections st selected).outputs false false)).any (fun c => c.to_node == st.next_id + 1 && c.to_port == 0))) && (0 < (⟨st.next_id, first_target_pos (target_pos_of st) (resolve_node_set_connections st selected).inputs false ⟨0, 0⟩, [], [execPin] ++ (in_args (target_pin_of st) (resolve_node_set_connections st selected).inputs).map (fun a => (⟨a.1, a.2, false⟩ : Pin)), false, NodeKind.functionEntry⟩ : Node).outputs.length && !(((List.filter (fun d => !(decide (d ∈ (resolve_node_set_connections st selected).inputs)) && !(decide (d ∈ (resolve_node_set_connections st selected).outputs))) st.connections) ++ (in_wires (source_pin_of st) (target_pin_of st) (st.next_id + 2) st.next_id (resolve_node_set_connections st selected).inputs 1 1 false false) ++ (out_wires (source_pin_of st) (st.next_id + 1) (resolve_node_set_connections st selected).outputs false false)).any (fun c => c.from_node == st.next_id && c.from_port == 0)))) = true := by
        rw [h1, h2]
        simp
      rw [length_filter_split _ _ (fun c => c.from_port == 0)] at hlen
      have hq : (collapse_spec_state st src_graph selected).connections.filter
          (fun c => (c.from_node == st.next_id) && (c.from_port == 0))
          = [(⟨st.next_id, 0, st.next_id + 1, 0⟩ : Connection)] := by
        simp only [collapse_spec_state]
        rw [List.filter_append, List.filter_append,
          filter_eq_nil_of_all ((List.filter (fun d => !(decide (d ∈ (resolve_node_set_connections st selected).inputs)) && !(decide (d ∈ (resolve_node_set_connections st selected).outputs))) st.connections) ++ (in_wires (source_pin_of st) (target_pin_of st) (st.next_id + 2) st.next_id (resolve_node_set_connections st selected).inputs 1 1 false false) ++ (out_wires (source_pin_of st) (st.next_id + 1) (resolve_node_set_connections st selected).outputs false false)) _ (fun c hc => by
            have := List.any_eq_false.mp h2 c hc
            rcases hx : ((c.from_node == st.next_id) && (c.from_port == 0))
            · rfl
            · exact absurd hx this),
          filter_eq_nil_of_all (callout_wires (target_pin_of st) (st.next_id + 2) (resolve_node_set_connections st selected).outputs 1 false) _ (fun c hc => by
            have := (callout_wires_shape _ _ _ _ _ c hc).1
            simp
            omega)]
        rw [if_pos hfix]
        simp
      have hdq : (collapse_spec_state st src_graph selected).connections.filter
          (fun c => (c.from_node == st.next_id) && !(c.from_port == 0))
          = (((resolve_node_set_connections st selected).inputs.filter
            (fun E => !(target_pin_of st E).is_execution)).enumFrom 1).map
          (fun x => (⟨st.next_id, x.1, x.2.to_node, x.2.to_port⟩ : Connection)) := by
        rw [spec_conns_filter st src_graph selected
            (fun c => c.from_node == st.next_id && !(c.from_port == 0))
            (fun c hc => by have := (hb c hc).1; simp; omega)
            (by simp),
          in_wires_filter_entry_data (source_pin_of st) (target_pin_of st) (st.next_id + 2)
            st.next_id (resolve_node_set_connections st selected).inputs 1 1 false false
            (by omega) (fun E hE => by have := (hbIn E hE).1; omega),
          filter_eq_nil_of_all (out_wires (source_pin_of st) (st.next_id + 1) (resolve_node_set_connections st selected).outputs false false) _ (fun c hc => by
            obtain ⟨hh1, E, hE, hh2⟩ := out_wires_shape _ _ _ _ _ c hc
            have := (hbOut E hE).1
            simp
            omega),
          filter_eq_nil_of_all (callout_wires (target_pin_of st) (st.next_id + 2) (resolve_node_set_connections st selected).outputs 1 false) _ (fun c hc => by
            have := (callout_wires_shape _ _ _ _ _ c hc).1
            simp
            omega)]
        simp
      rw [hq, hdq] at hlen
      simp only [List.length_singleton, List.length_map, List.enumFrom_length] at hlen
      have hnildata : ((resolve_node_set_connections st selected).inputs.filter
          (fun E => !(target_pin_of st E).is_execution)) = [] := by
        rw [← List.length_eq_zero]
        omega
      have hout1 : (((⟨st.next_id, first_target_pos (target_pos_of st) (resolve_node_set_connections st selected).inputs false ⟨0, 0⟩, [], [execPin] ++ (in_args (target_pin_of st) (resolve_node_set_connections st selected).inputs).map (fun a => (⟨a.1, a.2, false⟩ : Pin)), false, NodeKind.functionEntry⟩ : Node)).outputs.length == 1) = true := by
        show ((([execPin] ++ (in_args (target_pin_of st) (resolve_node_set_connections st selected).inputs).map
          (fun a => (⟨a.1, a.2, false⟩ : Pin)) : List Pin)).length == 1) = true
        rw [in_args_eq, hnildata]
        simp
      show Node.position (if _ then _ else _) = _
      rw [if_pos (by rw [hfix, hout1]; rfl)]

end OModel

namespace OModel

/-- Renumbered, translated copies of a node list, ids allocated sequentially
from `k` (specification of the duplication loop of _expand_node). -/
def dup_nodes (d : Vec2) : List Node → Nat → List Node
  | [], _ => []
  | n :: rest, k => { n with id := k, position := n.position + d } :: dup_nodes d rest (k + 1)

/-- Old-id to new-id pairs recorded by the duplication loop of _expand_node. -/
def dup_map : List Node → Nat → List (Nat × Nat)
  | [], _ => []
  | n :: rest, k => (n.id, k) :: dup_map rest (k + 1)

/-- The freshly allocated ids of the duplication loop of _expand_node. -/
def dup_ids : List Node → Nat → List Nat
  | [], _ => []
  | _ :: rest, k => k :: dup_ids rest (k + 1)

theorem dup_nodes_id_ge (d : Vec2) :
    ∀ (body : List Node) (k : Nat) (m : Node), m ∈ dup_nodes d body k → k ≤ m.id := by
  intro body
  induction body with
  | nil => intro k m hm; cases hm
  | cons n rest ih =>
    intro k m hm
    rcases List.mem_cons.mp hm with rfl | hm
    · show k ≤ k
      omega
    · have := ih (k + 1) m hm
      omega

theorem dup_map_ge :
    ∀ (body : List Node) (k j : Nat), nodes_has body j = true →
    k ≤ remap_get (dup_map body k) j := by
  intro body
  induction body with
  | nil => intro k j hj; cases hj
  | cons n rest ih =>
    intro k j hj
    rw [dup_map, remap_get, List.find?_cons]
    rcases hn : ((n.id, k).1 == j)
    · have hj' : nodes_has rest j = true := by
        rcases List.any_eq_true.mp hj with ⟨m, hm, hmj⟩
        rcases List.mem_cons.mp hm with rfl | hm
        · exact absurd hmj (by simp at hn ⊢; simpa using hn)
        · exact List.any_eq_true.mpr ⟨m, hm, hmj⟩
      have := ih (k + 1) j hj'
      rw [remap_get] at this
      show k ≤ ((List.find? (fun p => p.1 == j) (dup_map rest (k + 1))).map Prod.snd).getD 0
      omega
    · show k ≤ ((some (n.id, k)).map Prod.snd).getD 0
      simp

theorem foldl_dup (tg : String) (d : Vec2) :
    ∀ (body : List Node) (s0 : Orchestration) (m0 : List (Nat × Nat)),
    ((body.foldl (fun (p : Orchestration × List (Nat × Nat)) node =>
        let new_id := p.1.next_id
        (p.1.add_node tg { node with id := new_id, position := node.position + d },
         p.2 ++ [(node.id, new_id)])) (s0, m0))).1.nodes
      = s0.nodes ++ dup_nodes d body s0.next_id ∧
    ((body.foldl (fun (p : Orchestration × List (Nat × Nat)) node =>
        let new_id := p.1.next_id
        (p.1.add_node tg { node with id := new_id, position := node.position + d },
         p.2 ++ [(node.id, new_id)])) (s0, m0))).1.connections = s0.connections ∧
    ((body.foldl (fun (p : Orchestration × List (Nat × Nat)) node =>
        let new_id := p.1.next_id
        (p.1.add_node tg { node with id := new_id, position := node.position + d },
         p.2 ++ [(node.id, new_id)])) (s0, m0))).1.functions = s0.functions ∧
    ((body.foldl (fun (p : Orchestration × List (Nat × Nat)) node =>
        let new_id := p.1.next_id
        (p.1.add_node tg { node with id := new_id, position := node.position + d },
         p.2 ++ [(node.id, new_id)])) (s0, m0))).1.graphs
      = s0.graphs.map (fun g => if g.graph_name == tg then
          { g with node_ids := g.node_ids ++ dup_ids body s0.next_id } else g) ∧
    ((body.foldl (fun (p : Orchestration × List (Nat × Nat)) node =>
        let new_id := p.1.next_id
        (p.1.add_node tg { node with id := new_id, position := node.position + d },
         p.2 ++ [(node.id, new_id)])) (s0, m0))).1.next_id = s0.next_id + body.length ∧
    ((body.foldl (fun (p : Orchestration × List (Nat × Nat)) node =>
        let new_id := p.1.next_id
        (p.1.add_node tg { node with id := new_id, position := node.position + d },
         p.2 ++ [(node.id, new_id)])) (s0, m0))).2 = m0 ++ dup_map body s0.next_id := by
  intro body
  induction body with
  | nil =>
    intro s0 m0
    refine ⟨by simp [dup_nodes], rfl, rfl, ?_, rfl, by simp [dup_map]⟩
    rw [eq_comm]
    apply map_if_id
    intro g _
    simp [dup_ids]
  | cons n rest ih =>
    intro s0 m0
    rw [List.foldl_cons]
    obtain ⟨ihn, ihc, ihf, ihg, ihi, ihm⟩ := ih
      (s0.add_node tg { n with id := s0.next_id, position := n.position + d })
      (m0 ++ [(n.id, s0.next_id)])
    refine ⟨?_, ?_, ?_, ?_, ?_, ?_⟩
    · rw [ihn]
      show (s0.nodes ++ [_]) ++ dup_nodes d rest (s0.next_id + 1) = _
      rw [dup_nodes, List.append_assoc]
      rfl
    · rw [ihc]
      rfl
    · rw [ihf]
      rfl
    · rw [ihg]
      show (s0.graphs.map _).map _ = _
      rw [List.map_map]
      apply List.map_congr_left
      intro g _
      by_cases hg : (g.graph_name == tg) = true
      · simp only [Function.comp, hg, if_true]
        rw [dup_ids, List.append_assoc]
        rfl
      · simp only [Function.comp, hg, Bool.false_eq_true, if_false]
    · rw [ihi]
      show s0.next_id + 1 + rest.length = _
      rw [List.length_cons]
      omega
    · rw [ihm, dup_map, List.append_assoc]
      rfl

theorem foldl_link_gen (f : Connection → Connection) :
    ∀ (l : List Connection) (s0 : Orchestration),
    (l.foldl (fun s E => s.link (f E)) s0).connections = s0.connections ++ l.map f ∧
    (l.foldl (fun s E => s.link (f E)) s0).nodes = s0.nodes ∧
    (l.foldl (fun s E => s.link (f E)) s0).functions = s0.functions ∧
    (l.foldl (fun s E => s.link (f E)) s0).graphs = s0.graphs ∧
    (l.foldl (fun s E => s.link (f E)) s0).next_id = s0.next_id := by
  intro l
  induction l with
  | nil =>
    intro s0
    refine ⟨by simp, rfl, rfl, rfl, rfl⟩
  | cons E rest ih =>
    intro s0
    rw [List.foldl_cons]
    obtain ⟨ihc, ihn, ihf, ihg, ihi⟩ := ih (s0.link (f E))
    refine ⟨?_, ihn, ihf, ihg, ihi⟩
    rw [ihc]
    show (s0.connections ++ [f E]) ++ rest.map f = _
    rw [List.map_cons, List.append_assoc]
    rfl

end OModel

namespace OModel

/-- Characterization of _expand_node when every guard passes: the body nodes
are duplicated into the target subgraph at the common anchored offset, their
internal wiring is recreated through the id remap, and the Call node is
removed. -/
theorem expand_node_spec (st : Orchestration) (p : Nat) (tg : String)
    (hplt : p < st.next_id)
    (call : Node) (hcall : st.get_node p = some call)
    (fname : String) (hkind : call.kind = NodeKind.callScriptFunction fname)
    (fn : OScriptFunction) (hfn : st.functions.find? (fun f => f.fn_name == fname) = some fn)
    (hbody : function_body_nodes st fname ≠ []) :
    expand_node st p tg
    = { nodes := st.nodes.filter (fun n => !(n.id == p))
          ++ dup_nodes (call.position
              - (get_node_set_rect (function_body_nodes st fname)).get_center)
            (function_body_nodes st fname) st.next_id,
        connections := (st.connections.filter
            (fun c => !(c.from_node == p) && !(c.to_node == p)))
          ++ (st.connections.filter
              (fun c => nodes_has (function_body_nodes st fname) c.from_node
                && nodes_has (function_body_nodes st fname) c.to_node)).map
            (fun E => (⟨remap_get (dup_map (function_body_nodes st fname) st.next_id) E.from_node,
                E.from_port,
                remap_get (dup_map (function_body_nodes st fname) st.next_id) E.to_node,
                E.to_port⟩ : Connection)),
        graphs := st.graphs.map (fun g => { g with node_ids := (if g.graph_name == tg then g.node_ids ++ dup_ids (function_body_nodes st fname) st.next_id else g.node_ids).filter (fun i => !(i == p)) }),
        functions := st.functions,
        next_id := st.next_id + (function_body_nodes st fname).length } := by
  have hbody' : (function_body_nodes st fname).isEmpty = false := by
    cases hx : function_body_nodes st fname with
    | nil => exact absurd hx hbody
    | cons a l => rfl
  unfold expand_node
  rw [hcall]
  show (match call.kind with
    | NodeKind.callScriptFunction fname => _
    | _ => st) = _
  rw [hkind]
  show (match st.functions.find? (fun f => f.fn_name == fname) with
    | none => st
    | some _fn => _) = _
  rw [hfn]
  show (if (function_body_nodes st fname).isEmpty then st else _) = _
  rw [hbody']
  simp only [Bool.false_eq_true, if_false]
  obtain ⟨hdn, hdc, hdf, hdg, hdi, hdm⟩ :=
    foldl_dup tg (call.position - (get_node_set_rect (function_body_nodes st fname)).get_center)
      (function_body_nodes st fname) st []
  obtain ⟨hlc, hln, hlf, hlg, hli⟩ :=
    foldl_link_gen (fun E =>
      (⟨remap_get ((function_body_nodes st fname).foldl (fun (p : Orchestration × List (Nat × Nat)) node =>
            let new_id := p.1.next_id
            (p.1.add_node tg { node with id := new_id, position := node.position
              + (call.position - (get_node_set_rect (function_body_nodes st fname)).get_center) },
             p.2 ++ [(node.id, new_id)])) (st, [])).2 E.from_node, E.from_port,
        remap_get ((function_body_nodes st fname).foldl (fun (p : Orchestration × List (Nat × Nat)) node =>
            let new_id := p.1.next_id
            (p.1.add_node tg { node with id := new_id, position := node.position
              + (call.position - (get_node_set_rect (function_body_nodes st fname)).get_center) },
             p.2 ++ [(node.id, new_id)])) (st, [])).2 E.to_node, E.to_port⟩ : Connection))
      (resolve_node_set_connections
        ((function_body_nodes st fname).foldl (fun (p : Orchestration × List (Nat × Nat)) node =>
            let new_id := p.1.next_id
            (p.1.add_node tg { node with id := new_id, position := node.position
              + (call.position - (get_node_set_rect (function_body_nodes st fname)).get_center) },
             p.2 ++ [(node.id, new_id)])) (st, [])).1
        (function_body_nodes st fname)).connections
      ((function_body_nodes st fname).foldl (fun (p : Orchestration × List (Nat × Nat)) node =>
            let new_id := p.1.next_id
            (p.1.add_node tg { node with id := new_id, position := node.position
              + (call.position - (get_node_set_rect (function_body_nodes st fname)).get_center) },
             p.2 ++ [(node.id, new_id)])) (st, [])).1
  simp only [] at hlc hln hlf hlg hli
  show Orchestration.remove_node _ p = _
  unfold Orchestration.remove_node
  apply orch_ext
  · dsimp only
    rw [hln, hdn, List.filter_append]
    congr 1
    apply List.filter_eq_self.mpr
    intro m hm
    have := dup_nodes_id_ge _ _ _ m hm
    simp only [Bool.not_eq_true', beq_eq_false_iff_ne, ne_eq]
    omega
  · dsimp only
    rw [hlc]
    simp only [resolve_node_set_connections]
    rw [hdc, hdm, List.nil_append, List.filter_append]
    congr 1
    apply List.filter_eq_self.mpr
    intro c hc
    obtain ⟨E, hE, rfl⟩ := List.mem_map.mp hc
    have hEb := (List.mem_filter.mp hE).2
    simp only [Bool.and_eq_true] at hEb
    obtain ⟨hf1, hf2⟩ := hEb
    have h1 := dup_map_ge (function_body_nodes st fname) st.next_id E.from_node hf1
    have h2 := dup_map_ge (function_body_nodes st fname) st.next_id E.to_node hf2
    simp only [Bool.and_eq_true, Bool.not_eq_true', beq_eq_false_iff_ne, ne_eq]
    constructor <;> omega
  · dsimp only
    rw [hlg, hdg, List.map_map]
    apply List.map_congr_left
    intro g _
    by_cases hg : (g.graph_name == tg) = true
    · simp only [Function.comp, hg, if_true]
    · simp only [Function.comp, hg, Bool.false_eq_true, if_false]
  · dsimp only
    rw [hlf, hdf]
  · dsimp only
    rw [hli, hdi]

end OModel

namespace OModel

theorem dup_map_snd_ge :
    ∀ (body : List Node) (k : Nat) (q v : Nat), (q, v) ∈ dup_map body k → k ≤ v := by
  intro body
  induction body with
  | nil => intro k q v hm; cases hm
  | cons n rest ih =>
    intro k q v hm
    rcases List.mem_cons.mp hm with h | h
    · cases h
      omega
    · have := ih (k + 1) q v h
      omega

theorem dup_map_mem_of_has :
    ∀ (body : List Node) (k j : Nat), nodes_has body j = true →
    ∃ q, (q, remap_get (dup_map body k) j) ∈ dup_map body k := by
  intro body
  induction body with
  | nil => intro k j hj; cases hj
  | cons n rest ih =>
    intro k j hj
    rcases hn : (n.id == j)
    · have hj' : nodes_has rest j = true := by
        rcases List.any_eq_true.mp hj with ⟨m, hm, hmj⟩
        rcases List.mem_cons.mp hm with rfl | hm
        · exact absurd hmj (by simp at hn ⊢; simpa using hn)
        · exact List.any_eq_true.mpr ⟨m, hm, hmj⟩
      obtain ⟨q, hq⟩ := ih (k + 1) j hj'
      refine ⟨q, ?_⟩
      have hrm : remap_get (dup_map (n :: rest) k) j = remap_get (dup_map rest (k + 1)) j := by
        rw [dup_map, remap_get, remap_get]
        simp only [List.find?_cons, hn]
      rw [hrm]
      exact List.mem_cons_of_mem _ hq
    · refine ⟨n.id, ?_⟩
      have hrm : remap_get (dup_map (n :: rest) k) j = k := by
        rw [dup_map, remap_get]
        simp only [List.find?_cons, hn]
        rfl
      rw [hrm]
      exact List.mem_cons_self _ _

theorem dup_map_inj (body : List Node) (hnd : (body.map (fun n => n.id)).Nodup)
    (k x y : Nat) (hx : nodes_has body x = true) (hy : nodes_has body y = true)
    (heq : remap_get (dup_map body k) x = remap_get (dup_map body k) y) : x = y := by
  induction body generalizing k with
  | nil => cases hx
  | cons n rest ih =>
    rw [List.map_cons, List.nodup_cons] at hnd
    have htail : ∀ j : Nat, (n.id == j) = false → nodes_has (n :: rest) j = true →
        nodes_has rest j = true := by
      intro j hj hh
      rcases List.any_eq_true.mp hh with ⟨m, hm, hmj⟩
      rcases List.mem_cons.mp hm with rfl | hm
      · exact absurd hmj (by simp at hj ⊢; simpa using hj)
      · exact List.any_eq_true.mpr ⟨m, hm, hmj⟩
    have hstep : ∀ j : Nat, (n.id == j) = false →
        remap_get (dup_map (n :: rest) k) j = remap_get (dup_map rest (k + 1)) j := by
      intro j hj
      rw [dup_map, remap_get, remap_get]
      simp only [List.find?_cons, hj]
    have hhead : ∀ j : Nat, (n.id == j) = true → remap_get (dup_map (n :: rest) k) j = k := by
      intro j hj
      rw [dup_map, remap_get]
      simp only [List.find?_cons, hj]
      rfl
    rcases hnx : (n.id == x) <;> rcases hny : (n.id == y)
    · exact ih hnd.2 (k + 1) (htail x hnx hx) (htail y hny hy)
        (by rw [hstep x hnx, hstep y hny] at heq; exact heq)
    · exfalso
      have hgx := dup_map_ge rest (k + 1) x (htail x hnx hx)
      rw [hstep x hnx, hhead y hny] at heq
      omega
    · exfalso
      have hgy := dup_map_ge rest (k + 1) y (htail y hny hy)
      rw [hstep y hny, hhead x hnx] at heq
      omega
    · have h1 : n.id = x := beq_iff_eq.mp hnx
      have h2 : n.id = y := beq_iff_eq.mp hny
      omega

theorem dup_nodes_length (d : Vec2) :
    ∀ (body : List Node) (k : Nat), (dup_nodes d body k).length = body.length := by
  intro body
  induction body with
  | nil => intro k; rfl
  | cons n rest ih =>
    intro k
    rw [dup_nodes, List.length_cons, List.length_cons, ih]

theorem dup_nodes_map_mem (d : Vec2) :
    ∀ (body : List Node), (body.map (fun n => n.id)).Nodup →
    ∀ (k : Nat) (n : Node), n ∈ body →
    ∃ m ∈ dup_nodes d body k, m.id = remap_get (dup_map body k) n.id
      ∧ m.position = n.position + d ∧ m.inputs = n.inputs ∧ m.outputs = n.outputs
      ∧ m.kind = n.kind ∧ m.can_duplicate = n.can_duplicate := by
  intro body
  induction body with
  | nil => intro _ k n hn; cases hn
  | cons a rest ih =>
    intro hnd k n hn
    rw [List.map_cons, List.nodup_cons] at hnd
    rcases List.mem_cons.mp hn with rfl | hn
    · refine ⟨{ n with id := k, position := n.position + d }, List.mem_cons_self _ _, ?_,
        rfl, rfl, rfl, rfl, rfl⟩
      show k = remap_get (dup_map (n :: rest) k) n.id
      rw [dup_map, remap_get]
      simp only [List.find?_cons, beq_self_eq_true]
      rfl
    · obtain ⟨m, hm, h1, h2, h3, h4, h5, h6⟩ := ih hnd.2 (k + 1) n hn
      refine ⟨m, List.mem_cons_of_mem _ hm, ?_, h2, h3, h4, h5, h6⟩
      rw [h1]
      have hane : (a.id == n.id) = false := by
        simp only [beq_eq_false_iff_ne, ne_eq]
        intro hco
        exact hnd.1 (hco ▸ List.mem_map.mpr ⟨n, hn, rfl⟩)
      rw [dup_map, remap_get, remap_get]
      simp only [List.find?_cons, hane]

end OModel

namespace OModel

theorem filterMap_map_of_some {α β : Type} (g : β → Option α) (f : α → β) :
    ∀ (l : List α), (∀ n ∈ l, g (f n) = some n) → List.filterMap g (l.map f) = l := by
  intro l
  induction l with
  | nil => intro _; rfl
  | cons a rest ih =>
    intro h
    rw [List.map_cons, List.filterMap_cons, h a (List.mem_cons_self a rest),
      ih (fun n hn => h n (List.mem_cons_of_mem a hn))]

theorem spec_conns_bound (st : Orchestration) (src_graph : String) (selected : List Node)
    (hwf : st.wf_ids) (hwc : st.wf_conns) :
    ∀ c ∈ (collapse_spec_state st src_graph selected).connections,
    c.from_node < st.next_id + 3 ∧ c.to_node < st.next_id + 3 := by
  have hb : ∀ c ∈ st.connections, c.from_node < st.next_id ∧ c.to_node < st.next_id :=
    fun c hc => conn_endpoint_bounds st hwf hwc c hc
  have hbIn : ∀ E ∈ (resolve_node_set_connections st selected).inputs,
      E.from_node < st.next_id ∧ E.to_node < st.next_id :=
    fun E hE => hb E (List.mem_of_mem_filter hE)
  have hbOut : ∀ E ∈ (resolve_node_set_connections st selected).outputs,
      E.from_node < st.next_id ∧ E.to_node < st.next_id :=
    fun E hE => hb E (List.mem_of_mem_filter hE)
  intro c hc
  simp only [collapse_spec_state] at hc
  rw [List.mem_append, List.mem_append, List.mem_append, List.mem_append] at hc
  rcases hc with (((hm | hm) | hm) | hm) | hm
  · have := hb c (List.mem_of_mem_filter hm)
    omega
  · rcases in_wires_shape _ _ _ _ _ _ _ _ _ c hm with ⟨h1, E, hE, h2⟩ | ⟨h1, E, hE, h2⟩
    · have := (hbIn E hE).1
      omega
    · have := (hbIn E hE).2
      omega
  · obtain ⟨h1, E, hE, h2⟩ := out_wires_shape _ _ _ _ _ c hm
    have := (hbOut E hE).1
    omega
  · split at hm
    · rw [List.mem_singleton.mp hm]
      constructor <;> simp
    · cases hm
  · obtain ⟨h1, E, hE, h2⟩ := callout_wires_shape _ _ _ _ _ c hm
    have := (hbOut E hE).2
    omega

theorem filter_parts2 {α : Type} (p : α → Bool) (l1 l2 l3 l4 l5 : List α)
    (h2 : l2.filter p = []) (h3 : l3.filter p = []) (h4 : l4.filter p = [])
    (h5 : l5.filter p = []) :
    (l1 ++ l2 ++ l3 ++ l4 ++ l5).filter p = l1.filter p := by
  simp only [List.filter_append, h2, h3, h4, h5, List.append_nil]

theorem spec_internal_eq (st : Orchestration) (src_graph : String) (selected : List Node)
    (hwf : st.wf_ids) (hwc : st.wf_conns)
    (hsel : ∀ n ∈ selected, n ∈ st.nodes) :
    (collapse_spec_state st src_graph selected).connections.filter
        (fun c => nodes_has selected c.from_node && nodes_has selected c.to_node)
      = st.connections.filter
        (fun c => nodes_has selected c.from_node && nodes_has selected c.to_node) := by
  have hb : ∀ c ∈ st.connections, c.from_node < st.next_id ∧ c.to_node < st.next_id :=
    fun c hc => conn_endpoint_bounds st hwf hwc c hc
  have hhas : ∀ j : Nat, st.next_id ≤ j → nodes_has selected j = false := by
    intro j hj
    rw [nodes_has_false_iff]
    intro n hn
    have := hwf.2 n (hsel n hn)
    omega
  simp only [collapse_spec_state]
  refine Eq.trans (filter_parts2 _ _ _ _ _ _ ?_ ?_ ?_ ?_) ?_
  · apply filter_eq_nil_of_all
    intro c hc
    rcases in_wires_shape _ _ _ _ _ _ _ _ _ c hc with ⟨h1, E, hE, h2⟩ | ⟨h1, E, hE, h2⟩
    · rw [h1, hhas (st.next_id + 2) (by omega)]
      simp
    · rw [h1, hhas st.next_id (by omega)]
      simp
  · apply filter_eq_nil_of_all
    intro c hc
    obtain ⟨h1, E, hE, h2⟩ := out_wires_shape _ _ _ _ _ c hc
    rw [h1, hhas (st.next_id + 1) (by omega)]
    simp
  · apply filter_eq_nil_of_all
    intro a ha
    split at ha
    · rw [List.mem_singleton.mp ha]
      show (nodes_has selected st.next_id && _) = false
      rw [hhas st.next_id (by omega)]
      simp
    · cases ha
  · apply filter_eq_nil_of_all
    intro c hc
    obtain ⟨h1, E, hE, h2⟩ := callout_wires_shape _ _ _ _ _ c hc
    rw [h1, hhas (st.next_id + 2) (by omega)]
    simp
  · rw [List.filter_filter]
    apply List.filter_congr
    intro c hc
    rcases hboth : (nodes_has selected c.from_node && nodes_has selected c.to_node)
    · simp
    · have hboth' := hboth
      simp only [Bool.and_eq_true] at hboth'
      obtain ⟨hf, ht⟩ := hboth'
      have h1 : (decide (c ∈ (resolve_node_set_connections st selected).inputs)) = false := by
        rcases hx : (decide (c ∈ (resolve_node_set_connections st selected).inputs))
        · rfl
        · exfalso
          have hmem := of_decide_eq_true hx
          have := List.mem_filter.mp hmem
          rw [hf] at this
          simp at this
      have h2 : (decide (c ∈ (resolve_node_set_connections st selected).outputs)) = false := by
        rcases hx : (decide (c ∈ (resolve_node_set_connections st selected).outputs))
        · rfl
        · exfalso
          have hmem := of_decide_eq_true hx
          have := List.mem_filter.mp hmem
          rw [ht] at this
          simp at this
      rw [h1, h2]
      simp

end OModel

namespace OModel

theorem spec_call_facts (st : Orchestration) (src_graph : String) (selected : List Node)
    (hwf : st.wf_ids)
    (hfn : ∀ f ∈ st.functions, (f.fn_name == collapse_fname st) = false) :
    (collapse_spec_state st src_graph selected).get_node (st.next_id + 2)
      = some ⟨st.next_id + 2, (get_node_set_rect selected).get_center, [execPin], [execPin],
          true, NodeKind.callScriptFunction (collapse_fname st)⟩ ∧
    (collapse_spec_state st src_graph selected).functions.find?
        (fun f => f.fn_name == collapse_fname st)
      = some ⟨collapse_fname st,
          in_args (target_pin_of st) (resolve_node_set_connections st selected).inputs,
          (out_ret (source_pin_of st) (resolve_node_set_connections st selected).outputs
            false).isSome,
          (out_ret (source_pin_of st) (resolve_node_set_connections st selected).outputs
            false).getD 0,
          st.next_id, some (st.next_id + 1)⟩ := by
  have hpre : ∀ j : Nat, st.next_id ≤ j → st.nodes.find? (fun n => n.id == j) = none :=
    fun j hj => get_node_none_of_ge st hwf.2 j hj
  constructor
  · show (collapse_spec_state st src_graph selected).nodes.find? _ = _
    simp only [collapse_spec_state]
    rw [List.find?_append, hpre (st.next_id + 2) (by omega),
      List.find?_cons_of_neg _ (by split <;> simp),
      List.find?_cons_of_neg _ (by simp),
      List.find?_cons_of_pos _ (by simp)]
    rfl
  · simp only [collapse_spec_state]
    rw [List.find?_append, List.find?_eq_none.mpr (fun f hf => by
        rw [hfn f hf]
        simp),
      List.find?_cons_of_pos _ (by simp)]
    rfl

theorem spec_body_eq (st : Orchestration) (src_graph : String) (selected : List Node)
    (hwf : st.wf_ids)
    (hsel : ∀ n ∈ selected, n ∈ st.nodes)
    (hkinds : ∀ n ∈ selected,
      is_entry_kind n.kind = false ∧ is_result_kind n.kind = false)
    (hdupAll : ∀ n ∈ selected, n.can_duplicate = true)
    (hcol : st.graphs.any (fun g => g.graph_name == collapse_fname st) = false) :
    function_body_nodes (collapse_spec_state st src_graph selected) (collapse_fname st)
      = selected := by
  have hpre : ∀ j : Nat, st.next_id ≤ j → st.nodes.find? (fun n => n.id == j) = none :=
    fun j hj => get_node_none_of_ge st hwf.2 j hj
  have hgname : ∀ g ∈ st.graphs, (g.graph_name == collapse_fname st) = false :=
    graphs_not_fname st hcol
  unfold function_body_nodes
  have hfind : (collapse_spec_state st src_graph selected).graphs.find?
      (fun g => g.graph_name == collapse_fname st)
      = some ⟨collapse_fname st,
          [st.next_id, st.next_id + 1] ++ selected.map (fun n => n.id)⟩ := by
    simp only [collapse_spec_state]
    rw [List.find?_append, List.find?_eq_none.mpr (fun g hg => by
        obtain ⟨g0, hg0, rfl⟩ := List.mem_map.mp hg
        have := hgname g0 hg0
        by_cases hs : (g0.graph_name == src_graph) = true
        · rw [if_pos hs]
          rw [show ({ g0 with node_ids := (List.filter
              (fun i => !((selected.map (fun n => n.id)).contains i)) g0.node_ids)
                ++ [st.next_id + 2] } : OScriptGraph).graph_name = g0.graph_name from rfl,
            this]
          simp
        · rw [if_neg hs, this]
          simp),
      List.find?_cons_of_pos _ (by simp)]
    rfl
  rw [hfind]
  have hgeE : (collapse_spec_state st src_graph selected).get_node st.next_id
      = some (if ((0 < (⟨st.next_id + 1, first_source_pos (source_pos_of st) (resolve_node_set_connections st selected).outputs false ((⟨0, 0⟩ : Vec2) + ⟨300, 0⟩), [execPin] ++ (match (out_ret (source_pin_of st) (resolve_node_set_connections st selected).outputs false) with | some T => [(⟨"return value", T, false⟩ : Pin)] | none => []), [], false, NodeKind.functionResult⟩ : Node).inputs.length && !(((List.filter (fun d => !(decide (d ∈ (resolve_node_set_connections st selected).inputs)) && !(decide (d ∈ (resolve_node_set_connections st selected).outputs))) st.connections) ++ (in_wires (source_pin_of st) (target_pin_of st) (st.next_id + 2) st.next_id (resolve_node_set_connections st selected).inputs 1 1 false false) ++ (out_wires (source_pin_of st) (st.next_id + 1) (resolve_node_set_connections st selected).outputs false false)).any (fun c => c.to_node == st.next_id + 1 && c.to_port == 0))) && (0 < (⟨st.next_id, first_target_pos (target_pos_of st) (resolve_node_set_connections st selected).inputs false ⟨0, 0⟩, [], [execPin] ++ (in_args (target_pin_of st) (resolve_node_set_connections st selected).inputs).map (fun a => (⟨a.1, a.2, false⟩ : Pin)), false, NodeKind.functionEntry⟩ : Node).outputs.length && !(((List.filter (fun d => !(decide (d ∈ (resolve_node_set_connections st selected).inputs)) && !(decide (d ∈ (resolve_node_set_connections st selected).outputs))) st.connections) ++ (in_wires (source_pin_of st) (target_pin_of st) (st.next_id + 2) st.next_id (resolve_node_set_connections st selected).inputs 1 1 false false) ++ (out_wires (source_pin_of st) (st.next_id + 1) (resolve_node_set_connections st selected).outputs false false)).any (fun c => c.from_node == st.next_id && c.from_port == 0)))) && ((⟨st.next_id, first_target_pos (target_pos_of st) (resolve_node_set_connections st selected).inputs false ⟨0, 0⟩, [], [execPin] ++ (in_args (target_pin_of st) (resolve_node_set_connections st selected).inputs).map (fun a => (⟨a.1, a.2, false⟩ : Pin)), false, NodeKind.functionEntry⟩ : Node).outputs.length == 1) then { (⟨st.next_id, first_target_pos (target_pos_of st) (resolve_node_set_connections st selected).inputs false ⟨0, 0⟩, [], [execPin] ++ (in_args (target_pin_of st) (resolve_node_set_connections st selected).inputs).map (fun a => (⟨a.1, a.2, false⟩ : Pin)), false, NodeKind.functionEntry⟩ : Node) with position := (⟨st.next_id + 1, first_source_pos (source_pos_of st) (resolve_node_set_connections st selected).outputs false ((⟨0, 0⟩ : Vec2) + ⟨300, 0⟩), [execPin] ++ (match (out_ret (source_pin_of st) (resolve_node_set_connections st selected).outputs false) with | some T => [(⟨"return value", T, false⟩ : Pin)] | none => []), [], false, NodeKind.functionResult⟩ : Node).position - ⟨250, 0⟩ } else (⟨st.next_id, first_target_pos (target_pos_of st) (resolve_node_set_connections st selected).inputs false ⟨0, 0⟩, [], [execPin] ++ (in_args (target_pin_of st) (resolve_node_set_connections st selected).inputs).map (fun a => (⟨a.1, a.2, false⟩ : Pin)), false, NodeKind.functionEntry⟩ : Node)) := by
    show (collapse_spec_state st src_graph selected).nodes.find? _ = _
    simp only [collapse_spec_state]
    rw [List.find?_append, hpre st.next_id (by omega),
      List.find?_cons_of_pos _ (by split <;> simp)]
    rfl
  have hgeR : (collapse_spec_state st src_graph selected).get_node (st.next_id + 1)
      = some (⟨st.next_id + 1, first_source_pos (source_pos_of st) (resolve_node_set_connections st selected).outputs false ((⟨0, 0⟩ : Vec2) + ⟨300, 0⟩), [execPin] ++ (match (out_ret (source_pin_of st) (resolve_node_set_connections st selected).outputs false) with | some T => [(⟨"return value", T, false⟩ : Pin)] | none => []), [], false, NodeKind.functionResult⟩ : Node) := by
    show (collapse_spec_state st src_graph selected).nodes.find? _ = _
    simp only [collapse_spec_state]
    rw [List.find?_append, hpre (st.next_id + 1) (by omega),
      List.find?_cons_of_neg _ (by split <;> simp),
      List.find?_cons_of_pos _ (by simp)]
    rfl
  have hsome : ∀ n ∈ selected, (collapse_spec_state st src_graph selected).get_node n.id
      = some n := by
    intro n hn
    have hlt : n.id < st.next_id := hwf.2 n (hsel n hn)
    have hst : st.get_node n.id = some n := get_node_mem_nodup st hwf.1 n (hsel n hn)
    apply get_node_nodes_append st _ n.id n hst
    simp only [collapse_spec_state]
    rfl
  show (([st.next_id, st.next_id + 1] ++ selected.map (fun n => n.id)).filterMap
    (collapse_spec_state st src_graph selected).get_node).filter _ = _
  rw [List.filterMap_append]
  have h2 : ([st.next_id, st.next_id + 1].filterMap
      (collapse_spec_state st src_graph selected).get_node)
      = [(if ((0 < (⟨st.next_id + 1, first_source_pos (source_pos_of st) (resolve_node_set_connections st selected).outputs false ((⟨0, 0⟩ : Vec2) + ⟨300, 0⟩), [execPin] ++ (match (out_ret (source_pin_of st) (resolve_node_set_connections st selected).outputs false) with | some T => [(⟨"return value", T, false⟩ : Pin)] | none => []), [], false, NodeKind.functionResult⟩ : Node).inputs.length && !(((List.filter (fun d => !(decide (d ∈ (resolve_node_set_connections st selected).inputs)) && !(decide (d ∈ (resolve_node_set_connections st selected).outputs))) st.connections) ++ (in_wires (source_pin_of st) (target_pin_of st) (st.next_id + 2) st.next_id (resolve_node_set_connections st selected).inputs 1 1 false false) ++ (out_wires (source_pin_of st) (st.next_id + 1) (resolve_node_set_connections st selected).outputs false false)).any (fun c => c.to_node == st.next_id + 1 && c.to_port == 0))) && (0 < (⟨st.next_id, first_target_pos (target_pos_of st) (resolve_node_set_connections st selected).inputs false ⟨0, 0⟩, [], [execPin] ++ (in_args (target_pin_of st) (resolve_node_set_connections st selected).inputs).map (fun a => (⟨a.1, a.2, false⟩ : Pin)), false, NodeKind.functionEntry⟩ : Node).outputs.length && !(((List.filter (fun d => !(decide (d ∈ (resolve_node_set_connections st selected).inputs)) && !(decide (d ∈ (resolve_node_set_connections st selected).outputs))) st.connections) ++ (in_wires (source_pin_of st) (target_pin_of st) (st.next_id + 2) st.next_id (resolve_node_set_connections st selected).inputs 1 1 false false) ++ (out_wires (source_pin_of st) (st.next_id + 1) (resolve_node_set_connections st selected).outputs false false)).any (fun c => c.from_node == st.next_id && c.from_port == 0)))) && ((⟨st.next_id, first_target_pos (target_pos_of st) (resolve_node_set_connections st selected).inputs false ⟨0, 0⟩, [], [execPin] ++ (in_args (target_pin_of st) (resolve_node_set_connections st selected).inputs).map (fun a => (⟨a.1, a.2, false⟩ : Pin)), false, NodeKind.functionEntry⟩ : Node).outputs.length == 1) then { (⟨st.next_id, first_target_pos (target_pos_of st) (resolve_node_set_connections st selected).inputs false ⟨0, 0⟩, [], [execPin] ++ (in_args (target_pin_of st) (resolve_node_set_connections st selected).inputs).map (fun a => (⟨a.1, a.2, false⟩ : Pin)), false, NodeKind.functionEntry⟩ : Node) with position := (⟨st.next_id + 1, first_source_pos (source_pos_of st) (resolve_node_set_connections st selected).outputs false ((⟨0, 0⟩ : Vec2) + ⟨300, 0⟩), [execPin] ++ (match (out_ret (source_pin_of st) (resolve_node_set_connections st selected).outputs false) with | some T => [(⟨"return value", T, false⟩ : Pin)] | none => []), [], false, NodeKind.functionResult⟩ : Node).position - ⟨250, 0⟩ } else (⟨st.next_id, first_target_pos (target_pos_of st) (resolve_node_set_connections st selected).inputs false ⟨0, 0⟩, [], [execPin] ++ (in_args (target_pin_of st) (resolve_node_set_connections st selected).inputs).map (fun a => (⟨a.1, a.2, false⟩ : Pin)), false, NodeKind.functionEntry⟩ : Node)), (⟨st.next_id + 1, first_source_pos (source_pos_of st) (resolve_node_set_connections st selected).outputs false ((⟨0, 0⟩ : Vec2) + ⟨300, 0⟩), [execPin] ++ (match (out_ret (source_pin_of st) (resolve_node_set_connections st selected).outputs false) with | some T => [(⟨"return value", T, false⟩ : Pin)] | none => []), [], false, NodeKind.functionResult⟩ : Node)] := by
    rw [show ([st.next_id, st.next_id + 1] : List Nat)
        = st.next_id :: (st.next_id + 1) :: [] from rfl,
      List.filterMap_cons, List.filterMap_cons, hgeE, hgeR]
    rfl
  have h3 : (selected.map (fun n => n.id)).filterMap
      (collapse_spec_state st src_graph selected).get_node = selected :=
    filterMap_map_of_some _ _ selected hsome
  rw [h2, h3, List.filter_append]
  have hk1 : is_entry_kind (Node.kind (if ((0 < (⟨st.next_id + 1, first_source_pos (source_pos_of st) (resolve_node_set_connections st selected).outputs false ((⟨0, 0⟩ : Vec2) + ⟨300, 0⟩), [execPin] ++ (match (out_ret (source_pin_of st) (resolve_node_set_connections st selected).outputs false) with | some T => [(⟨"return value", T, false⟩ : Pin)] | none => []), [], false, NodeKind.functionResult⟩ : Node).inputs.length && !(((List.filter (fun d => !(decide (d ∈ (resolve_node_set_connections st selected).inputs)) && !(decide (d ∈ (resolve_node_set_connections st selected).outputs))) st.connections) ++ (in_wires (source_pin_of st) (target_pin_of st) (st.next_id + 2) st.next_id (resolve_node_set_connections st selected).inputs 1 1 false false) ++ (out_wires (source_pin_of st) (st.next_id + 1) (resolve_node_set_connections st selected).outputs false false)).any (fun c => c.to_node == st.next_id + 1 && c.to_port == 0))) && (0 < (⟨st.next_id, first_target_pos (target_pos_of st) (resolve_node_set_connections st selected).inputs false ⟨0, 0⟩, [], [execPin] ++ (in_args (target_pin_of st) (resolve_node_set_connections st selected).inputs).map (fun a => (⟨a.1, a.2, false⟩ : Pin)), false, NodeKind.functionEntry⟩ : Node).outputs.length && !(((List.filter (fun d => !(decide (d ∈ (resolve_node_set_connections st selected).inputs)) && !(decide (d ∈ (resolve_node_set_connections st selected).outputs))) st.connections) ++ (in_wires (source_pin_of st) (target_pin_of st) (st.next_id + 2) st.next_id (resolve_node_set_connections st selected).inputs 1 1 false false) ++ (out_wires (source_pin_of st) (st.next_id + 1) (resolve_node_set_connections st selected).outputs false false)).any (fun c => c.from_node == st.next_id && c.from_port == 0)))) && ((⟨st.next_id, first_target_pos (target_pos_of st) (resolve_node_set_connections st selected).inputs false ⟨0, 0⟩, [], [execPin] ++ (in_args (target_pin_of st) (resolve_node_set_connections st selected).inputs).map (fun a => (⟨a.1, a.2, false⟩ : Pin)), false, NodeKind.functionEntry⟩ : Node).outputs.length == 1) then { (⟨st.next_id, first_target_pos (target_pos_of st) (resolve_node_set_connections st selected).inputs false ⟨0, 0⟩, [], [execPin] ++ (in_args (target_pin_of st) (resolve_node_set_connections st selected).inputs).map (fun a => (⟨a.1, a.2, false⟩ : Pin)), false, NodeKind.functionEntry⟩ : Node) with position := (⟨st.next_id + 1, first_source_pos (source_pos_of st) (resolve_node_set_connections st selected).outputs false ((⟨0, 0⟩ : Vec2) + ⟨300, 0⟩), [execPin] ++ (match (out_ret (source_pin_of st) (resolve_node_set_connections st selected).outputs false) with | some T => [(⟨"return value", T, false⟩ : Pin)] | none => []), [], false, NodeKind.functionResult⟩ : Node).position - ⟨250, 0⟩ } else (⟨st.next_id, first_target_pos (target_pos_of st) (resolve_node_set_connections st selected).inputs false ⟨0, 0⟩, [], [execPin] ++ (in_args (target_pin_of st) (resolve_node_set_connections st selected).inputs).map (fun a => (⟨a.1, a.2, false⟩ : Pin)), false, NodeKind.functionEntry⟩ : Node))) = true := by
    split <;> rfl
  have hk2 : is_result_kind (Node.kind (⟨st.next_id + 1, first_source_pos (source_pos_of st) (resolve_node_set_connections st selected).outputs false ((⟨0, 0⟩ : Vec2) + ⟨300, 0⟩), [execPin] ++ (match (out_ret (source_pin_of st) (resolve_node_set_connections st selected).outputs false) with | some T => [(⟨"return value", T, false⟩ : Pin)] | none => []), [], false, NodeKind.functionResult⟩ : Node)) = true := rfl
  rw [show ([(if ((0 < (⟨st.next_id + 1, first_source_pos (source_pos_of st) (resolve_node_set_connections st selected).outputs false ((⟨0, 0⟩ : Vec2) + ⟨300, 0⟩), [execPin] ++ (match (out_ret (source_pin_of st) (resolve_node_set_connections st selected).outputs false) with | some T => [(⟨"return value", T, false⟩ : Pin)] | none => []), [], false, NodeKind.functionResult⟩ : Node).inputs.length && !(((List.filter (fun d => !(decide (d ∈ (resolve_node_set_connections st selected).inputs)) && !(decide (d ∈ (resolve_node_set_connections st selected).outputs))) st.connections) ++ (in_wires (source_pin_of st) (target_pin_of st) (st.next_id + 2) st.next_id (resolve_node_set_connections st selected).inputs 1 1 false false) ++ (out_wires (source_pin_of st) (st.next_id + 1) (resolve_node_set_connections st selected).outputs false false)).any (fun c => c.to_node == st.next_id + 1 && c.to_port == 0))) && (0 < (⟨st.next_id, first_target_pos (target_pos_of st) (resolve_node_set_connections st selected).inputs false ⟨0, 0⟩, [], [execPin] ++ (in_args (target_pin_of st) (resolve_node_set_connections st selected).inputs).map (fun a => (⟨a.1, a.2, false⟩ : Pin)), false, NodeKind.functionEntry⟩ : Node).outputs.length && !(((List.filter (fun d => !(decide (d ∈ (resolve_node_set_connections st selected).inputs)) && !(decide (d ∈ (resolve_node_set_connections st selected).outputs))) st.connections) ++ (in_wires (source_pin_of st) (target_pin_of st) (st.next_id + 2) st.next_id (resolve_node_set_connections st selected).inputs 1 1 false false) ++ (out_wires (source_pin_of st) (st.next_id + 1) (resolve_node_set_connections st selected).outputs false false)).any (fun c => c.from_node == st.next_id && c.from_port == 0)))) && ((⟨st.next_id, first_target_pos (target_pos_of st) (resolve_node_set_connections st selected).inputs false ⟨0, 0⟩, [], [execPin] ++ (in_args (target_pin_of st) (resolve_node_set_connections st selected).inputs).map (fun a => (⟨a.1, a.2, false⟩ : Pin)), false, NodeKind.functionEntry⟩ : Node).outputs.length == 1) then { (⟨st.next_id, first_target_pos (target_pos_of st) (resolve_node_set_connections st selected).inputs false ⟨0, 0⟩, [], [execPin] ++ (in_args (target_pin_of st) (resolve_node_set_connections st selected).inputs).map (fun a => (⟨a.1, a.2, false⟩ : Pin)), false, NodeKind.functionEntry⟩ : Node) with position := (⟨st.next_id + 1, first_source_pos (source_pos_of st) (resolve_node_set_connections st selected).outputs false ((⟨0, 0⟩ : Vec2) + ⟨300, 0⟩), [execPin] ++ (match (out_ret (source_pin_of st) (resolve_node_set_connections st selected).outputs false) with | some T => [(⟨"return value", T, false⟩ : Pin)] | none => []), [], false, NodeKind.functionResult⟩ : Node).position - ⟨250, 0⟩ } else (⟨st.next_id, first_target_pos (target_pos_of st) (resolve_node_set_connections st selected).inputs false ⟨0, 0⟩, [], [execPin] ++ (in_args (target_pin_of st) (resolve_node_set_connections st selected).inputs).map (fun a => (⟨a.1, a.2, false⟩ : Pin)), false, NodeKind.functionEntry⟩ : Node)), (⟨st.next_id + 1, first_source_pos (source_pos_of st) (resolve_node_set_connections st selected).outputs false ((⟨0, 0⟩ : Vec2) + ⟨300, 0⟩), [execPin] ++ (match (out_ret (source_pin_of st) (resolve_node_set_connections st selected).outputs false) with | some T => [(⟨"return value", T, false⟩ : Pin)] | none => []), [], false, NodeKind.functionResult⟩ : Node)] : List Node).filter
      (fun n => !is_entry_kind n.kind && !is_result_kind n.kind && n.can_duplicate) = []
    from by
      rw [List.filter_cons, List.filter_cons]
      rw [show (!is_entry_kind (Node.kind (if ((0 < (⟨st.next_id + 1, first_source_pos (source_pos_of st) (resolve_node_set_connections st selected).outputs false ((⟨0, 0⟩ : Vec2) + ⟨300, 0⟩), [execPin] ++ (match (out_ret (source_pin_of st) (resolve_node_set_connections st selected).outputs false) with | some T => [(⟨"return value", T, false⟩ : Pin)] | none => []), [], false, NodeKind.functionResult⟩ : Node).inputs.length && !(((List.filter (fun d => !(decide (d ∈ (resolve_node_set_connections st selected).inputs)) && !(decide (d ∈ (resolve_node_set_connections st selected).outputs))) st.connections) ++ (in_wires (source_pin_of st) (target_pin_of st) (st.next_id + 2) st.next_id (resolve_node_set_connections st selected).inputs 1 1 false false) ++ (out_wires (source_pin_of st) (st.next_id + 1) (resolve_node_set_connections st selected).outputs false false)).any (fun c => c.to_node == st.next_id + 1 && c.to_port == 0))) && (0 < (⟨st.next_id, first_target_pos (target_pos_of st) (resolve_node_set_connections st selected).inputs false ⟨0, 0⟩, [], [execPin] ++ (in_args (target_pin_of st) (resolve_node_set_connections st selected).inputs).map (fun a => (⟨a.1, a.2, false⟩ : Pin)), false, NodeKind.functionEntry⟩ : Node).outputs.length && !(((List.filter (fun d => !(decide (d ∈ (resolve_node_set_connections st selected).inputs)) && !(decide (d ∈ (resolve_node_set_connections st selected).outputs))) st.connections) ++ (in_wires (source_pin_of st) (target_pin_of st) (st.next_id + 2) st.next_id (resolve_node_set_connections st selected).inputs 1 1 false false) ++ (out_wires (source_pin_of st) (st.next_id + 1) (resolve_node_set_connections st selected).outputs false false)).any (fun c => c.from_node == st.next_id && c.from_port == 0)))) && ((⟨st.next_id, first_target_pos (target_pos_of st) (resolve_node_set_connections st selected).inputs false ⟨0, 0⟩, [], [execPin] ++ (in_args (target_pin_of st) (resolve_node_set_connections st selected).inputs).map (fun a => (⟨a.1, a.2, false⟩ : Pin)), false, NodeKind.functionEntry⟩ : Node).outputs.length == 1) then { (⟨st.next_id, first_target_pos (target_pos_of st) (resolve_node_set_connections st selected).inputs false ⟨0, 0⟩, [], [execPin] ++ (in_args (target_pin_of st) (resolve_node_set_connections st selected).inputs).map (fun a => (⟨a.1, a.2, false⟩ : Pin)), false, NodeKind.functionEntry⟩ : Node) with position := (⟨st.next_id + 1, first_source_pos (source_pos_of st) (resolve_node_set_connections st selected).outputs false ((⟨0, 0⟩ : Vec2) + ⟨300, 0⟩), [execPin] ++ (match (out_ret (source_pin_of st) (resolve_node_set_connections st selected).outputs false) with | some T => [(⟨"return value", T, false⟩ : Pin)] | none => []), [], false, NodeKind.functionResult⟩ : Node).position - ⟨250, 0⟩ } else (⟨st.next_id, first_target_pos (target_pos_of st) (resolve_node_set_connections st selected).inputs false ⟨0, 0⟩, [], [execPin] ++ (in_args (target_pin_of st) (resolve_node_set_connections st selected).inputs).map (fun a => (⟨a.1, a.2, false⟩ : Pin)), false, NodeKind.functionEntry⟩ : Node)))
          && !is_result_kind (Node.kind (if ((0 < (⟨st.next_id + 1, first_source_pos (source_pos_of st) (resolve_node_set_connections st selected).outputs false ((⟨0, 0⟩ : Vec2) + ⟨300, 0⟩), [execPin] ++ (match (out_ret (source_pin_of st) (resolve_node_set_connections st selected).outputs false) with | some T => [(⟨"return value", T, false⟩ : Pin)] | none => []), [], false, NodeKind.functionResult⟩ : Node).inputs.length && !(((List.filter (fun d => !(decide (d ∈ (resolve_node_set_connections st selected).inputs)) && !(decide (d ∈ (resolve_node_set_connections st selected).outputs))) st.connections) ++ (in_wires (source_pin_of st) (target_pin_of st) (st.next_id + 2) st.next_id (resolve_node_set_connections st selected).inputs 1 1 false false) ++ (out_wires (source_pin_of st) (st.next_id + 1) (resolve_node_set_connections st selected).outputs false false)).any (fun c => c.to_node == st.next_id + 1 && c.to_port == 0))) && (0 < (⟨st.next_id, first_target_pos (target_pos_of st) (resolve_node_set_connections st selected).inputs false ⟨0, 0⟩, [], [execPin] ++ (in_args (target_pin_of st) (resolve_node_set_connections st selected).inputs).map (fun a => (⟨a.1, a.2, false⟩ : Pin)), false, NodeKind.functionEntry⟩ : Node).outputs.length && !(((List.filter (fun d => !(decide (d ∈ (resolve_node_set_connections st selected).inputs)) && !(decide (d ∈ (resolve_node_set_connections st selected).outputs))) st.connections) ++ (in_wires (source_pin_of st) (target_pin_of st) (st.next_id + 2) st.next_id (resolve_node_set_connections st selected).inputs 1 1 false false) ++ (out_wires (source_pin_of st) (st.next_id + 1) (resolve_node_set_connections st selected).outputs false false)).any (fun c => c.from_node == st.next_id && c.from_port == 0)))) && ((⟨st.next_id, first_target_pos (target_pos_of st) (resolve_node_set_connections st selected).inputs false ⟨0, 0⟩, [], [execPin] ++ (in_args (target_pin_of st) (resolve_node_set_connections st selected).inputs).map (fun a => (⟨a.1, a.2, false⟩ : Pin)), false, NodeKind.functionEntry⟩ : Node).outputs.length == 1) then { (⟨st.next_id, first_target_pos (target_pos_of st) (resolve_node_set_connections st selected).inputs false ⟨0, 0⟩, [], [execPin] ++ (in_args (target_pin_of st) (resolve_node_set_connections st selected).inputs).map (fun a => (⟨a.1, a.2, false⟩ : Pin)), false, NodeKind.functionEntry⟩ : Node) with position := (⟨st.next_id + 1, first_source_pos (source_pos_of st) (resolve_node_set_connections st selected).outputs false ((⟨0, 0⟩ : Vec2) + ⟨300, 0⟩), [execPin] ++ (match (out_ret (source_pin_of st) (resolve_node_set_connections st selected).outputs false) with | some T => [(⟨"return value", T, false⟩ : Pin)] | none => []), [], false, NodeKind.functionResult⟩ : Node).position - ⟨250, 0⟩ } else (⟨st.next_id, first_target_pos (target_pos_of st) (resolve_node_set_connections st selected).inputs false ⟨0, 0⟩, [], [execPin] ++ (in_args (target_pin_of st) (resolve_node_set_connections st selected).inputs).map (fun a => (⟨a.1, a.2, false⟩ : Pin)), false, NodeKind.functionEntry⟩ : Node)))
          && (Node.can_duplicate (if ((0 < (⟨st.next_id + 1, first_source_pos (source_pos_of st) (resolve_node_set_connections st selected).outputs false ((⟨0, 0⟩ : Vec2) + ⟨300, 0⟩), [execPin] ++ (match (out_ret (source_pin_of st) (resolve_node_set_connections st selected).outputs false) with | some T => [(⟨"return value", T, false⟩ : Pin)] | none => []), [], false, NodeKind.functionResult⟩ : Node).inputs.length && !(((List.filter (fun d => !(decide (d ∈ (resolve_node_set_connections st selected).inputs)) && !(decide (d ∈ (resolve_node_set_connections st selected).outputs))) st.connections) ++ (in_wires (source_pin_of st) (target_pin_of st) (st.next_id + 2) st.next_id (resolve_node_set_connections st selected).inputs 1 1 false false) ++ (out_wires (source_pin_of st) (st.next_id + 1) (resolve_node_set_connections st selected).outputs false false)).any (fun c => c.to_node == st.next_id + 1 && c.to_port == 0))) && (0 < (⟨st.next_id, first_target_pos (target_pos_of st) (resolve_node_set_connections st selected).inputs false ⟨0, 0⟩, [], [execPin] ++ (in_args (target_pin_of st) (resolve_node_set_connections st selected).inputs).map (fun a => (⟨a.1, a.2, false⟩ : Pin)), false, NodeKind.functionEntry⟩ : Node).outputs.length && !(((List.filter (fun d => !(decide (d ∈ (resolve_node_set_connections st selected).inputs)) && !(decide (d ∈ (resolve_node_set_connections st selected).outputs))) st.connections) ++ (in_wires (source_pin_of st) (target_pin_of st) (st.next_id + 2) st.next_id (resolve_node_set_connections st selected).inputs 1 1 false false) ++ (out_wires (source_pin_of st) (st.next_id + 1) (resolve_node_set_connections st selected).outputs false false)).any (fun c => c.from_node == st.next_id && c.from_port == 0)))) && ((⟨st.next_id, first_target_pos (target_pos_of st) (resolve_node_set_connections st selected).inputs false ⟨0, 0⟩, [], [execPin] ++ (in_args (target_pin_of st) (resolve_node_set_connections st selected).inputs).map (fun a => (⟨a.1, a.2, false⟩ : Pin)), false, NodeKind.functionEntry⟩ : Node).outputs.length == 1) then { (⟨st.next_id, first_target_pos (target_pos_of st) (resolve_node_set_connections st selected).inputs false ⟨0, 0⟩, [], [execPin] ++ (in_args (target_pin_of st) (resolve_node_set_connections st selected).inputs).map (fun a => (⟨a.1, a.2, false⟩ : Pin)), false, NodeKind.functionEntry⟩ : Node) with position := (⟨st.next_id + 1, first_source_pos (source_pos_of st) (resolve_node_set_connections st selected).outputs false ((⟨0, 0⟩ : Vec2) + ⟨300, 0⟩), [execPin] ++ (match (out_ret (source_pin_of st) (resolve_node_set_connections st selected).outputs false) with | some T => [(⟨"return value", T, false⟩ : Pin)] | none => []), [], false, NodeKind.functionResult⟩ : Node).position - ⟨250, 0⟩ } else (⟨st.next_id, first_target_pos (target_pos_of st) (resolve_node_set_connections st selected).inputs false ⟨0, 0⟩, [], [execPin] ++ (in_args (target_pin_of st) (resolve_node_set_connections st selected).inputs).map (fun a => (⟨a.1, a.2, false⟩ : Pin)), false, NodeKind.functionEntry⟩ : Node)))) = false from by rw [hk1]; simp]
      rw [show (!is_entry_kind (Node.kind (⟨st.next_id + 1, first_source_pos (source_pos_of st) (resolve_node_set_connections st selected).outputs false ((⟨0, 0⟩ : Vec2) + ⟨300, 0⟩), [execPin] ++ (match (out_ret (source_pin_of st) (resolve_node_set_connections st selected).outputs false) with | some T => [(⟨"return value", T, false⟩ : Pin)] | none => []), [], false, NodeKind.functionResult⟩ : Node))
          && !is_result_kind (Node.kind (⟨st.next_id + 1, first_source_pos (source_pos_of st) (resolve_node_set_connections st selected).outputs false ((⟨0, 0⟩ : Vec2) + ⟨300, 0⟩), [execPin] ++ (match (out_ret (source_pin_of st) (resolve_node_set_connections st selected).outputs false) with | some T => [(⟨"return value", T, false⟩ : Pin)] | none => []), [], false, NodeKind.functionResult⟩ : Node))
          && (Node.can_duplicate (⟨st.next_id + 1, first_source_pos (source_pos_of st) (resolve_node_set_connections st selected).outputs false ((⟨0, 0⟩ : Vec2) + ⟨300, 0⟩), [execPin] ++ (match (out_ret (source_pin_of st) (resolve_node_set_connections st selected).outputs false) with | some T => [(⟨"return value", T, false⟩ : Pin)] | none => []), [], false, NodeKind.functionResult⟩ : Node))) = false from by rw [hk2]; simp]
      rfl]
  rw [List.nil_append]
  apply List.filter_eq_self.mpr
  intro n hn
  rw [(hkinds n hn).1, (hkinds n hn).2, hdupAll n hn]
  rfl

end OModel


namespace OModel

/-- C6: inline mechanics when the call node resolves to a valid Call node,
its Function resolves, and the body is non-empty: each body node is
duplicated at its position translated by the common offset, each internal
connection is recreated through the id remap, and the Call node is removed. -/
theorem c6_inline_mechanics (st : Orchestration) (p : Nat) (tg : String)
    (hwf : st.wf_ids)
    (call : Node) (hcall : st.get_node p = some call)
    (fname : String) (hkind : call.kind = NodeKind.callScriptFunction fname)
    (fn : OScriptFunction) (hfn : st.functions.find? (fun f => f.fn_name == fname) = some fn)
    (hbody : function_body_nodes st fname ≠ []) :
    expand_node st p tg
    = { nodes := st.nodes.filter (fun n => !(n.id == p))
          ++ dup_nodes (call.position
              - (get_node_set_rect (function_body_nodes st fname)).get_center)
            (function_body_nodes st fname) st.next_id,
        connections := (st.connections.filter
            (fun c => !(c.from_node == p) && !(c.to_node == p)))
          ++ (st.connections.filter
              (fun c => nodes_has (function_body_nodes st fname) c.from_node
                && nodes_has (function_body_nodes st fname) c.to_node)).map
            (fun E => (⟨remap_get (dup_map (function_body_nodes st fname) st.next_id) E.from_node,
                E.from_port,
                remap_get (dup_map (function_body_nodes st fname) st.next_id) E.to_node,
                E.to_port⟩ : Connection)),
        graphs := st.graphs.map (fun g => { g with node_ids := (if g.graph_name == tg then g.node_ids ++ dup_ids (function_body_nodes st fname) st.next_id else g.node_ids).filter (fun i => !(i == p)) }),
        functions := st.functions,
        next_id := st.next_id + (function_body_nodes st fname).length } := by
  have hpmem : call ∈ st.nodes := List.mem_of_find?_eq_some hcall
  have hpid : call.id = p := by
    have := List.find?_some hcall
    simpa using this
  exact expand_node_spec st p tg (hpid ▸ hwf.2 call hpmem) call hcall fname hkind fn hfn hbody

end OModel

namespace OModel

/-- C5: extract-then-inline round trip: inlining the Call node produced by a
successful extraction restores one duplicated node per originally selected
node with all positions translated by one common offset, recreates exactly
the original internal connection topology between the duplicates, and does
not produce any wiring between a restored node and the rest of the graph. -/
theorem c5_round_trip (st : Orchestration) (src_graph : String) (selected : List Node)
    (hne : selected ≠ [])
    (hsucc : (collapse_selected_to_function st src_graph selected).2 = none)
    (hwf : st.wf_ids) (hwc : st.wf_conns)
    (hfn : ∀ f ∈ st.functions, (f.fn_name == collapse_fname st) = false)
    (hsrcne : src_graph ≠ collapse_fname st)
    (hsel : ∀ n ∈ selected, n ∈ st.nodes)
    (hkinds : ∀ n ∈ selected,
      is_entry_kind n.kind = false ∧ is_result_kind n.kind = false)
    (hnodup : (selected.map (fun n => n.id)).Nodup) :
    (∃ delta : Vec2, ∀ n ∈ selected, ∃ m ∈ (expand_node ((collapse_selected_to_function st src_graph selected).1) (st.next_id + 2) src_graph).nodes,
        m.id = remap_get (dup_map selected (st.next_id + 3)) n.id
        ∧ m.position = n.position + delta ∧ m.inputs = n.inputs ∧ m.outputs = n.outputs
        ∧ m.kind = n.kind ∧ m.can_duplicate = n.can_duplicate) ∧
    (expand_node ((collapse_selected_to_function st src_graph selected).1) (st.next_id + 2) src_graph).nodes.length
      = ((collapse_selected_to_function st src_graph selected).1).nodes.length - 1
        + selected.length ∧
    (∀ i a j b : Nat, nodes_has selected i = true → nodes_has selected j = true →
      ((⟨remap_get (dup_map selected (st.next_id + 3)) i, a, remap_get (dup_map selected (st.next_id + 3)) j, b⟩ : Connection)
          ∈ (expand_node ((collapse_selected_to_function st src_graph selected).1) (st.next_id + 2) src_graph).connections
        ↔ (⟨i, a, j, b⟩ : Connection) ∈ st.connections)) ∧
    (∀ c ∈ (expand_node ((collapse_selected_to_function st src_graph selected).1) (st.next_id + 2) src_graph).connections,
      ((∃ q, (q, c.from_node) ∈ (dup_map selected (st.next_id + 3))) ↔ (∃ q, (q, c.to_node) ∈ (dup_map selected (st.next_id + 3))))) := by
  have hfi := collapse_final_eq st src_graph selected hne hsucc hwf hwc hfn hsrcne
  have h : collapse_selected_to_function st src_graph selected
      = ((collapse_selected_to_function st src_graph selected).1, none) := by
    rw [← hsucc]
  obtain ⟨hdup, hg1, hg2, hg3, hcol⟩ := collapse_success_conditions st src_graph selected _ h hne
  have hdupAll : ∀ n ∈ selected, n.can_duplicate = true := by
    intro n hn
    have := List.find?_eq_none.mp hdup n hn
    rcases hx : n.can_duplicate
    · exact absurd (by rw [hx]; rfl) this
    · rfl
  have hbody := spec_body_eq st src_graph selected hwf hsel hkinds hdupAll hcol
  obtain ⟨hgc, hgf⟩ := spec_call_facts st src_graph selected hwf hfn
  have hnid : (collapse_spec_state st src_graph selected).next_id = st.next_id + 3 := rfl
  have hExp := expand_node_spec (collapse_spec_state st src_graph selected) (st.next_id + 2)
    src_graph (by rw [hnid]; omega)
    (⟨st.next_id + 2, (get_node_set_rect selected).get_center, [execPin], [execPin], true, NodeKind.callScriptFunction (collapse_fname st)⟩ : Node) hgc (collapse_fname st) rfl
    (⟨collapse_fname st, (in_args (target_pin_of st) (resolve_node_set_connections st selected).inputs), (out_ret (source_pin_of st) (resolve_node_set_connections st selected).outputs false).isSome, (out_ret (source_pin_of st) (resolve_node_set_connections st selected).outputs false).getD 0, st.next_id, some (st.next_id + 1)⟩ : OScriptFunction) hgf (by rw [hbody]; exact hne)
  rw [hbody, hnid] at hExp
  rw [hfi, hExp]
  refine ⟨?_, ?_, ?_, ?_⟩
  · refine ⟨Node.position (⟨st.next_id + 2, (get_node_set_rect selected).get_center, [execPin], [execPin], true, NodeKind.callScriptFunction (collapse_fname st)⟩ : Node) - (get_node_set_rect selected).get_center, ?_⟩
    intro n hn
    obtain ⟨m, hm, h1, h2, h3, h4, h5, h6⟩ :=
      dup_nodes_map_mem _ selected hnodup (st.next_id + 3) n hn
    exact ⟨m, List.mem_append_right _ hm, h1, h2, h3, h4, h5, h6⟩
  · rw [List.length_append, dup_nodes_length]
    have hflt : ((collapse_spec_state st src_graph selected).nodes.filter
        (fun n => !(n.id == st.next_id + 2))).length = st.nodes.length + 2 := by
      simp only [collapse_spec_state]
      rw [List.filter_append, List.length_append,
        List.filter_eq_self.mpr (fun n hn => by
          have := hwf.2 n hn
          simp only [Bool.not_eq_true', beq_eq_false_iff_ne, ne_eq]
          omega),
        show (([(if ((0 < (⟨st.next_id + 1, first_source_pos (source_pos_of st) (resolve_node_set_connections st selected).outputs false ((⟨0, 0⟩ : Vec2) + ⟨300, 0⟩), [execPin] ++ (match (out_ret (source_pin_of st) (resolve_node_set_connections st selected).outputs false) with | some T => [(⟨"return value", T, false⟩ : Pin)] | none => []), [], false, NodeKind.functionResult⟩ : Node).inputs.length && !(((List.filter (fun d => !(decide (d ∈ (resolve_node_set_connections st selected).inputs)) && !(decide (d ∈ (resolve_node_set_connections st selected).outputs))) st.connections) ++ (in_wires (source_pin_of st) (target_pin_of st) (st.next_id + 2) st.next_id (resolve_node_set_connections st selected).inputs 1 1 false false) ++ (out_wires (source_pin_of st) (st.next_id + 1) (resolve_node_set_connections st selected).outputs false false)).any (fun c => c.to_node == st.next_id + 1 && c.to_port == 0))) && (0 < (⟨st.next_id, first_target_pos (target_pos_of st) (resolve_node_set_connections st selected).inputs false ⟨0, 0⟩, [], [execPin] ++ (in_args (target_pin_of st) (resolve_node_set_connections st selected).inputs).map (fun a => (⟨a.1, a.2, false⟩ : Pin)), false, NodeKind.functionEntry⟩ : Node).outputs.length && !(((List.filter (fun d => !(decide (d ∈ (resolve_node_set_connections st selected).inputs)) && !(decide (d ∈ (resolve_node_set_connections st selected).outputs))) st.connections) ++ (in_wires (source_pin_of st) (target_pin_of st) (st.next_id + 2) st.next_id (resolve_node_set_connections st selected).inputs 1 1 false false) ++ (out_wires (source_pin_of st) (st.next_id + 1) (resolve_node_set_connections st selected).outputs false false)).any (fun c => c.from_node == st.next_id && c.from_port == 0)))) && ((⟨st.next_id, first_target_pos (target_pos_of st) (resolve_node_set_connections st selected).inputs false ⟨0, 0⟩, [], [execPin] ++ (in_args (target_pin_of st) (resolve_node_set_connections st selected).inputs).map (fun a => (⟨a.1, a.2, false⟩ : Pin)), false, NodeKind.functionEntry⟩ : Node).outputs.length == 1) then { (⟨st.next_id, first_target_pos (target_pos_of st) (resolve_node_set_connections st selected).inputs false ⟨0, 0⟩, [], [execPin] ++ (in_args (target_pin_of st) (resolve_node_set_connections st selected).inputs).map (fun a => (⟨a.1, a.2, false⟩ : Pin)), false, NodeKind.functionEntry⟩ : Node) with position := (⟨st.next_id + 1, first_source_pos (source_pos_of st) (resolve_node_set_connections st selected).outputs false ((⟨0, 0⟩ : Vec2) + ⟨300, 0⟩), [execPin] ++ (match (out_ret (source_pin_of st) (resolve_node_set_connections st selected).outputs false) with | some T => [(⟨"return value", T, false⟩ : Pin)] | none => []), [], false, NodeKind.functionResult⟩ : Node).position - ⟨250, 0⟩ } else (⟨st.next_id, first_target_pos (target_pos_of st) (resolve_node_set_connections st selected).inputs false ⟨0, 0⟩, [], [execPin] ++ (in_args (target_pin_of st) (resolve_node_set_connections st selected).inputs).map (fun a => (⟨a.1, a.2, false⟩ : Pin)), false, NodeKind.functionEntry⟩ : Node)), (⟨st.next_id + 1, first_source_pos (source_pos_of st) (resolve_node_set_connections st selected).outputs false ((⟨0, 0⟩ : Vec2) + ⟨300, 0⟩), [execPin] ++ (match (out_ret (source_pin_of st) (resolve_node_set_connections st selected).outputs false) with | some T => [(⟨"return value", T, false⟩ : Pin)] | none => []), [], false, NodeKind.functionResult⟩ : Node), (⟨st.next_id + 2, (get_node_set_rect selected).get_center, [execPin], [execPin], true, NodeKind.callScriptFunction (collapse_fname st)⟩ : Node)] : List Node).filter
            (fun n => !(n.id == st.next_id + 2))) = [(if ((0 < (⟨st.next_id + 1, first_source_pos (source_pos_of st) (resolve_node_set_connections st selected).outputs false ((⟨0, 0⟩ : Vec2) + ⟨300, 0⟩), [execPin] ++ (match (out_ret (source_pin_of st) (resolve_node_set_connections st selected).outputs false) with | some T => [(⟨"return value", T, false⟩ : Pin)] | none => []), [], false, NodeKind.functionResult⟩ : Node).inputs.length && !(((List.filter (fun d => !(decide (d ∈ (resolve_node_set_connections st selected).inputs)) && !(decide (d ∈ (resolve_node_set_connections st selected).outputs))) st.connections) ++ (in_wires (source_pin_of st) (target_pin_of st) (st.next_id + 2) st.next_id (resolve_node_set_connections st selected).inputs 1 1 false false) ++ (out_wires (source_pin_of st) (st.next_id + 1) (resolve_node_set_connections st selected).outputs false false)).any (fun c => c.to_node == st.next_id + 1 && c.to_port == 0))) && (0 < (⟨st.next_id, first_target_pos (target_pos_of st) (resolve_node_set_connections st selected).inputs false ⟨0, 0⟩, [], [execPin] ++ (in_args (target_pin_of st) (resolve_node_set_connections st selected).inputs).map (fun a => (⟨a.1, a.2, false⟩ : Pin)), false, NodeKind.functionEntry⟩ : Node).outputs.length && !(((List.filter (fun d => !(decide (d ∈ (resolve_node_set_connections st selected).inputs)) && !(decide (d ∈ (resolve_node_set_connections st selected).outputs))) st.connections) ++ (in_wires (source_pin_of st) (target_pin_of st) (st.next_id + 2) st.next_id (resolve_node_set_connections st selected).inputs 1 1 false false) ++ (out_wires (source_pin_of st) (st.next_id + 1) (resolve_node_set_connections st selected).outputs false false)).any (fun c => c.from_node == st.next_id && c.from_port == 0)))) && ((⟨st.next_id, first_target_pos (target_pos_of st) (resolve_node_set_connections st selected).inputs false ⟨0, 0⟩, [], [execPin] ++ (in_args (target_pin_of st) (resolve_node_set_connections st selected).inputs).map (fun a => (⟨a.1, a.2, false⟩ : Pin)), false, NodeKind.functionEntry⟩ : Node).outputs.length == 1) then { (⟨st.next_id, first_target_pos (target_pos_of st) (resolve_node_set_connections st selected).inputs false ⟨0, 0⟩, [], [execPin] ++ (in_args (target_pin_of st) (resolve_node_set_connections st selected).inputs).map (fun a => (⟨a.1, a.2, false⟩ : Pin)), false, NodeKind.functionEntry⟩ : Node) with position := (⟨st.next_id + 1, first_source_pos (source_pos_of st) (resolve_node_set_connections st selected).outputs false ((⟨0, 0⟩ : Vec2) + ⟨300, 0⟩), [execPin] ++ (match (out_ret (source_pin_of st) (resolve_node_set_connections st selected).outputs false) with | some T => [(⟨"return value", T, false⟩ : Pin)] | none => []), [], false, NodeKind.functionResult⟩ : Node).position - ⟨250, 0⟩ } else (⟨st.next_id, first_target_pos (target_pos_of st) (resolve_node_set_connections st selected).inputs false ⟨0, 0⟩, [], [execPin] ++ (in_args (target_pin_of st) (resolve_node_set_connections st selected).inputs).map (fun a => (⟨a.1, a.2, false⟩ : Pin)), false, NodeKind.functionEntry⟩ : Node)), (⟨st.next_id + 1, first_source_pos (source_pos_of st) (resolve_node_set_connections st selected).outputs false ((⟨0, 0⟩ : Vec2) + ⟨300, 0⟩), [execPin] ++ (match (out_ret (source_pin_of st) (resolve_node_set_connections st selected).outputs false) with | some T => [(⟨"return value", T, false⟩ : Pin)] | none => []), [], false, NodeKind.functionResult⟩ : Node)] from by
          rw [List.filter_cons, List.filter_cons, List.filter_cons,
            show (!(Node.id (if ((0 < (⟨st.next_id + 1, first_source_pos (source_pos_of st) (resolve_node_set_connections st selected).outputs false ((⟨0, 0⟩ : Vec2) + ⟨300, 0⟩), [execPin] ++ (match (out_ret (source_pin_of st) (resolve_node_set_connections st selected).outputs false) with | some T => [(⟨"return value", T, false⟩ : Pin)] | none => []), [], false, NodeKind.functionResult⟩ : Node).inputs.length && !(((List.filter (fun d => !(decide (d ∈ (resolve_node_set_connections st selected).inputs)) && !(decide (d ∈ (resolve_node_set_connections st selected).outputs))) st.connections) ++ (in_wires (source_pin_of st) (target_pin_of st) (st.next_id + 2) st.next_id (resolve_node_set_connections st selected).inputs 1 1 false false) ++ (out_wires (source_pin_of st) (st.next_id + 1) (resolve_node_set_connections st selected).outputs false false)).any (fun c => c.to_node == st.next_id + 1 && c.to_port == 0))) && (0 < (⟨st.next_id, first_target_pos (target_pos_of st) (resolve_node_set_connections st selected).inputs false ⟨0, 0⟩, [], [execPin] ++ (in_args (target_pin_of st) (resolve_node_set_connections st selected).inputs).map (fun a => (⟨a.1, a.2, false⟩ : Pin)), false, NodeKind.functionEntry⟩ : Node).outputs.length && !(((List.filter (fun d => !(decide (d ∈ (resolve_node_set_connections st selected).inputs)) && !(decide (d ∈ (resolve_node_set_connections st selected).outputs))) st.connections) ++ (in_wires (source_pin_of st) (target_pin_of st) (st.next_id + 2) st.next_id (resolve_node_set_connections st selected).inputs 1 1 false false) ++ (out_wires (source_pin_of st) (st.next_id + 1) (resolve_node_set_connections st selected).outputs false false)).any (fun c => c.from_node == st.next_id && c.from_port == 0)))) && ((⟨st.next_id, first_target_pos (target_pos_of st) (resolve_node_set_connections st selected).inputs false ⟨0, 0⟩, [], [execPin] ++ (in_args (target_pin_of st) (resolve_node_set_connections st selected).inputs).map (fun a => (⟨a.1, a.2, false⟩ : Pin)), false, NodeKind.functionEntry⟩ : Node).outputs.length == 1) then { (⟨st.next_id, first_target_pos (target_pos_of st) (resolve_node_set_connections st selected).inputs false ⟨0, 0⟩, [], [execPin] ++ (in_args (target_pin_of st) (resolve_node_set_connections st selected).inputs).map (fun a => (⟨a.1, a.2, false⟩ : Pin)), false, NodeKind.functionEntry⟩ : Node) with position := (⟨st.next_id + 1, first_source_pos (source_pos_of st) (resolve_node_set_connections st selected).outputs false ((⟨0, 0⟩ : Vec2) + ⟨300, 0⟩), [execPin] ++ (match (out_ret (source_pin_of st) (resolve_node_set_connections st selected).outputs false) with | some T => [(⟨"return value", T, false⟩ : Pin)] | none => []), [], false, NodeKind.functionResult⟩ : Node).position - ⟨250, 0⟩ } else (⟨st.next_id, first_target_pos (target_pos_of st) (resolve_node_set_connections st selected).inputs false ⟨0, 0⟩, [], [execPin] ++ (in_args (target_pin_of st) (resolve_node_set_connections st selected).inputs).map (fun a => (⟨a.1, a.2, false⟩ : Pin)), false, NodeKind.functionEntry⟩ : Node)) == st.next_id + 2)) = true from by split <;> simp,
            show (!(Node.id (⟨st.next_id + 1, first_source_pos (source_pos_of st) (resolve_node_set_connections st selected).outputs false ((⟨0, 0⟩ : Vec2) + ⟨300, 0⟩), [execPin] ++ (match (out_ret (source_pin_of st) (resolve_node_set_connections st selected).outputs false) with | some T => [(⟨"return value", T, false⟩ : Pin)] | none => []), [], false, NodeKind.functionResult⟩ : Node) == st.next_id + 2)) = true from by simp,
            show (!(Node.id (⟨st.next_id + 2, (get_node_set_rect selected).get_center, [execPin], [execPin], true, NodeKind.callScriptFunction (collapse_fname st)⟩ : Node) == st.next_id + 2)) = false from by simp]
          rfl]
      rfl
    have hltot : (collapse_spec_state st src_graph selected).nodes.length
        = st.nodes.length + 3 := by
      simp only [collapse_spec_state]
      rw [List.length_append]
      rfl
    rw [hflt, hltot]
    omega
  · intro i a j b hi hj
    have hrmi := dup_map_ge selected (st.next_id + 3) i hi
    have hrmj := dup_map_ge selected (st.next_id + 3) j hj
    constructor
    · intro hmem
      rw [List.mem_append] at hmem
      rcases hmem with hm | hm
      · exfalso
        have hsc := spec_conns_bound st src_graph selected hwf hwc _ (List.mem_of_mem_filter hm)
        simp only [] at hsc
        have hsc1 := hsc.1
        simp at hsc1
        omega
      · obtain ⟨E, hE, heq⟩ := List.mem_map.mp hm
        simp only [Connection.mk.injEq] at heq
        obtain ⟨hqf, hqfp, hqt, hqtp⟩ := heq
        rw [spec_internal_eq st src_graph selected hwf hwc hsel] at hE
        have hEb := (List.mem_filter.mp hE).2
        simp only [Bool.and_eq_true] at hEb
        have hif : E.from_node = i :=
          dup_map_inj selected hnodup (st.next_id + 3) _ _ hEb.1 hi hqf
        have hjt : E.to_node = j :=
          dup_map_inj selected hnodup (st.next_id + 3) _ _ hEb.2 hj hqt
        have hEeq : E = ⟨i, a, j, b⟩ := by
          show E = (⟨i, a, j, b⟩ : Connection)
          have : (⟨E.from_node, E.from_port, E.to_node, E.to_port⟩ : Connection) = E := rfl
          rw [← this, hif, hjt, hqfp, hqtp]
        rw [← hEeq]
        exact List.mem_of_mem_filter hE
    · intro hmem
      refine List.mem_append.mpr (Or.inr ?_)
      rw [spec_internal_eq st src_graph selected hwf hwc hsel]
      refine List.mem_map.mpr ⟨⟨i, a, j, b⟩, ?_, rfl⟩
      refine List.mem_filter.mpr ⟨hmem, ?_⟩
      show (nodes_has selected i && nodes_has selected j) = true
      rw [hi, hj]
      rfl
  · intro c hc
    rw [List.mem_append] at hc
    rcases hc with hm | hm
    · have hb1 := spec_conns_bound st src_graph selected hwf hwc _ (List.mem_of_mem_filter hm)
      constructor
      · rintro ⟨q, hq⟩
        exfalso
        have := dup_map_snd_ge selected (st.next_id + 3) q _ hq
        omega
      · rintro ⟨q, hq⟩
        exfalso
        have := dup_map_snd_ge selected (st.next_id + 3) q _ hq
        omega
    · obtain ⟨E, hE, rfl⟩ := List.mem_map.mp hm
      rw [spec_internal_eq st src_graph selected hwf hwc hsel] at hE
      have hEb := (List.mem_filter.mp hE).2
      simp only [Bool.and_eq_true] at hEb
      constructor
      · intro _
        obtain ⟨q, hq⟩ := dup_map_mem_of_has selected (st.next_id + 3) E.to_node hEb.2
        exact ⟨q, hq⟩
      · intro _
        obtain ⟨q, hq⟩ := dup_map_mem_of_has selected (st.next_id + 3) E.from_node hEb.1
        exact ⟨q, hq⟩

end OModel

namespace OModel

/-- Witness orchestration for the extraction claims: one selected node with
one inbound execution wire, one inbound data wire, one outbound execution
wire and one outbound data wire. -/
def wcol_st : Orchestration :=
  { nodes :=
      [⟨1, ⟨0, 0⟩, [], [⟨"ExecOut", 0, true⟩, ⟨"val", 3, false⟩], true, NodeKind.generic⟩,
       ⟨2, ⟨10, 0⟩, [⟨"ExecIn", 0, true⟩, ⟨"a", 3, false⟩],
          [⟨"ExecOut", 0, true⟩, ⟨"out", 3, false⟩], true, NodeKind.generic⟩,
       ⟨3, ⟨20, 0⟩, [⟨"ExecIn", 0, true⟩, ⟨"b", 3, false⟩], [], true, NodeKind.generic⟩],
    connections := [⟨1, 0, 2, 0⟩, ⟨1, 1, 2, 1⟩, ⟨2, 0, 3, 0⟩, ⟨2, 1, 3, 1⟩],
    graphs := [⟨"main", [1, 2, 3]⟩],
    functions := [],
    next_id := 4 }

/-- The selection handed to the extraction witness: the middle node. -/
def wcol_sel : List Node :=
  [⟨2, ⟨10, 0⟩, [⟨"ExecIn", 0, true⟩, ⟨"a", 3, false⟩],
      [⟨"ExecOut", 0, true⟩, ⟨"out", 3, false⟩], true, NodeKind.generic⟩]

theorem c2_inbound_rewiring_witness :
    ((collapse_selected_to_function wcol_st "main" wcol_sel).1).connections.filter
        (fun c => c.to_node == wcol_st.next_id + 2 && c.to_port == 0)
      = (match (resolve_node_set_connections wcol_st wcol_sel).inputs.find?
            (fun E => (source_pin_of wcol_st E).is_execution) with
         | some E => [(⟨E.from_node, E.from_port, wcol_st.next_id + 2, 0⟩ : Connection)]
         | none => []) :=
  (c2_inbound_rewiring wcol_st "main" wcol_sel (by decide) (by decide)
    ⟨by decide, by decide⟩ (by unfold Orchestration.wf_conns; decide)
    (by decide) (by decide)).1

theorem c3_outbound_rewiring_witness :
    ((collapse_selected_to_function wcol_st "main" wcol_sel).1).connections.filter
        (fun c => c.to_node == wcol_st.next_id + 1 && c.to_port == 0
          && !(c.from_node == wcol_st.next_id))
      = (match (resolve_node_set_connections wcol_st wcol_sel).outputs.find?
            (fun E => (source_pin_of wcol_st E).is_execution) with
         | some E => [(⟨E.from_node, E.from_port, wcol_st.next_id + 1, 0⟩ : Connection)]
         | none => []) :=
  (c3_outbound_rewiring wcol_st "main" wcol_sel (by decide) (by decide)
    ⟨by decide, by decide⟩ (by unfold Orchestration.wf_conns; decide)
    (by decide) (by decide)).1

theorem c8_degenerate_fixup_witness :
    (⟨wcol_st.next_id, 0, wcol_st.next_id + 1, 0⟩ : Connection)
        ∈ ((collapse_selected_to_function wcol_st "main" wcol_sel).1).connections
      ↔ (((List.filter (fun d => !(decide (d ∈ (resolve_node_set_connections wcol_st wcol_sel).inputs)) && !(decide (d ∈ (resolve_node_set_connections wcol_st wcol_sel).outputs))) wcol_st.connections) ++ (in_wires (source_pin_of wcol_st) (target_pin_of wcol_st) (wcol_st.next_id + 2) wcol_st.next_id (resolve_node_set_connections wcol_st wcol_sel).inputs 1 1 false false) ++ (out_wires (source_pin_of wcol_st) (wcol_st.next_id + 1) (resolve_node_set_connections wcol_st wcol_sel).outputs false false)).any
          (fun c => c.to_node == wcol_st.next_id + 1 && c.to_port == 0) = false
        ∧ ((List.filter (fun d => !(decide (d ∈ (resolve_node_set_connections wcol_st wcol_sel).inputs)) && !(decide (d ∈ (resolve_node_set_connections wcol_st wcol_sel).outputs))) wcol_st.connections) ++ (in_wires (source_pin_of wcol_st) (target_pin_of wcol_st) (wcol_st.next_id + 2) wcol_st.next_id (resolve_node_set_connections wcol_st wcol_sel).inputs 1 1 false false) ++ (out_wires (source_pin_of wcol_st) (wcol_st.next_id + 1) (resolve_node_set_connections wcol_st wcol_sel).outputs false false)).any
          (fun c => c.from_node == wcol_st.next_id && c.from_port == 0) = false) :=
  (c8_degenerate_fixup wcol_st "main" wcol_sel (by decide) (by decide)
    ⟨by decide, by decide⟩ (by unfold Orchestration.wf_conns; decide)
    (by decide) (by decide)).1

theorem c5_round_trip_witness :
    (expand_node ((collapse_selected_to_function wcol_st "main" wcol_sel).1)
        (wcol_st.next_id + 2) "main").nodes.length
      = ((collapse_selected_to_function wcol_st "main" wcol_sel).1).nodes.length - 1
        + wcol_sel.length :=
  (c5_round_trip wcol_st "main" wcol_sel (by decide) (by decide)
    ⟨by decide, by decide⟩ (by unfold Orchestration.wf_conns; decide)
    (by decide) (by decide) (by decide) (by decide) (by decide)).2.1

end OModel

namespace OModel

/-- Witness orchestration for the inline claim: a Call node in "main"
referencing function "F" whose body holds two duplicable nodes and one
internal connection. -/
def wexp_st : Orchestration :=
  { nodes := [⟨1, ⟨10, 10⟩, [execPin], [execPin], true, NodeKind.callScriptFunction "F"⟩,
              ⟨2, ⟨0, 0⟩, [], [execPin], false, NodeKind.functionEntry⟩,
              ⟨3, ⟨300, 0⟩, [execPin], [], false, NodeKind.functionResult⟩,
              ⟨4, ⟨5, 5⟩, [⟨"x", 3, false⟩], [⟨"y", 3, false⟩], true, NodeKind.generic⟩,
              ⟨5, ⟨15, 5⟩, [⟨"z", 3, false⟩], [], true, NodeKind.generic⟩],
    connections := [⟨4, 0, 5, 0⟩],
    graphs := [⟨"main", [1]⟩, ⟨"F", [2, 3, 4, 5]⟩],
    functions := [⟨"F", [], false, 0, 2, some 3⟩],
    next_id := 6 }

theorem c6_inline_mechanics_witness :
    expand_node wexp_st 1 "main"
    = { nodes := wexp_st.nodes.filter (fun n => !(n.id == 1))
          ++ dup_nodes ((⟨10, 10⟩ : Vec2)
              - (get_node_set_rect (function_body_nodes wexp_st "F")).get_center)
            (function_body_nodes wexp_st "F") wexp_st.next_id,
        connections := (wexp_st.connections.filter
            (fun c => !(c.from_node == 1) && !(c.to_node == 1)))
          ++ (wexp_st.connections.filter
              (fun c => nodes_has (function_body_nodes wexp_st "F") c.from_node
                && nodes_has (function_body_nodes wexp_st "F") c.to_node)).map
            (fun E => (⟨remap_get (dup_map (function_body_nodes wexp_st "F") wexp_st.next_id) E.from_node,
                E.from_port,
                remap_get (dup_map (function_body_nodes wexp_st "F") wexp_st.next_id) E.to_node,
                E.to_port⟩ : Connection)),
        graphs := wexp_st.graphs.map (fun g => { g with node_ids := (if g.graph_name == "main" then g.node_ids ++ dup_ids (function_body_nodes wexp_st "F") wexp_st.next_id else g.node_ids).filter (fun i => !(i == 1)) }),
        functions := wexp_st.functions,
        next_id := wexp_st.next_id + (function_body_nodes wexp_st "F").length } :=
  c6_inline_mechanics wexp_st 1 "main" ⟨by decide, by decide⟩
    ⟨1, ⟨10, 10⟩, [execPin], [execPin], true, NodeKind.callScriptFunction "F"⟩ (by decide)
    "F" rfl ⟨"F", [], false, 0, 2, some 3⟩ (by decide) (by decide)

end OModel
